import Mathlib

/-!
Shallow embedding of the plate-normalization-and-matching core of `bot.py`
(Telegram bot storing license-plate photos in MongoDB), together with a model
of the storage layer and the text-message handler.

Strings are modelled as `List Char` (Unicode codepoints, as in Python `str`).
The character-level behaviour of Python's `str.strip` / `str.split` /
`str.upper` and of the `re` module's `\d` class is embedded via explicit
Unicode data tables (whitespace set, uppercase mapping, and the ranges of
Unicode general category Nd), generated from the Unicode character database
that CPython's string methods and `re` module consult.
-/

namespace Avto

/-- Codepoints of the characters Python `str.strip`/`str.split` treat as
whitespace (the set accepted by `str.isspace`). -/
def pyWhitespaceCodes : List Nat :=
  [0x9, 0xa, 0xb, 0xc, 0xd, 0x1c, 0x1d, 0x1e, 0x1f, 0x20, 0x85, 0xa0, 0x1680, 0x2000, 0x2001, 0x2002, 0x2003, 0x2004, 0x2005, 0x2006, 0x2007, 0x2008, 0x2009, 0x200a, 0x2028, 0x2029, 0x202f, 0x205f, 0x3000]

/-- Whitespace test used by the embedded `str.strip` and `str.split`. -/
def pyIsSpace (c : Char) : Bool := pyWhitespaceCodes.contains c.toNat

/-- Inclusive codepoint ranges of Unicode general category Nd (decimal digits).
Python's `re` pattern class `\d` (no `re.ASCII` flag, as in `bot.py`) matches
exactly these characters. -/
def ndRanges : List (Nat × Nat) :=
  [(0x30, 0x39), (0x660, 0x669), (0x6f0, 0x6f9), (0x7c0, 0x7c9), (0x966, 0x96f), (0x9e6, 0x9ef),
   (0xa66, 0xa6f), (0xae6, 0xaef), (0xb66, 0xb6f), (0xbe6, 0xbef), (0xc66, 0xc6f), (0xce6, 0xcef),
   (0xd66, 0xd6f), (0xde6, 0xdef), (0xe50, 0xe59), (0xed0, 0xed9), (0xf20, 0xf29), (0x1040, 0x1049),
   (0x1090, 0x1099), (0x17e0, 0x17e9), (0x1810, 0x1819), (0x1946, 0x194f), (0x19d0, 0x19d9), (0x1a80, 0x1a89),
   (0x1a90, 0x1a99), (0x1b50, 0x1b59), (0x1bb0, 0x1bb9), (0x1c40, 0x1c49), (0x1c50, 0x1c59), (0xa620, 0xa629),
   (0xa8d0, 0xa8d9), (0xa900, 0xa909), (0xa9d0, 0xa9d9), (0xa9f0, 0xa9f9), (0xaa50, 0xaa59), (0xabf0, 0xabf9),
   (0xff10, 0xff19), (0x104a0, 0x104a9), (0x10d30, 0x10d39), (0x11066, 0x1106f), (0x110f0, 0x110f9), (0x11136, 0x1113f),
   (0x111d0, 0x111d9), (0x112f0, 0x112f9), (0x11450, 0x11459), (0x114d0, 0x114d9), (0x11650, 0x11659), (0x116c0, 0x116c9),
   (0x11730, 0x11739), (0x118e0, 0x118e9), (0x11950, 0x11959), (0x11c50, 0x11c59), (0x11d50, 0x11d59), (0x11da0, 0x11da9),
   (0x16a60, 0x16a69), (0x16ac0, 0x16ac9), (0x16b50, 0x16b59), (0x1d7ce, 0x1d7ff), (0x1e140, 0x1e149), (0x1e2f0, 0x1e2f9),
   (0x1e950, 0x1e959), (0x1fbf0, 0x1fbf9)]

/-- Range membership for the sorted, disjoint range list `ndRanges`. -/
def isNdIn : Nat → List (Nat × Nat) → Bool
  | _, [] => false
  | n, (lo, hi) :: rest => if n < lo then false else if n ≤ hi then true else isNdIn n rest

/-- The character class matched by `\d` in the validation regexes. -/
def isReDigit (c : Char) : Bool := isNdIn c.toNat ndRanges

set_option maxHeartbeats 3200000 in
/-- Uppercase mapping table: every codepoint `c` with `chr(c).upper() != chr(c)`
in Python, paired with the codepoints of `chr(c).upper()` (full case mapping,
so a few entries expand to two or three codepoints).  Sorted by key. -/
def upperTable : List (Nat × List Nat) :=
  [(0x61, [0x41]), (0x62, [0x42]), (0x63, [0x43]), (0x64, [0x44]), (0x65, [0x45]),
   (0x66, [0x46]), (0x67, [0x47]), (0x68, [0x48]), (0x69, [0x49]), (0x6a, [0x4a]),
   (0x6b, [0x4b]), (0x6c, [0x4c]), (0x6d, [0x4d]), (0x6e, [0x4e]), (0x6f, [0x4f]),
   (0x70, [0x50]), (0x71, [0x51]), (0x72, [0x52]), (0x73, [0x53]), (0x74, [0x54]),
   (0x75, [0x55]), (0x76, [0x56]), (0x77, [0x57]), (0x78, [0x58]), (0x79, [0x59]),
   (0x7a, [0x5a]), (0xb5, [0x39c]), (0xdf, [0x53, 0x53]), (0xe0, [0xc0]), (0xe1, [0xc1]),
   (0xe2, [0xc2]), (0xe3, [0xc3]), (0xe4, [0xc4]), (0xe5, [0xc5]), (0xe6, [0xc6]),
   (0xe7, [0xc7]), (0xe8, [0xc8]), (0xe9, [0xc9]), (0xea, [0xca]), (0xeb, [0xcb]),
   (0xec, [0xcc]), (0xed, [0xcd]), (0xee, [0xce]), (0xef, [0xcf]), (0xf0, [0xd0]),
   (0xf1, [0xd1]), (0xf2, [0xd2]), (0xf3, [0xd3]), (0xf4, [0xd4]), (0xf5, [0xd5]),
   (0xf6, [0xd6]), (0xf8, [0xd8]), (0xf9, [0xd9]), (0xfa, [0xda]), (0xfb, [0xdb]),
   (0xfc, [0xdc]), (0xfd, [0xdd]), (0xfe, [0xde]), (0xff, [0x178]), (0x101, [0x100]),
   (0x103, [0x102]), (0x105, [0x104]), (0x107, [0x106]), (0x109, [0x108]), (0x10b, [0x10a]),
   (0x10d, [0x10c]), (0x10f, [0x10e]), (0x111, [0x110]), (0x113, [0x112]), (0x115, [0x114]),
   (0x117, [0x116]), (0x119, [0x118]), (0x11b, [0x11a]), (0x11d, [0x11c]), (0x11f, [0x11e]),
   (0x121, [0x120]), (0x123, [0x122]), (0x125, [0x124]), (0x127, [0x126]), (0x129, [0x128]),
   (0x12b, [0x12a]), (0x12d, [0x12c]), (0x12f, [0x12e]), (0x131, [0x49]), (0x133, [0x132]),
   (0x135, [0x134]), (0x137, [0x136]), (0x13a, [0x139]), (0x13c, [0x13b]), (0x13e, [0x13d]),
   (0x140, [0x13f]), (0x142, [0x141]), (0x144, [0x143]), (0x146, [0x145]), (0x148, [0x147]),
   (0x149, [0x2bc, 0x4e]), (0x14b, [0x14a]), (0x14d, [0x14c]), (0x14f, [0x14e]), (0x151, [0x150]),
   (0x153, [0x152]), (0x155, [0x154]), (0x157, [0x156]), (0x159, [0x158]), (0x15b, [0x15a]),
   (0x15d, [0x15c]), (0x15f, [0x15e]), (0x161, [0x160]), (0x163, [0x162]), (0x165, [0x164]),
   (0x167, [0x166]), (0x169, [0x168]), (0x16b, [0x16a]), (0x16d, [0x16c]), (0x16f, [0x16e]),
   (0x171, [0x170]), (0x173, [0x172]), (0x175, [0x174]), (0x177, [0x176]), (0x17a, [0x179]),
   (0x17c, [0x17b]), (0x17e, [0x17d]), (0x17f, [0x53]), (0x180, [0x243]), (0x183, [0x182]),
   (0x185, [0x184]), (0x188, [0x187]), (0x18c, [0x18b]), (0x192, [0x191]), (0x195, [0x1f6]),
   (0x199, [0x198]), (0x19a, [0x23d]), (0x19e, [0x220]), (0x1a1, [0x1a0]), (0x1a3, [0x1a2]),
   (0x1a5, [0x1a4]), (0x1a8, [0x1a7]), (0x1ad, [0x1ac]), (0x1b0, [0x1af]), (0x1b4, [0x1b3]),
   (0x1b6, [0x1b5]), (0x1b9, [0x1b8]), (0x1bd, [0x1bc]), (0x1bf, [0x1f7]), (0x1c5, [0x1c4]),
   (0x1c6, [0x1c4]), (0x1c8, [0x1c7]), (0x1c9, [0x1c7]), (0x1cb, [0x1ca]), (0x1cc, [0x1ca]),
   (0x1ce, [0x1cd]), (0x1d0, [0x1cf]), (0x1d2, [0x1d1]), (0x1d4, [0x1d3]), (0x1d6, [0x1d5]),
   (0x1d8, [0x1d7]), (0x1da, [0x1d9]), (0x1dc, [0x1db]), (0x1dd, [0x18e]), (0x1df, [0x1de]),
   (0x1e1, [0x1e0]), (0x1e3, [0x1e2]), (0x1e5, [0x1e4]), (0x1e7, [0x1e6]), (0x1e9, [0x1e8]),
   (0x1eb, [0x1ea]), (0x1ed, [0x1ec]), (0x1ef, [0x1ee]), (0x1f0, [0x4a, 0x30c]), (0x1f2, [0x1f1]),
   (0x1f3, [0x1f1]), (0x1f5, [0x1f4]), (0x1f9, [0x1f8]), (0x1fb, [0x1fa]), (0x1fd, [0x1fc]),
   (0x1ff, [0x1fe]), (0x201, [0x200]), (0x203, [0x202]), (0x205, [0x204]), (0x207, [0x206]),
   (0x209, [0x208]), (0x20b, [0x20a]), (0x20d, [0x20c]), (0x20f, [0x20e]), (0x211, [0x210]),
   (0x213, [0x212]), (0x215, [0x214]), (0x217, [0x216]), (0x219, [0x218]), (0x21b, [0x21a]),
   (0x21d, [0x21c]), (0x21f, [0x21e]), (0x223, [0x222]), (0x225, [0x224]), (0x227, [0x226]),
   (0x229, [0x228]), (0x22b, [0x22a]), (0x22d, [0x22c]), (0x22f, [0x22e]), (0x231, [0x230]),
   (0x233, [0x232]), (0x23c, [0x23b]), (0x23f, [0x2c7e]), (0x240, [0x2c7f]), (0x242, [0x241]),
   (0x247, [0x246]), (0x249, [0x248]), (0x24b, [0x24a]), (0x24d, [0x24c]), (0x24f, [0x24e]),
   (0x250, [0x2c6f]), (0x251, [0x2c6d]), (0x252, [0x2c70]), (0x253, [0x181]), (0x254, [0x186]),
   (0x256, [0x189]), (0x257, [0x18a]), (0x259, [0x18f]), (0x25b, [0x190]), (0x25c, [0xa7ab]),
   (0x260, [0x193]), (0x261, [0xa7ac]), (0x263, [0x194]), (0x265, [0xa78d]), (0x266, [0xa7aa]),
   (0x268, [0x197]), (0x269, [0x196]), (0x26a, [0xa7ae]), (0x26b, [0x2c62]), (0x26c, [0xa7ad]),
   (0x26f, [0x19c]), (0x271, [0x2c6e]), (0x272, [0x19d]), (0x275, [0x19f]), (0x27d, [0x2c64]),
   (0x280, [0x1a6]), (0x282, [0xa7c5]), (0x283, [0x1a9]), (0x287, [0xa7b1]), (0x288, [0x1ae]),
   (0x289, [0x244]), (0x28a, [0x1b1]), (0x28b, [0x1b2]), (0x28c, [0x245]), (0x292, [0x1b7]),
   (0x29d, [0xa7b2]), (0x29e, [0xa7b0]), (0x345, [0x399]), (0x371, [0x370]), (0x373, [0x372]),
   (0x377, [0x376]), (0x37b, [0x3fd]), (0x37c, [0x3fe]), (0x37d, [0x3ff]), (0x390, [0x399, 0x308, 0x301]),
   (0x3ac, [0x386]), (0x3ad, [0x388]), (0x3ae, [0x389]), (0x3af, [0x38a]), (0x3b0, [0x3a5, 0x308, 0x301]),
   (0x3b1, [0x391]), (0x3b2, [0x392]), (0x3b3, [0x393]), (0x3b4, [0x394]), (0x3b5, [0x395]),
   (0x3b6, [0x396]), (0x3b7, [0x397]), (0x3b8, [0x398]), (0x3b9, [0x399]), (0x3ba, [0x39a]),
   (0x3bb, [0x39b]), (0x3bc, [0x39c]), (0x3bd, [0x39d]), (0x3be, [0x39e]), (0x3bf, [0x39f]),
   (0x3c0, [0x3a0]), (0x3c1, [0x3a1]), (0x3c2, [0x3a3]), (0x3c3, [0x3a3]), (0x3c4, [0x3a4]),
   (0x3c5, [0x3a5]), (0x3c6, [0x3a6]), (0x3c7, [0x3a7]), (0x3c8, [0x3a8]), (0x3c9, [0x3a9]),
   (0x3ca, [0x3aa]), (0x3cb, [0x3ab]), (0x3cc, [0x38c]), (0x3cd, [0x38e]), (0x3ce, [0x38f]),
   (0x3d0, [0x392]), (0x3d1, [0x398]), (0x3d5, [0x3a6]), (0x3d6, [0x3a0]), (0x3d7, [0x3cf]),
   (0x3d9, [0x3d8]), (0x3db, [0x3da]), (0x3dd, [0x3dc]), (0x3df, [0x3de]), (0x3e1, [0x3e0]),
   (0x3e3, [0x3e2]), (0x3e5, [0x3e4]), (0x3e7, [0x3e6]), (0x3e9, [0x3e8]), (0x3eb, [0x3ea]),
   (0x3ed, [0x3ec]), (0x3ef, [0x3ee]), (0x3f0, [0x39a]), (0x3f1, [0x3a1]), (0x3f2, [0x3f9]),
   (0x3f3, [0x37f]), (0x3f5, [0x395]), (0x3f8, [0x3f7]), (0x3fb, [0x3fa]), (0x430, [0x410]),
   (0x431, [0x411]), (0x432, [0x412]), (0x433, [0x413]), (0x434, [0x414]), (0x435, [0x415]),
   (0x436, [0x416]), (0x437, [0x417]), (0x438, [0x418]), (0x439, [0x419]), (0x43a, [0x41a]),
   (0x43b, [0x41b]), (0x43c, [0x41c]), (0x43d, [0x41d]), (0x43e, [0x41e]), (0x43f, [0x41f]),
   (0x440, [0x420]), (0x441, [0x421]), (0x442, [0x422]), (0x443, [0x423]), (0x444, [0x424]),
   (0x445, [0x425]), (0x446, [0x426]), (0x447, [0x427]), (0x448, [0x428]), (0x449, [0x429]),
   (0x44a, [0x42a]), (0x44b, [0x42b]), (0x44c, [0x42c]), (0x44d, [0x42d]), (0x44e, [0x42e]),
   (0x44f, [0x42f]), (0x450, [0x400]), (0x451, [0x401]), (0x452, [0x402]), (0x453, [0x403]),
   (0x454, [0x404]), (0x455, [0x405]), (0x456, [0x406]), (0x457, [0x407]), (0x458, [0x408]),
   (0x459, [0x409]), (0x45a, [0x40a]), (0x45b, [0x40b]), (0x45c, [0x40c]), (0x45d, [0x40d]),
   (0x45e, [0x40e]), (0x45f, [0x40f]), (0x461, [0x460]), (0x463, [0x462]), (0x465, [0x464]),
   (0x467, [0x466]), (0x469, [0x468]), (0x46b, [0x46a]), (0x46d, [0x46c]), (0x46f, [0x46e]),
   (0x471, [0x470]), (0x473, [0x472]), (0x475, [0x474]), (0x477, [0x476]), (0x479, [0x478]),
   (0x47b, [0x47a]), (0x47d, [0x47c]), (0x47f, [0x47e]), (0x481, [0x480]), (0x48b, [0x48a]),
   (0x48d, [0x48c]), (0x48f, [0x48e]), (0x491, [0x490]), (0x493, [0x492]), (0x495, [0x494]),
   (0x497, [0x496]), (0x499, [0x498]), (0x49b, [0x49a]), (0x49d, [0x49c]), (0x49f, [0x49e]),
   (0x4a1, [0x4a0]), (0x4a3, [0x4a2]), (0x4a5, [0x4a4]), (0x4a7, [0x4a6]), (0x4a9, [0x4a8]),
   (0x4ab, [0x4aa]), (0x4ad, [0x4ac]), (0x4af, [0x4ae]), (0x4b1, [0x4b0]), (0x4b3, [0x4b2]),
   (0x4b5, [0x4b4]), (0x4b7, [0x4b6]), (0x4b9, [0x4b8]), (0x4bb, [0x4ba]), (0x4bd, [0x4bc]),
   (0x4bf, [0x4be]), (0x4c2, [0x4c1]), (0x4c4, [0x4c3]), (0x4c6, [0x4c5]), (0x4c8, [0x4c7]),
   (0x4ca, [0x4c9]), (0x4cc, [0x4cb]), (0x4ce, [0x4cd]), (0x4cf, [0x4c0]), (0x4d1, [0x4d0]),
   (0x4d3, [0x4d2]), (0x4d5, [0x4d4]), (0x4d7, [0x4d6]), (0x4d9, [0x4d8]), (0x4db, [0x4da]),
   (0x4dd, [0x4dc]), (0x4df, [0x4de]), (0x4e1, [0x4e0]), (0x4e3, [0x4e2]), (0x4e5, [0x4e4]),
   (0x4e7, [0x4e6]), (0x4e9, [0x4e8]), (0x4eb, [0x4ea]), (0x4ed, [0x4ec]), (0x4ef, [0x4ee]),
   (0x4f1, [0x4f0]), (0x4f3, [0x4f2]), (0x4f5, [0x4f4]), (0x4f7, [0x4f6]), (0x4f9, [0x4f8]),
   (0x4fb, [0x4fa]), (0x4fd, [0x4fc]), (0x4ff, [0x4fe]), (0x501, [0x500]), (0x503, [0x502]),
   (0x505, [0x504]), (0x507, [0x506]), (0x509, [0x508]), (0x50b, [0x50a]), (0x50d, [0x50c]),
   (0x50f, [0x50e]), (0x511, [0x510]), (0x513, [0x512]), (0x515, [0x514]), (0x517, [0x516]),
   (0x519, [0x518]), (0x51b, [0x51a]), (0x51d, [0x51c]), (0x51f, [0x51e]), (0x521, [0x520]),
   (0x523, [0x522]), (0x525, [0x524]), (0x527, [0x526]), (0x529, [0x528]), (0x52b, [0x52a]),
   (0x52d, [0x52c]), (0x52f, [0x52e]), (0x561, [0x531]), (0x562, [0x532]), (0x563, [0x533]),
   (0x564, [0x534]), (0x565, [0x535]), (0x566, [0x536]), (0x567, [0x537]), (0x568, [0x538]),
   (0x569, [0x539]), (0x56a, [0x53a]), (0x56b, [0x53b]), (0x56c, [0x53c]), (0x56d, [0x53d]),
   (0x56e, [0x53e]), (0x56f, [0x53f]), (0x570, [0x540]), (0x571, [0x541]), (0x572, [0x542]),
   (0x573, [0x543]), (0x574, [0x544]), (0x575, [0x545]), (0x576, [0x546]), (0x577, [0x547]),
   (0x578, [0x548]), (0x579, [0x549]), (0x57a, [0x54a]), (0x57b, [0x54b]), (0x57c, [0x54c]),
   (0x57d, [0x54d]), (0x57e, [0x54e]), (0x57f, [0x54f]), (0x580, [0x550]), (0x581, [0x551]),
   (0x582, [0x552]), (0x583, [0x553]), (0x584, [0x554]), (0x585, [0x555]), (0x586, [0x556]),
   (0x587, [0x535, 0x552]), (0x10d0, [0x1c90]), (0x10d1, [0x1c91]), (0x10d2, [0x1c92]), (0x10d3, [0x1c93]),
   (0x10d4, [0x1c94]), (0x10d5, [0x1c95]), (0x10d6, [0x1c96]), (0x10d7, [0x1c97]), (0x10d8, [0x1c98]),
   (0x10d9, [0x1c99]), (0x10da, [0x1c9a]), (0x10db, [0x1c9b]), (0x10dc, [0x1c9c]), (0x10dd, [0x1c9d]),
   (0x10de, [0x1c9e]), (0x10df, [0x1c9f]), (0x10e0, [0x1ca0]), (0x10e1, [0x1ca1]), (0x10e2, [0x1ca2]),
   (0x10e3, [0x1ca3]), (0x10e4, [0x1ca4]), (0x10e5, [0x1ca5]), (0x10e6, [0x1ca6]), (0x10e7, [0x1ca7]),
   (0x10e8, [0x1ca8]), (0x10e9, [0x1ca9]), (0x10ea, [0x1caa]), (0x10eb, [0x1cab]), (0x10ec, [0x1cac]),
   (0x10ed, [0x1cad]), (0x10ee, [0x1cae]), (0x10ef, [0x1caf]), (0x10f0, [0x1cb0]), (0x10f1, [0x1cb1]),
   (0x10f2, [0x1cb2]), (0x10f3, [0x1cb3]), (0x10f4, [0x1cb4]), (0x10f5, [0x1cb5]), (0x10f6, [0x1cb6]),
   (0x10f7, [0x1cb7]), (0x10f8, [0x1cb8]), (0x10f9, [0x1cb9]), (0x10fa, [0x1cba]), (0x10fd, [0x1cbd]),
   (0x10fe, [0x1cbe]), (0x10ff, [0x1cbf]), (0x13f8, [0x13f0]), (0x13f9, [0x13f1]), (0x13fa, [0x13f2]),
   (0x13fb, [0x13f3]), (0x13fc, [0x13f4]), (0x13fd, [0x13f5]), (0x1c80, [0x412]), (0x1c81, [0x414]),
   (0x1c82, [0x41e]), (0x1c83, [0x421]), (0x1c84, [0x422]), (0x1c85, [0x422]), (0x1c86, [0x42a]),
   (0x1c87, [0x462]), (0x1c88, [0xa64a]), (0x1d79, [0xa77d]), (0x1d7d, [0x2c63]), (0x1d8e, [0xa7c6]),
   (0x1e01, [0x1e00]), (0x1e03, [0x1e02]), (0x1e05, [0x1e04]), (0x1e07, [0x1e06]), (0x1e09, [0x1e08]),
   (0x1e0b, [0x1e0a]), (0x1e0d, [0x1e0c]), (0x1e0f, [0x1e0e]), (0x1e11, [0x1e10]), (0x1e13, [0x1e12]),
   (0x1e15, [0x1e14]), (0x1e17, [0x1e16]), (0x1e19, [0x1e18]), (0x1e1b, [0x1e1a]), (0x1e1d, [0x1e1c]),
   (0x1e1f, [0x1e1e]), (0x1e21, [0x1e20]), (0x1e23, [0x1e22]), (0x1e25, [0x1e24]), (0x1e27, [0x1e26]),
   (0x1e29, [0x1e28]), (0x1e2b, [0x1e2a]), (0x1e2d, [0x1e2c]), (0x1e2f, [0x1e2e]), (0x1e31, [0x1e30]),
   (0x1e33, [0x1e32]), (0x1e35, [0x1e34]), (0x1e37, [0x1e36]), (0x1e39, [0x1e38]), (0x1e3b, [0x1e3a]),
   (0x1e3d, [0x1e3c]), (0x1e3f, [0x1e3e]), (0x1e41, [0x1e40]), (0x1e43, [0x1e42]), (0x1e45, [0x1e44]),
   (0x1e47, [0x1e46]), (0x1e49, [0x1e48]), (0x1e4b, [0x1e4a]), (0x1e4d, [0x1e4c]), (0x1e4f, [0x1e4e]),
   (0x1e51, [0x1e50]), (0x1e53, [0x1e52]), (0x1e55, [0x1e54]), (0x1e57, [0x1e56]), (0x1e59, [0x1e58]),
   (0x1e5b, [0x1e5a]), (0x1e5d, [0x1e5c]), (0x1e5f, [0x1e5e]), (0x1e61, [0x1e60]), (0x1e63, [0x1e62]),
   (0x1e65, [0x1e64]), (0x1e67, [0x1e66]), (0x1e69, [0x1e68]), (0x1e6b, [0x1e6a]), (0x1e6d, [0x1e6c]),
   (0x1e6f, [0x1e6e]), (0x1e71, [0x1e70]), (0x1e73, [0x1e72]), (0x1e75, [0x1e74]), (0x1e77, [0x1e76]),
   (0x1e79, [0x1e78]), (0x1e7b, [0x1e7a]), (0x1e7d, [0x1e7c]), (0x1e7f, [0x1e7e]), (0x1e81, [0x1e80]),
   (0x1e83, [0x1e82]), (0x1e85, [0x1e84]), (0x1e87, [0x1e86]), (0x1e89, [0x1e88]), (0x1e8b, [0x1e8a]),
   (0x1e8d, [0x1e8c]), (0x1e8f, [0x1e8e]), (0x1e91, [0x1e90]), (0x1e93, [0x1e92]), (0x1e95, [0x1e94]),
   (0x1e96, [0x48, 0x331]), (0x1e97, [0x54, 0x308]), (0x1e98, [0x57, 0x30a]), (0x1e99, [0x59, 0x30a]), (0x1e9a, [0x41, 0x2be]),
   (0x1e9b, [0x1e60]), (0x1ea1, [0x1ea0]), (0x1ea3, [0x1ea2]), (0x1ea5, [0x1ea4]), (0x1ea7, [0x1ea6]),
   (0x1ea9, [0x1ea8]), (0x1eab, [0x1eaa]), (0x1ead, [0x1eac]), (0x1eaf, [0x1eae]), (0x1eb1, [0x1eb0]),
   (0x1eb3, [0x1eb2]), (0x1eb5, [0x1eb4]), (0x1eb7, [0x1eb6]), (0x1eb9, [0x1eb8]), (0x1ebb, [0x1eba]),
   (0x1ebd, [0x1ebc]), (0x1ebf, [0x1ebe]), (0x1ec1, [0x1ec0]), (0x1ec3, [0x1ec2]), (0x1ec5, [0x1ec4]),
   (0x1ec7, [0x1ec6]), (0x1ec9, [0x1ec8]), (0x1ecb, [0x1eca]), (0x1ecd, [0x1ecc]), (0x1ecf, [0x1ece]),
   (0x1ed1, [0x1ed0]), (0x1ed3, [0x1ed2]), (0x1ed5, [0x1ed4]), (0x1ed7, [0x1ed6]), (0x1ed9, [0x1ed8]),
   (0x1edb, [0x1eda]), (0x1edd, [0x1edc]), (0x1edf, [0x1ede]), (0x1ee1, [0x1ee0]), (0x1ee3, [0x1ee2]),
   (0x1ee5, [0x1ee4]), (0x1ee7, [0x1ee6]), (0x1ee9, [0x1ee8]), (0x1eeb, [0x1eea]), (0x1eed, [0x1eec]),
   (0x1eef, [0x1eee]), (0x1ef1, [0x1ef0]), (0x1ef3, [0x1ef2]), (0x1ef5, [0x1ef4]), (0x1ef7, [0x1ef6]),
   (0x1ef9, [0x1ef8]), (0x1efb, [0x1efa]), (0x1efd, [0x1efc]), (0x1eff, [0x1efe]), (0x1f00, [0x1f08]),
   (0x1f01, [0x1f09]), (0x1f02, [0x1f0a]), (0x1f03, [0x1f0b]), (0x1f04, [0x1f0c]), (0x1f05, [0x1f0d]),
   (0x1f06, [0x1f0e]), (0x1f07, [0x1f0f]), (0x1f10, [0x1f18]), (0x1f11, [0x1f19]), (0x1f12, [0x1f1a]),
   (0x1f13, [0x1f1b]), (0x1f14, [0x1f1c]), (0x1f15, [0x1f1d]), (0x1f20, [0x1f28]), (0x1f21, [0x1f29]),
   (0x1f22, [0x1f2a]), (0x1f23, [0x1f2b]), (0x1f24, [0x1f2c]), (0x1f25, [0x1f2d]), (0x1f26, [0x1f2e]),
   (0x1f27, [0x1f2f]), (0x1f30, [0x1f38]), (0x1f31, [0x1f39]), (0x1f32, [0x1f3a]), (0x1f33, [0x1f3b]),
   (0x1f34, [0x1f3c]), (0x1f35, [0x1f3d]), (0x1f36, [0x1f3e]), (0x1f37, [0x1f3f]), (0x1f40, [0x1f48]),
   (0x1f41, [0x1f49]), (0x1f42, [0x1f4a]), (0x1f43, [0x1f4b]), (0x1f44, [0x1f4c]), (0x1f45, [0x1f4d]),
   (0x1f50, [0x3a5, 0x313]), (0x1f51, [0x1f59]), (0x1f52, [0x3a5, 0x313, 0x300]), (0x1f53, [0x1f5b]), (0x1f54, [0x3a5, 0x313, 0x301]),
   (0x1f55, [0x1f5d]), (0x1f56, [0x3a5, 0x313, 0x342]), (0x1f57, [0x1f5f]), (0x1f60, [0x1f68]), (0x1f61, [0x1f69]),
   (0x1f62, [0x1f6a]), (0x1f63, [0x1f6b]), (0x1f64, [0x1f6c]), (0x1f65, [0x1f6d]), (0x1f66, [0x1f6e]),
   (0x1f67, [0x1f6f]), (0x1f70, [0x1fba]), (0x1f71, [0x1fbb]), (0x1f72, [0x1fc8]), (0x1f73, [0x1fc9]),
   (0x1f74, [0x1fca]), (0x1f75, [0x1fcb]), (0x1f76, [0x1fda]), (0x1f77, [0x1fdb]), (0x1f78, [0x1ff8]),
   (0x1f79, [0x1ff9]), (0x1f7a, [0x1fea]), (0x1f7b, [0x1feb]), (0x1f7c, [0x1ffa]), (0x1f7d, [0x1ffb]),
   (0x1f80, [0x1f08, 0x399]), (0x1f81, [0x1f09, 0x399]), (0x1f82, [0x1f0a, 0x399]), (0x1f83, [0x1f0b, 0x399]), (0x1f84, [0x1f0c, 0x399]),
   (0x1f85, [0x1f0d, 0x399]), (0x1f86, [0x1f0e, 0x399]), (0x1f87, [0x1f0f, 0x399]), (0x1f88, [0x1f08, 0x399]), (0x1f89, [0x1f09, 0x399]),
   (0x1f8a, [0x1f0a, 0x399]), (0x1f8b, [0x1f0b, 0x399]), (0x1f8c, [0x1f0c, 0x399]), (0x1f8d, [0x1f0d, 0x399]), (0x1f8e, [0x1f0e, 0x399]),
   (0x1f8f, [0x1f0f, 0x399]), (0x1f90, [0x1f28, 0x399]), (0x1f91, [0x1f29, 0x399]), (0x1f92, [0x1f2a, 0x399]), (0x1f93, [0x1f2b, 0x399]),
   (0x1f94, [0x1f2c, 0x399]), (0x1f95, [0x1f2d, 0x399]), (0x1f96, [0x1f2e, 0x399]), (0x1f97, [0x1f2f, 0x399]), (0x1f98, [0x1f28, 0x399]),
   (0x1f99, [0x1f29, 0x399]), (0x1f9a, [0x1f2a, 0x399]), (0x1f9b, [0x1f2b, 0x399]), (0x1f9c, [0x1f2c, 0x399]), (0x1f9d, [0x1f2d, 0x399]),
   (0x1f9e, [0x1f2e, 0x399]), (0x1f9f, [0x1f2f, 0x399]), (0x1fa0, [0x1f68, 0x399]), (0x1fa1, [0x1f69, 0x399]), (0x1fa2, [0x1f6a, 0x399]),
   (0x1fa3, [0x1f6b, 0x399]), (0x1fa4, [0x1f6c, 0x399]), (0x1fa5, [0x1f6d, 0x399]), (0x1fa6, [0x1f6e, 0x399]), (0x1fa7, [0x1f6f, 0x399]),
   (0x1fa8, [0x1f68, 0x399]), (0x1fa9, [0x1f69, 0x399]), (0x1faa, [0x1f6a, 0x399]), (0x1fab, [0x1f6b, 0x399]), (0x1fac, [0x1f6c, 0x399]),
   (0x1fad, [0x1f6d, 0x399]), (0x1fae, [0x1f6e, 0x399]), (0x1faf, [0x1f6f, 0x399]), (0x1fb0, [0x1fb8]), (0x1fb1, [0x1fb9]),
   (0x1fb2, [0x1fba, 0x399]), (0x1fb3, [0x391, 0x399]), (0x1fb4, [0x386, 0x399]), (0x1fb6, [0x391, 0x342]), (0x1fb7, [0x391, 0x342, 0x399]),
   (0x1fbc, [0x391, 0x399]), (0x1fbe, [0x399]), (0x1fc2, [0x1fca, 0x399]), (0x1fc3, [0x397, 0x399]), (0x1fc4, [0x389, 0x399]),
   (0x1fc6, [0x397, 0x342]), (0x1fc7, [0x397, 0x342, 0x399]), (0x1fcc, [0x397, 0x399]), (0x1fd0, [0x1fd8]), (0x1fd1, [0x1fd9]),
   (0x1fd2, [0x399, 0x308, 0x300]), (0x1fd3, [0x399, 0x308, 0x301]), (0x1fd6, [0x399, 0x342]), (0x1fd7, [0x399, 0x308, 0x342]), (0x1fe0, [0x1fe8]),
   (0x1fe1, [0x1fe9]), (0x1fe2, [0x3a5, 0x308, 0x300]), (0x1fe3, [0x3a5, 0x308, 0x301]), (0x1fe4, [0x3a1, 0x313]), (0x1fe5, [0x1fec]),
   (0x1fe6, [0x3a5, 0x342]), (0x1fe7, [0x3a5, 0x308, 0x342]), (0x1ff2, [0x1ffa, 0x399]), (0x1ff3, [0x3a9, 0x399]), (0x1ff4, [0x38f, 0x399]),
   (0x1ff6, [0x3a9, 0x342]), (0x1ff7, [0x3a9, 0x342, 0x399]), (0x1ffc, [0x3a9, 0x399]), (0x214e, [0x2132]), (0x2170, [0x2160]),
   (0x2171, [0x2161]), (0x2172, [0x2162]), (0x2173, [0x2163]), (0x2174, [0x2164]), (0x2175, [0x2165]),
   (0x2176, [0x2166]), (0x2177, [0x2167]), (0x2178, [0x2168]), (0x2179, [0x2169]), (0x217a, [0x216a]),
   (0x217b, [0x216b]), (0x217c, [0x216c]), (0x217d, [0x216d]), (0x217e, [0x216e]), (0x217f, [0x216f]),
   (0x2184, [0x2183]), (0x24d0, [0x24b6]), (0x24d1, [0x24b7]), (0x24d2, [0x24b8]), (0x24d3, [0x24b9]),
   (0x24d4, [0x24ba]), (0x24d5, [0x24bb]), (0x24d6, [0x24bc]), (0x24d7, [0x24bd]), (0x24d8, [0x24be]),
   (0x24d9, [0x24bf]), (0x24da, [0x24c0]), (0x24db, [0x24c1]), (0x24dc, [0x24c2]), (0x24dd, [0x24c3]),
   (0x24de, [0x24c4]), (0x24df, [0x24c5]), (0x24e0, [0x24c6]), (0x24e1, [0x24c7]), (0x24e2, [0x24c8]),
   (0x24e3, [0x24c9]), (0x24e4, [0x24ca]), (0x24e5, [0x24cb]), (0x24e6, [0x24cc]), (0x24e7, [0x24cd]),
   (0x24e8, [0x24ce]), (0x24e9, [0x24cf]), (0x2c30, [0x2c00]), (0x2c31, [0x2c01]), (0x2c32, [0x2c02]),
   (0x2c33, [0x2c03]), (0x2c34, [0x2c04]), (0x2c35, [0x2c05]), (0x2c36, [0x2c06]), (0x2c37, [0x2c07]),
   (0x2c38, [0x2c08]), (0x2c39, [0x2c09]), (0x2c3a, [0x2c0a]), (0x2c3b, [0x2c0b]), (0x2c3c, [0x2c0c]),
   (0x2c3d, [0x2c0d]), (0x2c3e, [0x2c0e]), (0x2c3f, [0x2c0f]), (0x2c40, [0x2c10]), (0x2c41, [0x2c11]),
   (0x2c42, [0x2c12]), (0x2c43, [0x2c13]), (0x2c44, [0x2c14]), (0x2c45, [0x2c15]), (0x2c46, [0x2c16]),
   (0x2c47, [0x2c17]), (0x2c48, [0x2c18]), (0x2c49, [0x2c19]), (0x2c4a, [0x2c1a]), (0x2c4b, [0x2c1b]),
   (0x2c4c, [0x2c1c]), (0x2c4d, [0x2c1d]), (0x2c4e, [0x2c1e]), (0x2c4f, [0x2c1f]), (0x2c50, [0x2c20]),
   (0x2c51, [0x2c21]), (0x2c52, [0x2c22]), (0x2c53, [0x2c23]), (0x2c54, [0x2c24]), (0x2c55, [0x2c25]),
   (0x2c56, [0x2c26]), (0x2c57, [0x2c27]), (0x2c58, [0x2c28]), (0x2c59, [0x2c29]), (0x2c5a, [0x2c2a]),
   (0x2c5b, [0x2c2b]), (0x2c5c, [0x2c2c]), (0x2c5d, [0x2c2d]), (0x2c5e, [0x2c2e]), (0x2c5f, [0x2c2f]),
   (0x2c61, [0x2c60]), (0x2c65, [0x23a]), (0x2c66, [0x23e]), (0x2c68, [0x2c67]), (0x2c6a, [0x2c69]),
   (0x2c6c, [0x2c6b]), (0x2c73, [0x2c72]), (0x2c76, [0x2c75]), (0x2c81, [0x2c80]), (0x2c83, [0x2c82]),
   (0x2c85, [0x2c84]), (0x2c87, [0x2c86]), (0x2c89, [0x2c88]), (0x2c8b, [0x2c8a]), (0x2c8d, [0x2c8c]),
   (0x2c8f, [0x2c8e]), (0x2c91, [0x2c90]), (0x2c93, [0x2c92]), (0x2c95, [0x2c94]), (0x2c97, [0x2c96]),
   (0x2c99, [0x2c98]), (0x2c9b, [0x2c9a]), (0x2c9d, [0x2c9c]), (0x2c9f, [0x2c9e]), (0x2ca1, [0x2ca0]),
   (0x2ca3, [0x2ca2]), (0x2ca5, [0x2ca4]), (0x2ca7, [0x2ca6]), (0x2ca9, [0x2ca8]), (0x2cab, [0x2caa]),
   (0x2cad, [0x2cac]), (0x2caf, [0x2cae]), (0x2cb1, [0x2cb0]), (0x2cb3, [0x2cb2]), (0x2cb5, [0x2cb4]),
   (0x2cb7, [0x2cb6]), (0x2cb9, [0x2cb8]), (0x2cbb, [0x2cba]), (0x2cbd, [0x2cbc]), (0x2cbf, [0x2cbe]),
   (0x2cc1, [0x2cc0]), (0x2cc3, [0x2cc2]), (0x2cc5, [0x2cc4]), (0x2cc7, [0x2cc6]), (0x2cc9, [0x2cc8]),
   (0x2ccb, [0x2cca]), (0x2ccd, [0x2ccc]), (0x2ccf, [0x2cce]), (0x2cd1, [0x2cd0]), (0x2cd3, [0x2cd2]),
   (0x2cd5, [0x2cd4]), (0x2cd7, [0x2cd6]), (0x2cd9, [0x2cd8]), (0x2cdb, [0x2cda]), (0x2cdd, [0x2cdc]),
   (0x2cdf, [0x2cde]), (0x2ce1, [0x2ce0]), (0x2ce3, [0x2ce2]), (0x2cec, [0x2ceb]), (0x2cee, [0x2ced]),
   (0x2cf3, [0x2cf2]), (0x2d00, [0x10a0]), (0x2d01, [0x10a1]), (0x2d02, [0x10a2]), (0x2d03, [0x10a3]),
   (0x2d04, [0x10a4]), (0x2d05, [0x10a5]), (0x2d06, [0x10a6]), (0x2d07, [0x10a7]), (0x2d08, [0x10a8]),
   (0x2d09, [0x10a9]), (0x2d0a, [0x10aa]), (0x2d0b, [0x10ab]), (0x2d0c, [0x10ac]), (0x2d0d, [0x10ad]),
   (0x2d0e, [0x10ae]), (0x2d0f, [0x10af]), (0x2d10, [0x10b0]), (0x2d11, [0x10b1]), (0x2d12, [0x10b2]),
   (0x2d13, [0x10b3]), (0x2d14, [0x10b4]), (0x2d15, [0x10b5]), (0x2d16, [0x10b6]), (0x2d17, [0x10b7]),
   (0x2d18, [0x10b8]), (0x2d19, [0x10b9]), (0x2d1a, [0x10ba]), (0x2d1b, [0x10bb]), (0x2d1c, [0x10bc]),
   (0x2d1d, [0x10bd]), (0x2d1e, [0x10be]), (0x2d1f, [0x10bf]), (0x2d20, [0x10c0]), (0x2d21, [0x10c1]),
   (0x2d22, [0x10c2]), (0x2d23, [0x10c3]), (0x2d24, [0x10c4]), (0x2d25, [0x10c5]), (0x2d27, [0x10c7]),
   (0x2d2d, [0x10cd]), (0xa641, [0xa640]), (0xa643, [0xa642]), (0xa645, [0xa644]), (0xa647, [0xa646]),
   (0xa649, [0xa648]), (0xa64b, [0xa64a]), (0xa64d, [0xa64c]), (0xa64f, [0xa64e]), (0xa651, [0xa650]),
   (0xa653, [0xa652]), (0xa655, [0xa654]), (0xa657, [0xa656]), (0xa659, [0xa658]), (0xa65b, [0xa65a]),
   (0xa65d, [0xa65c]), (0xa65f, [0xa65e]), (0xa661, [0xa660]), (0xa663, [0xa662]), (0xa665, [0xa664]),
   (0xa667, [0xa666]), (0xa669, [0xa668]), (0xa66b, [0xa66a]), (0xa66d, [0xa66c]), (0xa681, [0xa680]),
   (0xa683, [0xa682]), (0xa685, [0xa684]), (0xa687, [0xa686]), (0xa689, [0xa688]), (0xa68b, [0xa68a]),
   (0xa68d, [0xa68c]), (0xa68f, [0xa68e]), (0xa691, [0xa690]), (0xa693, [0xa692]), (0xa695, [0xa694]),
   (0xa697, [0xa696]), (0xa699, [0xa698]), (0xa69b, [0xa69a]), (0xa723, [0xa722]), (0xa725, [0xa724]),
   (0xa727, [0xa726]), (0xa729, [0xa728]), (0xa72b, [0xa72a]), (0xa72d, [0xa72c]), (0xa72f, [0xa72e]),
   (0xa733, [0xa732]), (0xa735, [0xa734]), (0xa737, [0xa736]), (0xa739, [0xa738]), (0xa73b, [0xa73a]),
   (0xa73d, [0xa73c]), (0xa73f, [0xa73e]), (0xa741, [0xa740]), (0xa743, [0xa742]), (0xa745, [0xa744]),
   (0xa747, [0xa746]), (0xa749, [0xa748]), (0xa74b, [0xa74a]), (0xa74d, [0xa74c]), (0xa74f, [0xa74e]),
   (0xa751, [0xa750]), (0xa753, [0xa752]), (0xa755, [0xa754]), (0xa757, [0xa756]), (0xa759, [0xa758]),
   (0xa75b, [0xa75a]), (0xa75d, [0xa75c]), (0xa75f, [0xa75e]), (0xa761, [0xa760]), (0xa763, [0xa762]),
   (0xa765, [0xa764]), (0xa767, [0xa766]), (0xa769, [0xa768]), (0xa76b, [0xa76a]), (0xa76d, [0xa76c]),
   (0xa76f, [0xa76e]), (0xa77a, [0xa779]), (0xa77c, [0xa77b]), (0xa77f, [0xa77e]), (0xa781, [0xa780]),
   (0xa783, [0xa782]), (0xa785, [0xa784]), (0xa787, [0xa786]), (0xa78c, [0xa78b]), (0xa791, [0xa790]),
   (0xa793, [0xa792]), (0xa794, [0xa7c4]), (0xa797, [0xa796]), (0xa799, [0xa798]), (0xa79b, [0xa79a]),
   (0xa79d, [0xa79c]), (0xa79f, [0xa79e]), (0xa7a1, [0xa7a0]), (0xa7a3, [0xa7a2]), (0xa7a5, [0xa7a4]),
   (0xa7a7, [0xa7a6]), (0xa7a9, [0xa7a8]), (0xa7b5, [0xa7b4]), (0xa7b7, [0xa7b6]), (0xa7b9, [0xa7b8]),
   (0xa7bb, [0xa7ba]), (0xa7bd, [0xa7bc]), (0xa7bf, [0xa7be]), (0xa7c1, [0xa7c0]), (0xa7c3, [0xa7c2]),
   (0xa7c8, [0xa7c7]), (0xa7ca, [0xa7c9]), (0xa7d1, [0xa7d0]), (0xa7d7, [0xa7d6]), (0xa7d9, [0xa7d8]),
   (0xa7f6, [0xa7f5]), (0xab53, [0xa7b3]), (0xab70, [0x13a0]), (0xab71, [0x13a1]), (0xab72, [0x13a2]),
   (0xab73, [0x13a3]), (0xab74, [0x13a4]), (0xab75, [0x13a5]), (0xab76, [0x13a6]), (0xab77, [0x13a7]),
   (0xab78, [0x13a8]), (0xab79, [0x13a9]), (0xab7a, [0x13aa]), (0xab7b, [0x13ab]), (0xab7c, [0x13ac]),
   (0xab7d, [0x13ad]), (0xab7e, [0x13ae]), (0xab7f, [0x13af]), (0xab80, [0x13b0]), (0xab81, [0x13b1]),
   (0xab82, [0x13b2]), (0xab83, [0x13b3]), (0xab84, [0x13b4]), (0xab85, [0x13b5]), (0xab86, [0x13b6]),
   (0xab87, [0x13b7]), (0xab88, [0x13b8]), (0xab89, [0x13b9]), (0xab8a, [0x13ba]), (0xab8b, [0x13bb]),
   (0xab8c, [0x13bc]), (0xab8d, [0x13bd]), (0xab8e, [0x13be]), (0xab8f, [0x13bf]), (0xab90, [0x13c0]),
   (0xab91, [0x13c1]), (0xab92, [0x13c2]), (0xab93, [0x13c3]), (0xab94, [0x13c4]), (0xab95, [0x13c5]),
   (0xab96, [0x13c6]), (0xab97, [0x13c7]), (0xab98, [0x13c8]), (0xab99, [0x13c9]), (0xab9a, [0x13ca]),
   (0xab9b, [0x13cb]), (0xab9c, [0x13cc]), (0xab9d, [0x13cd]), (0xab9e, [0x13ce]), (0xab9f, [0x13cf]),
   (0xaba0, [0x13d0]), (0xaba1, [0x13d1]), (0xaba2, [0x13d2]), (0xaba3, [0x13d3]), (0xaba4, [0x13d4]),
   (0xaba5, [0x13d5]), (0xaba6, [0x13d6]), (0xaba7, [0x13d7]), (0xaba8, [0x13d8]), (0xaba9, [0x13d9]),
   (0xabaa, [0x13da]), (0xabab, [0x13db]), (0xabac, [0x13dc]), (0xabad, [0x13dd]), (0xabae, [0x13de]),
   (0xabaf, [0x13df]), (0xabb0, [0x13e0]), (0xabb1, [0x13e1]), (0xabb2, [0x13e2]), (0xabb3, [0x13e3]),
   (0xabb4, [0x13e4]), (0xabb5, [0x13e5]), (0xabb6, [0x13e6]), (0xabb7, [0x13e7]), (0xabb8, [0x13e8]),
   (0xabb9, [0x13e9]), (0xabba, [0x13ea]), (0xabbb, [0x13eb]), (0xabbc, [0x13ec]), (0xabbd, [0x13ed]),
   (0xabbe, [0x13ee]), (0xabbf, [0x13ef]), (0xfb00, [0x46, 0x46]), (0xfb01, [0x46, 0x49]), (0xfb02, [0x46, 0x4c]),
   (0xfb03, [0x46, 0x46, 0x49]), (0xfb04, [0x46, 0x46, 0x4c]), (0xfb05, [0x53, 0x54]), (0xfb06, [0x53, 0x54]), (0xfb13, [0x544, 0x546]),
   (0xfb14, [0x544, 0x535]), (0xfb15, [0x544, 0x53b]), (0xfb16, [0x54e, 0x546]), (0xfb17, [0x544, 0x53d]), (0xff41, [0xff21]),
   (0xff42, [0xff22]), (0xff43, [0xff23]), (0xff44, [0xff24]), (0xff45, [0xff25]), (0xff46, [0xff26]),
   (0xff47, [0xff27]), (0xff48, [0xff28]), (0xff49, [0xff29]), (0xff4a, [0xff2a]), (0xff4b, [0xff2b]),
   (0xff4c, [0xff2c]), (0xff4d, [0xff2d]), (0xff4e, [0xff2e]), (0xff4f, [0xff2f]), (0xff50, [0xff30]),
   (0xff51, [0xff31]), (0xff52, [0xff32]), (0xff53, [0xff33]), (0xff54, [0xff34]), (0xff55, [0xff35]),
   (0xff56, [0xff36]), (0xff57, [0xff37]), (0xff58, [0xff38]), (0xff59, [0xff39]), (0xff5a, [0xff3a]),
   (0x10428, [0x10400]), (0x10429, [0x10401]), (0x1042a, [0x10402]), (0x1042b, [0x10403]), (0x1042c, [0x10404]),
   (0x1042d, [0x10405]), (0x1042e, [0x10406]), (0x1042f, [0x10407]), (0x10430, [0x10408]), (0x10431, [0x10409]),
   (0x10432, [0x1040a]), (0x10433, [0x1040b]), (0x10434, [0x1040c]), (0x10435, [0x1040d]), (0x10436, [0x1040e]),
   (0x10437, [0x1040f]), (0x10438, [0x10410]), (0x10439, [0x10411]), (0x1043a, [0x10412]), (0x1043b, [0x10413]),
   (0x1043c, [0x10414]), (0x1043d, [0x10415]), (0x1043e, [0x10416]), (0x1043f, [0x10417]), (0x10440, [0x10418]),
   (0x10441, [0x10419]), (0x10442, [0x1041a]), (0x10443, [0x1041b]), (0x10444, [0x1041c]), (0x10445, [0x1041d]),
   (0x10446, [0x1041e]), (0x10447, [0x1041f]), (0x10448, [0x10420]), (0x10449, [0x10421]), (0x1044a, [0x10422]),
   (0x1044b, [0x10423]), (0x1044c, [0x10424]), (0x1044d, [0x10425]), (0x1044e, [0x10426]), (0x1044f, [0x10427]),
   (0x104d8, [0x104b0]), (0x104d9, [0x104b1]), (0x104da, [0x104b2]), (0x104db, [0x104b3]), (0x104dc, [0x104b4]),
   (0x104dd, [0x104b5]), (0x104de, [0x104b6]), (0x104df, [0x104b7]), (0x104e0, [0x104b8]), (0x104e1, [0x104b9]),
   (0x104e2, [0x104ba]), (0x104e3, [0x104bb]), (0x104e4, [0x104bc]), (0x104e5, [0x104bd]), (0x104e6, [0x104be]),
   (0x104e7, [0x104bf]), (0x104e8, [0x104c0]), (0x104e9, [0x104c1]), (0x104ea, [0x104c2]), (0x104eb, [0x104c3]),
   (0x104ec, [0x104c4]), (0x104ed, [0x104c5]), (0x104ee, [0x104c6]), (0x104ef, [0x104c7]), (0x104f0, [0x104c8]),
   (0x104f1, [0x104c9]), (0x104f2, [0x104ca]), (0x104f3, [0x104cb]), (0x104f4, [0x104cc]), (0x104f5, [0x104cd]),
   (0x104f6, [0x104ce]), (0x104f7, [0x104cf]), (0x104f8, [0x104d0]), (0x104f9, [0x104d1]), (0x104fa, [0x104d2]),
   (0x104fb, [0x104d3]), (0x10597, [0x10570]), (0x10598, [0x10571]), (0x10599, [0x10572]), (0x1059a, [0x10573]),
   (0x1059b, [0x10574]), (0x1059c, [0x10575]), (0x1059d, [0x10576]), (0x1059e, [0x10577]), (0x1059f, [0x10578]),
   (0x105a0, [0x10579]), (0x105a1, [0x1057a]), (0x105a3, [0x1057c]), (0x105a4, [0x1057d]), (0x105a5, [0x1057e]),
   (0x105a6, [0x1057f]), (0x105a7, [0x10580]), (0x105a8, [0x10581]), (0x105a9, [0x10582]), (0x105aa, [0x10583]),
   (0x105ab, [0x10584]), (0x105ac, [0x10585]), (0x105ad, [0x10586]), (0x105ae, [0x10587]), (0x105af, [0x10588]),
   (0x105b0, [0x10589]), (0x105b1, [0x1058a]), (0x105b3, [0x1058c]), (0x105b4, [0x1058d]), (0x105b5, [0x1058e]),
   (0x105b6, [0x1058f]), (0x105b7, [0x10590]), (0x105b8, [0x10591]), (0x105b9, [0x10592]), (0x105bb, [0x10594]),
   (0x105bc, [0x10595]), (0x10cc0, [0x10c80]), (0x10cc1, [0x10c81]), (0x10cc2, [0x10c82]), (0x10cc3, [0x10c83]),
   (0x10cc4, [0x10c84]), (0x10cc5, [0x10c85]), (0x10cc6, [0x10c86]), (0x10cc7, [0x10c87]), (0x10cc8, [0x10c88]),
   (0x10cc9, [0x10c89]), (0x10cca, [0x10c8a]), (0x10ccb, [0x10c8b]), (0x10ccc, [0x10c8c]), (0x10ccd, [0x10c8d]),
   (0x10cce, [0x10c8e]), (0x10ccf, [0x10c8f]), (0x10cd0, [0x10c90]), (0x10cd1, [0x10c91]), (0x10cd2, [0x10c92]),
   (0x10cd3, [0x10c93]), (0x10cd4, [0x10c94]), (0x10cd5, [0x10c95]), (0x10cd6, [0x10c96]), (0x10cd7, [0x10c97]),
   (0x10cd8, [0x10c98]), (0x10cd9, [0x10c99]), (0x10cda, [0x10c9a]), (0x10cdb, [0x10c9b]), (0x10cdc, [0x10c9c]),
   (0x10cdd, [0x10c9d]), (0x10cde, [0x10c9e]), (0x10cdf, [0x10c9f]), (0x10ce0, [0x10ca0]), (0x10ce1, [0x10ca1]),
   (0x10ce2, [0x10ca2]), (0x10ce3, [0x10ca3]), (0x10ce4, [0x10ca4]), (0x10ce5, [0x10ca5]), (0x10ce6, [0x10ca6]),
   (0x10ce7, [0x10ca7]), (0x10ce8, [0x10ca8]), (0x10ce9, [0x10ca9]), (0x10cea, [0x10caa]), (0x10ceb, [0x10cab]),
   (0x10cec, [0x10cac]), (0x10ced, [0x10cad]), (0x10cee, [0x10cae]), (0x10cef, [0x10caf]), (0x10cf0, [0x10cb0]),
   (0x10cf1, [0x10cb1]), (0x10cf2, [0x10cb2]), (0x118c0, [0x118a0]), (0x118c1, [0x118a1]), (0x118c2, [0x118a2]),
   (0x118c3, [0x118a3]), (0x118c4, [0x118a4]), (0x118c5, [0x118a5]), (0x118c6, [0x118a6]), (0x118c7, [0x118a7]),
   (0x118c8, [0x118a8]), (0x118c9, [0x118a9]), (0x118ca, [0x118aa]), (0x118cb, [0x118ab]), (0x118cc, [0x118ac]),
   (0x118cd, [0x118ad]), (0x118ce, [0x118ae]), (0x118cf, [0x118af]), (0x118d0, [0x118b0]), (0x118d1, [0x118b1]),
   (0x118d2, [0x118b2]), (0x118d3, [0x118b3]), (0x118d4, [0x118b4]), (0x118d5, [0x118b5]), (0x118d6, [0x118b6]),
   (0x118d7, [0x118b7]), (0x118d8, [0x118b8]), (0x118d9, [0x118b9]), (0x118da, [0x118ba]), (0x118db, [0x118bb]),
   (0x118dc, [0x118bc]), (0x118dd, [0x118bd]), (0x118de, [0x118be]), (0x118df, [0x118bf]), (0x16e60, [0x16e40]),
   (0x16e61, [0x16e41]), (0x16e62, [0x16e42]), (0x16e63, [0x16e43]), (0x16e64, [0x16e44]), (0x16e65, [0x16e45]),
   (0x16e66, [0x16e46]), (0x16e67, [0x16e47]), (0x16e68, [0x16e48]), (0x16e69, [0x16e49]), (0x16e6a, [0x16e4a]),
   (0x16e6b, [0x16e4b]), (0x16e6c, [0x16e4c]), (0x16e6d, [0x16e4d]), (0x16e6e, [0x16e4e]), (0x16e6f, [0x16e4f]),
   (0x16e70, [0x16e50]), (0x16e71, [0x16e51]), (0x16e72, [0x16e52]), (0x16e73, [0x16e53]), (0x16e74, [0x16e54]),
   (0x16e75, [0x16e55]), (0x16e76, [0x16e56]), (0x16e77, [0x16e57]), (0x16e78, [0x16e58]), (0x16e79, [0x16e59]),
   (0x16e7a, [0x16e5a]), (0x16e7b, [0x16e5b]), (0x16e7c, [0x16e5c]), (0x16e7d, [0x16e5d]), (0x16e7e, [0x16e5e]),
   (0x16e7f, [0x16e5f]), (0x1e922, [0x1e900]), (0x1e923, [0x1e901]), (0x1e924, [0x1e902]), (0x1e925, [0x1e903]),
   (0x1e926, [0x1e904]), (0x1e927, [0x1e905]), (0x1e928, [0x1e906]), (0x1e929, [0x1e907]), (0x1e92a, [0x1e908]),
   (0x1e92b, [0x1e909]), (0x1e92c, [0x1e90a]), (0x1e92d, [0x1e90b]), (0x1e92e, [0x1e90c]), (0x1e92f, [0x1e90d]),
   (0x1e930, [0x1e90e]), (0x1e931, [0x1e90f]), (0x1e932, [0x1e910]), (0x1e933, [0x1e911]), (0x1e934, [0x1e912]),
   (0x1e935, [0x1e913]), (0x1e936, [0x1e914]), (0x1e937, [0x1e915]), (0x1e938, [0x1e916]), (0x1e939, [0x1e917]),
   (0x1e93a, [0x1e918]), (0x1e93b, [0x1e919]), (0x1e93c, [0x1e91a]), (0x1e93d, [0x1e91b]), (0x1e93e, [0x1e91c]),
   (0x1e93f, [0x1e91d]), (0x1e940, [0x1e91e]), (0x1e941, [0x1e91f]), (0x1e942, [0x1e920]), (0x1e943, [0x1e921])]

/-- Binary search tree holding the uppercase mapping: each node carries a key
codepoint and the codepoints of its uppercase image.  The in-order traversal
is exactly `upperTable` (theorem `upperTree_flatten` below), so the tree is
only a balanced index into that table, giving shallow lookups. -/
inductive UTree where
  | leaf
  | node (l : UTree) (k : Nat) (v : List Nat) (r : UTree)

/-- Binary search in the tree (in-order keys are sorted by codepoint). -/
def ufind : Nat → UTree → Option (List Nat)
  | _, .leaf => none
  | n, .node l k v r =>
    if n < k then ufind n l else if n = k then some v else ufind n r

/-- In-order flattening, to compare the tree with the flat table. -/
def flattenUTree : UTree → List (Nat × List Nat)
  | .leaf => []
  | .node l k v r => flattenUTree l ++ (k, v) :: flattenUTree r

set_option maxHeartbeats 4000000 in
def upperTree : UTree :=
  (.node (.node (.node (.node (.node (.node (.node (.node (.node (.node (.node .leaf 0x61 [0x41] .leaf) 0x62
    [0x42] .leaf) 0x63 [0x43] (.node (.node .leaf 0x64 [0x44] .leaf) 0x65 [0x45] .leaf)) 0x66 [0x46] (.node
    (.node (.node .leaf 0x67 [0x47] .leaf) 0x68 [0x48] .leaf) 0x69 [0x49] (.node (.node .leaf 0x6a [0x4a]
    .leaf) 0x6b [0x4b] .leaf))) 0x6c [0x4c] (.node (.node (.node (.node .leaf 0x6d [0x4d] .leaf) 0x6e [0x4e]
    .leaf) 0x6f [0x4f] (.node (.node .leaf 0x70 [0x50] .leaf) 0x71 [0x51] .leaf)) 0x72 [0x52] (.node (.node
    (.node .leaf 0x73 [0x53] .leaf) 0x74 [0x54] .leaf) 0x75 [0x55] (.node (.node .leaf 0x76 [0x56] .leaf) 0x77
    [0x57] .leaf)))) 0x78 [0x58] (.node (.node (.node (.node (.node .leaf 0x79 [0x59] .leaf) 0x7a [0x5a]
    .leaf) 0xb5 [0x39c] (.node (.node .leaf 0xdf [0x53, 0x53] .leaf) 0xe0 [0xc0] .leaf)) 0xe1 [0xc1] (.node
    (.node (.node .leaf 0xe2 [0xc2] .leaf) 0xe3 [0xc3] .leaf) 0xe4 [0xc4] (.node (.node .leaf 0xe5 [0xc5]
    .leaf) 0xe6 [0xc6] .leaf))) 0xe7 [0xc7] (.node (.node (.node (.node .leaf 0xe8 [0xc8] .leaf) 0xe9 [0xc9]
    .leaf) 0xea [0xca] (.node (.node .leaf 0xeb [0xcb] .leaf) 0xec [0xcc] .leaf)) 0xed [0xcd] (.node (.node
    (.node .leaf 0xee [0xce] .leaf) 0xef [0xcf] .leaf) 0xf0 [0xd0] (.node (.node .leaf 0xf1 [0xd1] .leaf) 0xf2
    [0xd2] .leaf))))) 0xf3 [0xd3] (.node (.node (.node (.node (.node (.node .leaf 0xf4 [0xd4] .leaf) 0xf5
    [0xd5] .leaf) 0xf6 [0xd6] (.node (.node .leaf 0xf8 [0xd8] .leaf) 0xf9 [0xd9] .leaf)) 0xfa [0xda] (.node
    (.node (.node .leaf 0xfb [0xdb] .leaf) 0xfc [0xdc] .leaf) 0xfd [0xdd] (.node (.node .leaf 0xfe [0xde]
    .leaf) 0xff [0x178] .leaf))) 0x101 [0x100] (.node (.node (.node (.node .leaf 0x103 [0x102] .leaf) 0x105
    [0x104] .leaf) 0x107 [0x106] (.node (.node .leaf 0x109 [0x108] .leaf) 0x10b [0x10a] .leaf)) 0x10d [0x10c]
    (.node (.node (.node .leaf 0x10f [0x10e] .leaf) 0x111 [0x110] .leaf) 0x113 [0x112] (.node (.node .leaf
    0x115 [0x114] .leaf) 0x117 [0x116] .leaf)))) 0x119 [0x118] (.node (.node (.node (.node (.node .leaf 0x11b
    [0x11a] .leaf) 0x11d [0x11c] .leaf) 0x11f [0x11e] (.node (.node .leaf 0x121 [0x120] .leaf) 0x123 [0x122]
    .leaf)) 0x125 [0x124] (.node (.node (.node .leaf 0x127 [0x126] .leaf) 0x129 [0x128] .leaf) 0x12b [0x12a]
    (.node (.node .leaf 0x12d [0x12c] .leaf) 0x12f [0x12e] .leaf))) 0x131 [0x49] (.node (.node (.node (.node
    .leaf 0x133 [0x132] .leaf) 0x135 [0x134] .leaf) 0x137 [0x136] (.node (.node .leaf 0x13a [0x139] .leaf)
    0x13c [0x13b] .leaf)) 0x13e [0x13d] (.node (.node (.node .leaf 0x140 [0x13f] .leaf) 0x142 [0x141] .leaf)
    0x144 [0x143] (.node (.node .leaf 0x146 [0x145] .leaf) 0x148 [0x147] .leaf)))))) 0x149 [0x2bc, 0x4e]
    (.node (.node (.node (.node (.node (.node (.node .leaf 0x14b [0x14a] .leaf) 0x14d [0x14c] .leaf) 0x14f
    [0x14e] (.node (.node .leaf 0x151 [0x150] .leaf) 0x153 [0x152] .leaf)) 0x155 [0x154] (.node (.node (.node
    .leaf 0x157 [0x156] .leaf) 0x159 [0x158] .leaf) 0x15b [0x15a] (.node (.node .leaf 0x15d [0x15c] .leaf)
    0x15f [0x15e] .leaf))) 0x161 [0x160] (.node (.node (.node (.node .leaf 0x163 [0x162] .leaf) 0x165 [0x164]
    .leaf) 0x167 [0x166] (.node (.node .leaf 0x169 [0x168] .leaf) 0x16b [0x16a] .leaf)) 0x16d [0x16c] (.node
    (.node (.node .leaf 0x16f [0x16e] .leaf) 0x171 [0x170] .leaf) 0x173 [0x172] (.node (.node .leaf 0x175
    [0x174] .leaf) 0x177 [0x176] .leaf)))) 0x17a [0x179] (.node (.node (.node (.node (.node .leaf 0x17c
    [0x17b] .leaf) 0x17e [0x17d] .leaf) 0x17f [0x53] (.node (.node .leaf 0x180 [0x243] .leaf) 0x183 [0x182]
    .leaf)) 0x185 [0x184] (.node (.node (.node .leaf 0x188 [0x187] .leaf) 0x18c [0x18b] .leaf) 0x192 [0x191]
    (.node (.node .leaf 0x195 [0x1f6] .leaf) 0x199 [0x198] .leaf))) 0x19a [0x23d] (.node (.node (.node (.node
    .leaf 0x19e [0x220] .leaf) 0x1a1 [0x1a0] .leaf) 0x1a3 [0x1a2] (.node (.node .leaf 0x1a5 [0x1a4] .leaf)
    0x1a8 [0x1a7] .leaf)) 0x1ad [0x1ac] (.node (.node (.node .leaf 0x1b0 [0x1af] .leaf) 0x1b4 [0x1b3] .leaf)
    0x1b6 [0x1b5] (.node (.node .leaf 0x1b9 [0x1b8] .leaf) 0x1bd [0x1bc] .leaf))))) 0x1bf [0x1f7] (.node
    (.node (.node (.node (.node (.node .leaf 0x1c5 [0x1c4] .leaf) 0x1c6 [0x1c4] .leaf) 0x1c8 [0x1c7] (.node
    (.node .leaf 0x1c9 [0x1c7] .leaf) 0x1cb [0x1ca] .leaf)) 0x1cc [0x1ca] (.node (.node (.node .leaf 0x1ce
    [0x1cd] .leaf) 0x1d0 [0x1cf] .leaf) 0x1d2 [0x1d1] (.node (.node .leaf 0x1d4 [0x1d3] .leaf) 0x1d6 [0x1d5]
    .leaf))) 0x1d8 [0x1d7] (.node (.node (.node (.node .leaf 0x1da [0x1d9] .leaf) 0x1dc [0x1db] .leaf) 0x1dd
    [0x18e] (.node (.node .leaf 0x1df [0x1de] .leaf) 0x1e1 [0x1e0] .leaf)) 0x1e3 [0x1e2] (.node (.node (.node
    .leaf 0x1e5 [0x1e4] .leaf) 0x1e7 [0x1e6] .leaf) 0x1e9 [0x1e8] (.node (.node .leaf 0x1eb [0x1ea] .leaf)
    0x1ed [0x1ec] .leaf)))) 0x1ef [0x1ee] (.node (.node (.node (.node (.node .leaf 0x1f0 [0x4a, 0x30c] .leaf)
    0x1f2 [0x1f1] .leaf) 0x1f3 [0x1f1] (.node (.node .leaf 0x1f5 [0x1f4] .leaf) 0x1f9 [0x1f8] .leaf)) 0x1fb
    [0x1fa] (.node (.node (.node .leaf 0x1fd [0x1fc] .leaf) 0x1ff [0x1fe] .leaf) 0x201 [0x200] (.node (.node
    .leaf 0x203 [0x202] .leaf) 0x205 [0x204] .leaf))) 0x207 [0x206] (.node (.node (.node (.node .leaf 0x209
    [0x208] .leaf) 0x20b [0x20a] .leaf) 0x20d [0x20c] (.node (.node .leaf 0x20f [0x20e] .leaf) 0x211 [0x210]
    .leaf)) 0x213 [0x212] (.node (.node (.node .leaf 0x215 [0x214] .leaf) 0x217 [0x216] .leaf) 0x219 [0x218]
    (.node .leaf 0x21b [0x21a] .leaf))))))) 0x21d [0x21c] (.node (.node (.node (.node (.node (.node (.node
    (.node .leaf 0x21f [0x21e] .leaf) 0x223 [0x222] .leaf) 0x225 [0x224] (.node (.node .leaf 0x227 [0x226]
    .leaf) 0x229 [0x228] .leaf)) 0x22b [0x22a] (.node (.node (.node .leaf 0x22d [0x22c] .leaf) 0x22f [0x22e]
    .leaf) 0x231 [0x230] (.node (.node .leaf 0x233 [0x232] .leaf) 0x23c [0x23b] .leaf))) 0x23f [0x2c7e] (.node
    (.node (.node (.node .leaf 0x240 [0x2c7f] .leaf) 0x242 [0x241] .leaf) 0x247 [0x246] (.node (.node .leaf
    0x249 [0x248] .leaf) 0x24b [0x24a] .leaf)) 0x24d [0x24c] (.node (.node (.node .leaf 0x24f [0x24e] .leaf)
    0x250 [0x2c6f] .leaf) 0x251 [0x2c6d] (.node (.node .leaf 0x252 [0x2c70] .leaf) 0x253 [0x181] .leaf))))
    0x254 [0x186] (.node (.node (.node (.node (.node .leaf 0x256 [0x189] .leaf) 0x257 [0x18a] .leaf) 0x259
    [0x18f] (.node (.node .leaf 0x25b [0x190] .leaf) 0x25c [0xa7ab] .leaf)) 0x260 [0x193] (.node (.node (.node
    .leaf 0x261 [0xa7ac] .leaf) 0x263 [0x194] .leaf) 0x265 [0xa78d] (.node (.node .leaf 0x266 [0xa7aa] .leaf)
    0x268 [0x197] .leaf))) 0x269 [0x196] (.node (.node (.node (.node .leaf 0x26a [0xa7ae] .leaf) 0x26b
    [0x2c62] .leaf) 0x26c [0xa7ad] (.node (.node .leaf 0x26f [0x19c] .leaf) 0x271 [0x2c6e] .leaf)) 0x272
    [0x19d] (.node (.node (.node .leaf 0x275 [0x19f] .leaf) 0x27d [0x2c64] .leaf) 0x280 [0x1a6] (.node (.node
    .leaf 0x282 [0xa7c5] .leaf) 0x283 [0x1a9] .leaf))))) 0x287 [0xa7b1] (.node (.node (.node (.node (.node
    (.node .leaf 0x288 [0x1ae] .leaf) 0x289 [0x244] .leaf) 0x28a [0x1b1] (.node (.node .leaf 0x28b [0x1b2]
    .leaf) 0x28c [0x245] .leaf)) 0x292 [0x1b7] (.node (.node (.node .leaf 0x29d [0xa7b2] .leaf) 0x29e [0xa7b0]
    .leaf) 0x345 [0x399] (.node (.node .leaf 0x371 [0x370] .leaf) 0x373 [0x372] .leaf))) 0x377 [0x376] (.node
    (.node (.node (.node .leaf 0x37b [0x3fd] .leaf) 0x37c [0x3fe] .leaf) 0x37d [0x3ff] (.node (.node .leaf
    0x390 [0x399, 0x308, 0x301] .leaf) 0x3ac [0x386] .leaf)) 0x3ad [0x388] (.node (.node (.node .leaf 0x3ae
    [0x389] .leaf) 0x3af [0x38a] .leaf) 0x3b0 [0x3a5, 0x308, 0x301] (.node (.node .leaf 0x3b1 [0x391] .leaf)
    0x3b2 [0x392] .leaf)))) 0x3b3 [0x393] (.node (.node (.node (.node (.node .leaf 0x3b4 [0x394] .leaf) 0x3b5
    [0x395] .leaf) 0x3b6 [0x396] (.node (.node .leaf 0x3b7 [0x397] .leaf) 0x3b8 [0x398] .leaf)) 0x3b9 [0x399]
    (.node (.node (.node .leaf 0x3ba [0x39a] .leaf) 0x3bb [0x39b] .leaf) 0x3bc [0x39c] (.node (.node .leaf
    0x3bd [0x39d] .leaf) 0x3be [0x39e] .leaf))) 0x3bf [0x39f] (.node (.node (.node (.node .leaf 0x3c0 [0x3a0]
    .leaf) 0x3c1 [0x3a1] .leaf) 0x3c2 [0x3a3] (.node (.node .leaf 0x3c3 [0x3a3] .leaf) 0x3c4 [0x3a4] .leaf))
    0x3c5 [0x3a5] (.node (.node (.node .leaf 0x3c6 [0x3a6] .leaf) 0x3c7 [0x3a7] .leaf) 0x3c8 [0x3a8] (.node
    (.node .leaf 0x3c9 [0x3a9] .leaf) 0x3ca [0x3aa] .leaf)))))) 0x3cb [0x3ab] (.node (.node (.node (.node
    (.node (.node (.node .leaf 0x3cc [0x38c] .leaf) 0x3cd [0x38e] .leaf) 0x3ce [0x38f] (.node (.node .leaf
    0x3d0 [0x392] .leaf) 0x3d1 [0x398] .leaf)) 0x3d5 [0x3a6] (.node (.node (.node .leaf 0x3d6 [0x3a0] .leaf)
    0x3d7 [0x3cf] .leaf) 0x3d9 [0x3d8] (.node (.node .leaf 0x3db [0x3da] .leaf) 0x3dd [0x3dc] .leaf))) 0x3df
    [0x3de] (.node (.node (.node (.node .leaf 0x3e1 [0x3e0] .leaf) 0x3e3 [0x3e2] .leaf) 0x3e5 [0x3e4] (.node
    (.node .leaf 0x3e7 [0x3e6] .leaf) 0x3e9 [0x3e8] .leaf)) 0x3eb [0x3ea] (.node (.node (.node .leaf 0x3ed
    [0x3ec] .leaf) 0x3ef [0x3ee] .leaf) 0x3f0 [0x39a] (.node (.node .leaf 0x3f1 [0x3a1] .leaf) 0x3f2 [0x3f9]
    .leaf)))) 0x3f3 [0x37f] (.node (.node (.node (.node (.node .leaf 0x3f5 [0x395] .leaf) 0x3f8 [0x3f7] .leaf)
    0x3fb [0x3fa] (.node (.node .leaf 0x430 [0x410] .leaf) 0x431 [0x411] .leaf)) 0x432 [0x412] (.node (.node
    (.node .leaf 0x433 [0x413] .leaf) 0x434 [0x414] .leaf) 0x435 [0x415] (.node (.node .leaf 0x436 [0x416]
    .leaf) 0x437 [0x417] .leaf))) 0x438 [0x418] (.node (.node (.node (.node .leaf 0x439 [0x419] .leaf) 0x43a
    [0x41a] .leaf) 0x43b [0x41b] (.node (.node .leaf 0x43c [0x41c] .leaf) 0x43d [0x41d] .leaf)) 0x43e [0x41e]
    (.node (.node (.node .leaf 0x43f [0x41f] .leaf) 0x440 [0x420] .leaf) 0x441 [0x421] (.node (.node .leaf
    0x442 [0x422] .leaf) 0x443 [0x423] .leaf))))) 0x444 [0x424] (.node (.node (.node (.node (.node (.node
    .leaf 0x445 [0x425] .leaf) 0x446 [0x426] .leaf) 0x447 [0x427] (.node (.node .leaf 0x448 [0x428] .leaf)
    0x449 [0x429] .leaf)) 0x44a [0x42a] (.node (.node (.node .leaf 0x44b [0x42b] .leaf) 0x44c [0x42c] .leaf)
    0x44d [0x42d] (.node (.node .leaf 0x44e [0x42e] .leaf) 0x44f [0x42f] .leaf))) 0x450 [0x400] (.node (.node
    (.node (.node .leaf 0x451 [0x401] .leaf) 0x452 [0x402] .leaf) 0x453 [0x403] (.node (.node .leaf 0x454
    [0x404] .leaf) 0x455 [0x405] .leaf)) 0x456 [0x406] (.node (.node (.node .leaf 0x457 [0x407] .leaf) 0x458
    [0x408] .leaf) 0x459 [0x409] (.node (.node .leaf 0x45a [0x40a] .leaf) 0x45b [0x40b] .leaf)))) 0x45c
    [0x40c] (.node (.node (.node (.node (.node .leaf 0x45d [0x40d] .leaf) 0x45e [0x40e] .leaf) 0x45f [0x40f]
    (.node (.node .leaf 0x461 [0x460] .leaf) 0x463 [0x462] .leaf)) 0x465 [0x464] (.node (.node (.node .leaf
    0x467 [0x466] .leaf) 0x469 [0x468] .leaf) 0x46b [0x46a] (.node (.node .leaf 0x46d [0x46c] .leaf) 0x46f
    [0x46e] .leaf))) 0x471 [0x470] (.node (.node (.node (.node .leaf 0x473 [0x472] .leaf) 0x475 [0x474] .leaf)
    0x477 [0x476] (.node (.node .leaf 0x479 [0x478] .leaf) 0x47b [0x47a] .leaf)) 0x47d [0x47c] (.node (.node
    (.node .leaf 0x47f [0x47e] .leaf) 0x481 [0x480] .leaf) 0x48b [0x48a] (.node .leaf 0x48d [0x48c]
    .leaf)))))))) 0x48f [0x48e] (.node (.node (.node (.node (.node (.node (.node (.node (.node .leaf 0x491
    [0x490] .leaf) 0x493 [0x492] .leaf) 0x495 [0x494] (.node (.node .leaf 0x497 [0x496] .leaf) 0x499 [0x498]
    .leaf)) 0x49b [0x49a] (.node (.node (.node .leaf 0x49d [0x49c] .leaf) 0x49f [0x49e] .leaf) 0x4a1 [0x4a0]
    (.node (.node .leaf 0x4a3 [0x4a2] .leaf) 0x4a5 [0x4a4] .leaf))) 0x4a7 [0x4a6] (.node (.node (.node (.node
    .leaf 0x4a9 [0x4a8] .leaf) 0x4ab [0x4aa] .leaf) 0x4ad [0x4ac] (.node (.node .leaf 0x4af [0x4ae] .leaf)
    0x4b1 [0x4b0] .leaf)) 0x4b3 [0x4b2] (.node (.node (.node .leaf 0x4b5 [0x4b4] .leaf) 0x4b7 [0x4b6] .leaf)
    0x4b9 [0x4b8] (.node (.node .leaf 0x4bb [0x4ba] .leaf) 0x4bd [0x4bc] .leaf)))) 0x4bf [0x4be] (.node (.node
    (.node (.node (.node .leaf 0x4c2 [0x4c1] .leaf) 0x4c4 [0x4c3] .leaf) 0x4c6 [0x4c5] (.node (.node .leaf
    0x4c8 [0x4c7] .leaf) 0x4ca [0x4c9] .leaf)) 0x4cc [0x4cb] (.node (.node (.node .leaf 0x4ce [0x4cd] .leaf)
    0x4cf [0x4c0] .leaf) 0x4d1 [0x4d0] (.node (.node .leaf 0x4d3 [0x4d2] .leaf) 0x4d5 [0x4d4] .leaf))) 0x4d7
    [0x4d6] (.node (.node (.node (.node .leaf 0x4d9 [0x4d8] .leaf) 0x4db [0x4da] .leaf) 0x4dd [0x4dc] (.node
    (.node .leaf 0x4df [0x4de] .leaf) 0x4e1 [0x4e0] .leaf)) 0x4e3 [0x4e2] (.node (.node (.node .leaf 0x4e5
    [0x4e4] .leaf) 0x4e7 [0x4e6] .leaf) 0x4e9 [0x4e8] (.node (.node .leaf 0x4eb [0x4ea] .leaf) 0x4ed [0x4ec]
    .leaf))))) 0x4ef [0x4ee] (.node (.node (.node (.node (.node (.node .leaf 0x4f1 [0x4f0] .leaf) 0x4f3
    [0x4f2] .leaf) 0x4f5 [0x4f4] (.node (.node .leaf 0x4f7 [0x4f6] .leaf) 0x4f9 [0x4f8] .leaf)) 0x4fb [0x4fa]
    (.node (.node (.node .leaf 0x4fd [0x4fc] .leaf) 0x4ff [0x4fe] .leaf) 0x501 [0x500] (.node (.node .leaf
    0x503 [0x502] .leaf) 0x505 [0x504] .leaf))) 0x507 [0x506] (.node (.node (.node (.node .leaf 0x509 [0x508]
    .leaf) 0x50b [0x50a] .leaf) 0x50d [0x50c] (.node (.node .leaf 0x50f [0x50e] .leaf) 0x511 [0x510] .leaf))
    0x513 [0x512] (.node (.node (.node .leaf 0x515 [0x514] .leaf) 0x517 [0x516] .leaf) 0x519 [0x518] (.node
    (.node .leaf 0x51b [0x51a] .leaf) 0x51d [0x51c] .leaf)))) 0x51f [0x51e] (.node (.node (.node (.node (.node
    .leaf 0x521 [0x520] .leaf) 0x523 [0x522] .leaf) 0x525 [0x524] (.node (.node .leaf 0x527 [0x526] .leaf)
    0x529 [0x528] .leaf)) 0x52b [0x52a] (.node (.node (.node .leaf 0x52d [0x52c] .leaf) 0x52f [0x52e] .leaf)
    0x561 [0x531] (.node (.node .leaf 0x562 [0x532] .leaf) 0x563 [0x533] .leaf))) 0x564 [0x534] (.node (.node
    (.node (.node .leaf 0x565 [0x535] .leaf) 0x566 [0x536] .leaf) 0x567 [0x537] (.node (.node .leaf 0x568
    [0x538] .leaf) 0x569 [0x539] .leaf)) 0x56a [0x53a] (.node (.node (.node .leaf 0x56b [0x53b] .leaf) 0x56c
    [0x53c] .leaf) 0x56d [0x53d] (.node (.node .leaf 0x56e [0x53e] .leaf) 0x56f [0x53f] .leaf)))))) 0x570
    [0x540] (.node (.node (.node (.node (.node (.node (.node .leaf 0x571 [0x541] .leaf) 0x572 [0x542] .leaf)
    0x573 [0x543] (.node (.node .leaf 0x574 [0x544] .leaf) 0x575 [0x545] .leaf)) 0x576 [0x546] (.node (.node
    (.node .leaf 0x577 [0x547] .leaf) 0x578 [0x548] .leaf) 0x579 [0x549] (.node (.node .leaf 0x57a [0x54a]
    .leaf) 0x57b [0x54b] .leaf))) 0x57c [0x54c] (.node (.node (.node (.node .leaf 0x57d [0x54d] .leaf) 0x57e
    [0x54e] .leaf) 0x57f [0x54f] (.node (.node .leaf 0x580 [0x550] .leaf) 0x581 [0x551] .leaf)) 0x582 [0x552]
    (.node (.node (.node .leaf 0x583 [0x553] .leaf) 0x584 [0x554] .leaf) 0x585 [0x555] (.node (.node .leaf
    0x586 [0x556] .leaf) 0x587 [0x535, 0x552] .leaf)))) 0x10d0 [0x1c90] (.node (.node (.node (.node (.node
    .leaf 0x10d1 [0x1c91] .leaf) 0x10d2 [0x1c92] .leaf) 0x10d3 [0x1c93] (.node (.node .leaf 0x10d4 [0x1c94]
    .leaf) 0x10d5 [0x1c95] .leaf)) 0x10d6 [0x1c96] (.node (.node (.node .leaf 0x10d7 [0x1c97] .leaf) 0x10d8
    [0x1c98] .leaf) 0x10d9 [0x1c99] (.node (.node .leaf 0x10da [0x1c9a] .leaf) 0x10db [0x1c9b] .leaf))) 0x10dc
    [0x1c9c] (.node (.node (.node (.node .leaf 0x10dd [0x1c9d] .leaf) 0x10de [0x1c9e] .leaf) 0x10df [0x1c9f]
    (.node (.node .leaf 0x10e0 [0x1ca0] .leaf) 0x10e1 [0x1ca1] .leaf)) 0x10e2 [0x1ca2] (.node (.node (.node
    .leaf 0x10e3 [0x1ca3] .leaf) 0x10e4 [0x1ca4] .leaf) 0x10e5 [0x1ca5] (.node (.node .leaf 0x10e6 [0x1ca6]
    .leaf) 0x10e7 [0x1ca7] .leaf))))) 0x10e8 [0x1ca8] (.node (.node (.node (.node (.node (.node .leaf 0x10e9
    [0x1ca9] .leaf) 0x10ea [0x1caa] .leaf) 0x10eb [0x1cab] (.node (.node .leaf 0x10ec [0x1cac] .leaf) 0x10ed
    [0x1cad] .leaf)) 0x10ee [0x1cae] (.node (.node (.node .leaf 0x10ef [0x1caf] .leaf) 0x10f0 [0x1cb0] .leaf)
    0x10f1 [0x1cb1] (.node (.node .leaf 0x10f2 [0x1cb2] .leaf) 0x10f3 [0x1cb3] .leaf))) 0x10f4 [0x1cb4] (.node
    (.node (.node (.node .leaf 0x10f5 [0x1cb5] .leaf) 0x10f6 [0x1cb6] .leaf) 0x10f7 [0x1cb7] (.node (.node
    .leaf 0x10f8 [0x1cb8] .leaf) 0x10f9 [0x1cb9] .leaf)) 0x10fa [0x1cba] (.node (.node (.node .leaf 0x10fd
    [0x1cbd] .leaf) 0x10fe [0x1cbe] .leaf) 0x10ff [0x1cbf] (.node (.node .leaf 0x13f8 [0x13f0] .leaf) 0x13f9
    [0x13f1] .leaf)))) 0x13fa [0x13f2] (.node (.node (.node (.node (.node .leaf 0x13fb [0x13f3] .leaf) 0x13fc
    [0x13f4] .leaf) 0x13fd [0x13f5] (.node (.node .leaf 0x1c80 [0x412] .leaf) 0x1c81 [0x414] .leaf)) 0x1c82
    [0x41e] (.node (.node (.node .leaf 0x1c83 [0x421] .leaf) 0x1c84 [0x422] .leaf) 0x1c85 [0x422] (.node
    (.node .leaf 0x1c86 [0x42a] .leaf) 0x1c87 [0x462] .leaf))) 0x1c88 [0xa64a] (.node (.node (.node (.node
    .leaf 0x1d79 [0xa77d] .leaf) 0x1d7d [0x2c63] .leaf) 0x1d8e [0xa7c6] (.node (.node .leaf 0x1e01 [0x1e00]
    .leaf) 0x1e03 [0x1e02] .leaf)) 0x1e05 [0x1e04] (.node (.node (.node .leaf 0x1e07 [0x1e06] .leaf) 0x1e09
    [0x1e08] .leaf) 0x1e0b [0x1e0a] (.node .leaf 0x1e0d [0x1e0c] .leaf))))))) 0x1e0f [0x1e0e] (.node (.node
    (.node (.node (.node (.node (.node (.node .leaf 0x1e11 [0x1e10] .leaf) 0x1e13 [0x1e12] .leaf) 0x1e15
    [0x1e14] (.node (.node .leaf 0x1e17 [0x1e16] .leaf) 0x1e19 [0x1e18] .leaf)) 0x1e1b [0x1e1a] (.node (.node
    (.node .leaf 0x1e1d [0x1e1c] .leaf) 0x1e1f [0x1e1e] .leaf) 0x1e21 [0x1e20] (.node (.node .leaf 0x1e23
    [0x1e22] .leaf) 0x1e25 [0x1e24] .leaf))) 0x1e27 [0x1e26] (.node (.node (.node (.node .leaf 0x1e29 [0x1e28]
    .leaf) 0x1e2b [0x1e2a] .leaf) 0x1e2d [0x1e2c] (.node (.node .leaf 0x1e2f [0x1e2e] .leaf) 0x1e31 [0x1e30]
    .leaf)) 0x1e33 [0x1e32] (.node (.node (.node .leaf 0x1e35 [0x1e34] .leaf) 0x1e37 [0x1e36] .leaf) 0x1e39
    [0x1e38] (.node (.node .leaf 0x1e3b [0x1e3a] .leaf) 0x1e3d [0x1e3c] .leaf)))) 0x1e3f [0x1e3e] (.node
    (.node (.node (.node (.node .leaf 0x1e41 [0x1e40] .leaf) 0x1e43 [0x1e42] .leaf) 0x1e45 [0x1e44] (.node
    (.node .leaf 0x1e47 [0x1e46] .leaf) 0x1e49 [0x1e48] .leaf)) 0x1e4b [0x1e4a] (.node (.node (.node .leaf
    0x1e4d [0x1e4c] .leaf) 0x1e4f [0x1e4e] .leaf) 0x1e51 [0x1e50] (.node (.node .leaf 0x1e53 [0x1e52] .leaf)
    0x1e55 [0x1e54] .leaf))) 0x1e57 [0x1e56] (.node (.node (.node (.node .leaf 0x1e59 [0x1e58] .leaf) 0x1e5b
    [0x1e5a] .leaf) 0x1e5d [0x1e5c] (.node (.node .leaf 0x1e5f [0x1e5e] .leaf) 0x1e61 [0x1e60] .leaf)) 0x1e63
    [0x1e62] (.node (.node (.node .leaf 0x1e65 [0x1e64] .leaf) 0x1e67 [0x1e66] .leaf) 0x1e69 [0x1e68] (.node
    (.node .leaf 0x1e6b [0x1e6a] .leaf) 0x1e6d [0x1e6c] .leaf))))) 0x1e6f [0x1e6e] (.node (.node (.node (.node
    (.node (.node .leaf 0x1e71 [0x1e70] .leaf) 0x1e73 [0x1e72] .leaf) 0x1e75 [0x1e74] (.node (.node .leaf
    0x1e77 [0x1e76] .leaf) 0x1e79 [0x1e78] .leaf)) 0x1e7b [0x1e7a] (.node (.node (.node .leaf 0x1e7d [0x1e7c]
    .leaf) 0x1e7f [0x1e7e] .leaf) 0x1e81 [0x1e80] (.node (.node .leaf 0x1e83 [0x1e82] .leaf) 0x1e85 [0x1e84]
    .leaf))) 0x1e87 [0x1e86] (.node (.node (.node (.node .leaf 0x1e89 [0x1e88] .leaf) 0x1e8b [0x1e8a] .leaf)
    0x1e8d [0x1e8c] (.node (.node .leaf 0x1e8f [0x1e8e] .leaf) 0x1e91 [0x1e90] .leaf)) 0x1e93 [0x1e92] (.node
    (.node (.node .leaf 0x1e95 [0x1e94] .leaf) 0x1e96 [0x48, 0x331] .leaf) 0x1e97 [0x54, 0x308] (.node (.node
    .leaf 0x1e98 [0x57, 0x30a] .leaf) 0x1e99 [0x59, 0x30a] .leaf)))) 0x1e9a [0x41, 0x2be] (.node (.node (.node
    (.node (.node .leaf 0x1e9b [0x1e60] .leaf) 0x1ea1 [0x1ea0] .leaf) 0x1ea3 [0x1ea2] (.node (.node .leaf
    0x1ea5 [0x1ea4] .leaf) 0x1ea7 [0x1ea6] .leaf)) 0x1ea9 [0x1ea8] (.node (.node (.node .leaf 0x1eab [0x1eaa]
    .leaf) 0x1ead [0x1eac] .leaf) 0x1eaf [0x1eae] (.node (.node .leaf 0x1eb1 [0x1eb0] .leaf) 0x1eb3 [0x1eb2]
    .leaf))) 0x1eb5 [0x1eb4] (.node (.node (.node (.node .leaf 0x1eb7 [0x1eb6] .leaf) 0x1eb9 [0x1eb8] .leaf)
    0x1ebb [0x1eba] (.node (.node .leaf 0x1ebd [0x1ebc] .leaf) 0x1ebf [0x1ebe] .leaf)) 0x1ec1 [0x1ec0] (.node
    (.node (.node .leaf 0x1ec3 [0x1ec2] .leaf) 0x1ec5 [0x1ec4] .leaf) 0x1ec7 [0x1ec6] (.node .leaf 0x1ec9
    [0x1ec8] .leaf)))))) 0x1ecb [0x1eca] (.node (.node (.node (.node (.node (.node (.node .leaf 0x1ecd
    [0x1ecc] .leaf) 0x1ecf [0x1ece] .leaf) 0x1ed1 [0x1ed0] (.node (.node .leaf 0x1ed3 [0x1ed2] .leaf) 0x1ed5
    [0x1ed4] .leaf)) 0x1ed7 [0x1ed6] (.node (.node (.node .leaf 0x1ed9 [0x1ed8] .leaf) 0x1edb [0x1eda] .leaf)
    0x1edd [0x1edc] (.node (.node .leaf 0x1edf [0x1ede] .leaf) 0x1ee1 [0x1ee0] .leaf))) 0x1ee3 [0x1ee2] (.node
    (.node (.node (.node .leaf 0x1ee5 [0x1ee4] .leaf) 0x1ee7 [0x1ee6] .leaf) 0x1ee9 [0x1ee8] (.node (.node
    .leaf 0x1eeb [0x1eea] .leaf) 0x1eed [0x1eec] .leaf)) 0x1eef [0x1eee] (.node (.node (.node .leaf 0x1ef1
    [0x1ef0] .leaf) 0x1ef3 [0x1ef2] .leaf) 0x1ef5 [0x1ef4] (.node (.node .leaf 0x1ef7 [0x1ef6] .leaf) 0x1ef9
    [0x1ef8] .leaf)))) 0x1efb [0x1efa] (.node (.node (.node (.node (.node .leaf 0x1efd [0x1efc] .leaf) 0x1eff
    [0x1efe] .leaf) 0x1f00 [0x1f08] (.node (.node .leaf 0x1f01 [0x1f09] .leaf) 0x1f02 [0x1f0a] .leaf)) 0x1f03
    [0x1f0b] (.node (.node (.node .leaf 0x1f04 [0x1f0c] .leaf) 0x1f05 [0x1f0d] .leaf) 0x1f06 [0x1f0e] (.node
    (.node .leaf 0x1f07 [0x1f0f] .leaf) 0x1f10 [0x1f18] .leaf))) 0x1f11 [0x1f19] (.node (.node (.node (.node
    .leaf 0x1f12 [0x1f1a] .leaf) 0x1f13 [0x1f1b] .leaf) 0x1f14 [0x1f1c] (.node (.node .leaf 0x1f15 [0x1f1d]
    .leaf) 0x1f20 [0x1f28] .leaf)) 0x1f21 [0x1f29] (.node (.node (.node .leaf 0x1f22 [0x1f2a] .leaf) 0x1f23
    [0x1f2b] .leaf) 0x1f24 [0x1f2c] (.node (.node .leaf 0x1f25 [0x1f2d] .leaf) 0x1f26 [0x1f2e] .leaf)))))
    0x1f27 [0x1f2f] (.node (.node (.node (.node (.node (.node .leaf 0x1f30 [0x1f38] .leaf) 0x1f31 [0x1f39]
    .leaf) 0x1f32 [0x1f3a] (.node (.node .leaf 0x1f33 [0x1f3b] .leaf) 0x1f34 [0x1f3c] .leaf)) 0x1f35 [0x1f3d]
    (.node (.node (.node .leaf 0x1f36 [0x1f3e] .leaf) 0x1f37 [0x1f3f] .leaf) 0x1f40 [0x1f48] (.node (.node
    .leaf 0x1f41 [0x1f49] .leaf) 0x1f42 [0x1f4a] .leaf))) 0x1f43 [0x1f4b] (.node (.node (.node (.node .leaf
    0x1f44 [0x1f4c] .leaf) 0x1f45 [0x1f4d] .leaf) 0x1f50 [0x3a5, 0x313] (.node (.node .leaf 0x1f51 [0x1f59]
    .leaf) 0x1f52 [0x3a5, 0x313, 0x300] .leaf)) 0x1f53 [0x1f5b] (.node (.node (.node .leaf 0x1f54 [0x3a5,
    0x313, 0x301] .leaf) 0x1f55 [0x1f5d] .leaf) 0x1f56 [0x3a5, 0x313, 0x342] (.node (.node .leaf 0x1f57
    [0x1f5f] .leaf) 0x1f60 [0x1f68] .leaf)))) 0x1f61 [0x1f69] (.node (.node (.node (.node (.node .leaf 0x1f62
    [0x1f6a] .leaf) 0x1f63 [0x1f6b] .leaf) 0x1f64 [0x1f6c] (.node (.node .leaf 0x1f65 [0x1f6d] .leaf) 0x1f66
    [0x1f6e] .leaf)) 0x1f67 [0x1f6f] (.node (.node (.node .leaf 0x1f70 [0x1fba] .leaf) 0x1f71 [0x1fbb] .leaf)
    0x1f72 [0x1fc8] (.node (.node .leaf 0x1f73 [0x1fc9] .leaf) 0x1f74 [0x1fca] .leaf))) 0x1f75 [0x1fcb] (.node
    (.node (.node (.node .leaf 0x1f76 [0x1fda] .leaf) 0x1f77 [0x1fdb] .leaf) 0x1f78 [0x1ff8] (.node (.node
    .leaf 0x1f79 [0x1ff9] .leaf) 0x1f7a [0x1fea] .leaf)) 0x1f7b [0x1feb] (.node (.node (.node .leaf 0x1f7c
    [0x1ffa] .leaf) 0x1f7d [0x1ffb] .leaf) 0x1f80 [0x1f08, 0x399] (.node .leaf 0x1f81 [0x1f09, 0x399]
    .leaf))))))))) 0x1f82 [0x1f0a, 0x399] (.node (.node (.node (.node (.node (.node (.node (.node (.node
    (.node .leaf 0x1f83 [0x1f0b, 0x399] .leaf) 0x1f84 [0x1f0c, 0x399] .leaf) 0x1f85 [0x1f0d, 0x399] (.node
    (.node .leaf 0x1f86 [0x1f0e, 0x399] .leaf) 0x1f87 [0x1f0f, 0x399] .leaf)) 0x1f88 [0x1f08, 0x399] (.node
    (.node (.node .leaf 0x1f89 [0x1f09, 0x399] .leaf) 0x1f8a [0x1f0a, 0x399] .leaf) 0x1f8b [0x1f0b, 0x399]
    (.node (.node .leaf 0x1f8c [0x1f0c, 0x399] .leaf) 0x1f8d [0x1f0d, 0x399] .leaf))) 0x1f8e [0x1f0e, 0x399]
    (.node (.node (.node (.node .leaf 0x1f8f [0x1f0f, 0x399] .leaf) 0x1f90 [0x1f28, 0x399] .leaf) 0x1f91
    [0x1f29, 0x399] (.node (.node .leaf 0x1f92 [0x1f2a, 0x399] .leaf) 0x1f93 [0x1f2b, 0x399] .leaf)) 0x1f94
    [0x1f2c, 0x399] (.node (.node (.node .leaf 0x1f95 [0x1f2d, 0x399] .leaf) 0x1f96 [0x1f2e, 0x399] .leaf)
    0x1f97 [0x1f2f, 0x399] (.node (.node .leaf 0x1f98 [0x1f28, 0x399] .leaf) 0x1f99 [0x1f29, 0x399] .leaf))))
    0x1f9a [0x1f2a, 0x399] (.node (.node (.node (.node (.node .leaf 0x1f9b [0x1f2b, 0x399] .leaf) 0x1f9c
    [0x1f2c, 0x399] .leaf) 0x1f9d [0x1f2d, 0x399] (.node (.node .leaf 0x1f9e [0x1f2e, 0x399] .leaf) 0x1f9f
    [0x1f2f, 0x399] .leaf)) 0x1fa0 [0x1f68, 0x399] (.node (.node (.node .leaf 0x1fa1 [0x1f69, 0x399] .leaf)
    0x1fa2 [0x1f6a, 0x399] .leaf) 0x1fa3 [0x1f6b, 0x399] (.node (.node .leaf 0x1fa4 [0x1f6c, 0x399] .leaf)
    0x1fa5 [0x1f6d, 0x399] .leaf))) 0x1fa6 [0x1f6e, 0x399] (.node (.node (.node (.node .leaf 0x1fa7 [0x1f6f,
    0x399] .leaf) 0x1fa8 [0x1f68, 0x399] .leaf) 0x1fa9 [0x1f69, 0x399] (.node (.node .leaf 0x1faa [0x1f6a,
    0x399] .leaf) 0x1fab [0x1f6b, 0x399] .leaf)) 0x1fac [0x1f6c, 0x399] (.node (.node (.node .leaf 0x1fad
    [0x1f6d, 0x399] .leaf) 0x1fae [0x1f6e, 0x399] .leaf) 0x1faf [0x1f6f, 0x399] (.node (.node .leaf 0x1fb0
    [0x1fb8] .leaf) 0x1fb1 [0x1fb9] .leaf))))) 0x1fb2 [0x1fba, 0x399] (.node (.node (.node (.node (.node
    (.node .leaf 0x1fb3 [0x391, 0x399] .leaf) 0x1fb4 [0x386, 0x399] .leaf) 0x1fb6 [0x391, 0x342] (.node (.node
    .leaf 0x1fb7 [0x391, 0x342, 0x399] .leaf) 0x1fbc [0x391, 0x399] .leaf)) 0x1fbe [0x399] (.node (.node
    (.node .leaf 0x1fc2 [0x1fca, 0x399] .leaf) 0x1fc3 [0x397, 0x399] .leaf) 0x1fc4 [0x389, 0x399] (.node
    (.node .leaf 0x1fc6 [0x397, 0x342] .leaf) 0x1fc7 [0x397, 0x342, 0x399] .leaf))) 0x1fcc [0x397, 0x399]
    (.node (.node (.node (.node .leaf 0x1fd0 [0x1fd8] .leaf) 0x1fd1 [0x1fd9] .leaf) 0x1fd2 [0x399, 0x308,
    0x300] (.node (.node .leaf 0x1fd3 [0x399, 0x308, 0x301] .leaf) 0x1fd6 [0x399, 0x342] .leaf)) 0x1fd7
    [0x399, 0x308, 0x342] (.node (.node (.node .leaf 0x1fe0 [0x1fe8] .leaf) 0x1fe1 [0x1fe9] .leaf) 0x1fe2
    [0x3a5, 0x308, 0x300] (.node (.node .leaf 0x1fe3 [0x3a5, 0x308, 0x301] .leaf) 0x1fe4 [0x3a1, 0x313]
    .leaf)))) 0x1fe5 [0x1fec] (.node (.node (.node (.node (.node .leaf 0x1fe6 [0x3a5, 0x342] .leaf) 0x1fe7
    [0x3a5, 0x308, 0x342] .leaf) 0x1ff2 [0x1ffa, 0x399] (.node (.node .leaf 0x1ff3 [0x3a9, 0x399] .leaf)
    0x1ff4 [0x38f, 0x399] .leaf)) 0x1ff6 [0x3a9, 0x342] (.node (.node (.node .leaf 0x1ff7 [0x3a9, 0x342,
    0x399] .leaf) 0x1ffc [0x3a9, 0x399] .leaf) 0x214e [0x2132] (.node (.node .leaf 0x2170 [0x2160] .leaf)
    0x2171 [0x2161] .leaf))) 0x2172 [0x2162] (.node (.node (.node (.node .leaf 0x2173 [0x2163] .leaf) 0x2174
    [0x2164] .leaf) 0x2175 [0x2165] (.node (.node .leaf 0x2176 [0x2166] .leaf) 0x2177 [0x2167] .leaf)) 0x2178
    [0x2168] (.node (.node (.node .leaf 0x2179 [0x2169] .leaf) 0x217a [0x216a] .leaf) 0x217b [0x216b] (.node
    (.node .leaf 0x217c [0x216c] .leaf) 0x217d [0x216d] .leaf)))))) 0x217e [0x216e] (.node (.node (.node
    (.node (.node (.node (.node .leaf 0x217f [0x216f] .leaf) 0x2184 [0x2183] .leaf) 0x24d0 [0x24b6] (.node
    (.node .leaf 0x24d1 [0x24b7] .leaf) 0x24d2 [0x24b8] .leaf)) 0x24d3 [0x24b9] (.node (.node (.node .leaf
    0x24d4 [0x24ba] .leaf) 0x24d5 [0x24bb] .leaf) 0x24d6 [0x24bc] (.node (.node .leaf 0x24d7 [0x24bd] .leaf)
    0x24d8 [0x24be] .leaf))) 0x24d9 [0x24bf] (.node (.node (.node (.node .leaf 0x24da [0x24c0] .leaf) 0x24db
    [0x24c1] .leaf) 0x24dc [0x24c2] (.node (.node .leaf 0x24dd [0x24c3] .leaf) 0x24de [0x24c4] .leaf)) 0x24df
    [0x24c5] (.node (.node (.node .leaf 0x24e0 [0x24c6] .leaf) 0x24e1 [0x24c7] .leaf) 0x24e2 [0x24c8] (.node
    (.node .leaf 0x24e3 [0x24c9] .leaf) 0x24e4 [0x24ca] .leaf)))) 0x24e5 [0x24cb] (.node (.node (.node (.node
    (.node .leaf 0x24e6 [0x24cc] .leaf) 0x24e7 [0x24cd] .leaf) 0x24e8 [0x24ce] (.node (.node .leaf 0x24e9
    [0x24cf] .leaf) 0x2c30 [0x2c00] .leaf)) 0x2c31 [0x2c01] (.node (.node (.node .leaf 0x2c32 [0x2c02] .leaf)
    0x2c33 [0x2c03] .leaf) 0x2c34 [0x2c04] (.node (.node .leaf 0x2c35 [0x2c05] .leaf) 0x2c36 [0x2c06] .leaf)))
    0x2c37 [0x2c07] (.node (.node (.node (.node .leaf 0x2c38 [0x2c08] .leaf) 0x2c39 [0x2c09] .leaf) 0x2c3a
    [0x2c0a] (.node (.node .leaf 0x2c3b [0x2c0b] .leaf) 0x2c3c [0x2c0c] .leaf)) 0x2c3d [0x2c0d] (.node (.node
    (.node .leaf 0x2c3e [0x2c0e] .leaf) 0x2c3f [0x2c0f] .leaf) 0x2c40 [0x2c10] (.node (.node .leaf 0x2c41
    [0x2c11] .leaf) 0x2c42 [0x2c12] .leaf))))) 0x2c43 [0x2c13] (.node (.node (.node (.node (.node (.node .leaf
    0x2c44 [0x2c14] .leaf) 0x2c45 [0x2c15] .leaf) 0x2c46 [0x2c16] (.node (.node .leaf 0x2c47 [0x2c17] .leaf)
    0x2c48 [0x2c18] .leaf)) 0x2c49 [0x2c19] (.node (.node (.node .leaf 0x2c4a [0x2c1a] .leaf) 0x2c4b [0x2c1b]
    .leaf) 0x2c4c [0x2c1c] (.node (.node .leaf 0x2c4d [0x2c1d] .leaf) 0x2c4e [0x2c1e] .leaf))) 0x2c4f [0x2c1f]
    (.node (.node (.node (.node .leaf 0x2c50 [0x2c20] .leaf) 0x2c51 [0x2c21] .leaf) 0x2c52 [0x2c22] (.node
    (.node .leaf 0x2c53 [0x2c23] .leaf) 0x2c54 [0x2c24] .leaf)) 0x2c55 [0x2c25] (.node (.node (.node .leaf
    0x2c56 [0x2c26] .leaf) 0x2c57 [0x2c27] .leaf) 0x2c58 [0x2c28] (.node (.node .leaf 0x2c59 [0x2c29] .leaf)
    0x2c5a [0x2c2a] .leaf)))) 0x2c5b [0x2c2b] (.node (.node (.node (.node (.node .leaf 0x2c5c [0x2c2c] .leaf)
    0x2c5d [0x2c2d] .leaf) 0x2c5e [0x2c2e] (.node (.node .leaf 0x2c5f [0x2c2f] .leaf) 0x2c61 [0x2c60] .leaf))
    0x2c65 [0x23a] (.node (.node (.node .leaf 0x2c66 [0x23e] .leaf) 0x2c68 [0x2c67] .leaf) 0x2c6a [0x2c69]
    (.node (.node .leaf 0x2c6c [0x2c6b] .leaf) 0x2c73 [0x2c72] .leaf))) 0x2c76 [0x2c75] (.node (.node (.node
    (.node .leaf 0x2c81 [0x2c80] .leaf) 0x2c83 [0x2c82] .leaf) 0x2c85 [0x2c84] (.node (.node .leaf 0x2c87
    [0x2c86] .leaf) 0x2c89 [0x2c88] .leaf)) 0x2c8b [0x2c8a] (.node (.node (.node .leaf 0x2c8d [0x2c8c] .leaf)
    0x2c8f [0x2c8e] .leaf) 0x2c91 [0x2c90] (.node .leaf 0x2c93 [0x2c92] .leaf))))))) 0x2c95 [0x2c94] (.node
    (.node (.node (.node (.node (.node (.node (.node .leaf 0x2c97 [0x2c96] .leaf) 0x2c99 [0x2c98] .leaf)
    0x2c9b [0x2c9a] (.node (.node .leaf 0x2c9d [0x2c9c] .leaf) 0x2c9f [0x2c9e] .leaf)) 0x2ca1 [0x2ca0] (.node
    (.node (.node .leaf 0x2ca3 [0x2ca2] .leaf) 0x2ca5 [0x2ca4] .leaf) 0x2ca7 [0x2ca6] (.node (.node .leaf
    0x2ca9 [0x2ca8] .leaf) 0x2cab [0x2caa] .leaf))) 0x2cad [0x2cac] (.node (.node (.node (.node .leaf 0x2caf
    [0x2cae] .leaf) 0x2cb1 [0x2cb0] .leaf) 0x2cb3 [0x2cb2] (.node (.node .leaf 0x2cb5 [0x2cb4] .leaf) 0x2cb7
    [0x2cb6] .leaf)) 0x2cb9 [0x2cb8] (.node (.node (.node .leaf 0x2cbb [0x2cba] .leaf) 0x2cbd [0x2cbc] .leaf)
    0x2cbf [0x2cbe] (.node (.node .leaf 0x2cc1 [0x2cc0] .leaf) 0x2cc3 [0x2cc2] .leaf)))) 0x2cc5 [0x2cc4]
    (.node (.node (.node (.node (.node .leaf 0x2cc7 [0x2cc6] .leaf) 0x2cc9 [0x2cc8] .leaf) 0x2ccb [0x2cca]
    (.node (.node .leaf 0x2ccd [0x2ccc] .leaf) 0x2ccf [0x2cce] .leaf)) 0x2cd1 [0x2cd0] (.node (.node (.node
    .leaf 0x2cd3 [0x2cd2] .leaf) 0x2cd5 [0x2cd4] .leaf) 0x2cd7 [0x2cd6] (.node (.node .leaf 0x2cd9 [0x2cd8]
    .leaf) 0x2cdb [0x2cda] .leaf))) 0x2cdd [0x2cdc] (.node (.node (.node (.node .leaf 0x2cdf [0x2cde] .leaf)
    0x2ce1 [0x2ce0] .leaf) 0x2ce3 [0x2ce2] (.node (.node .leaf 0x2cec [0x2ceb] .leaf) 0x2cee [0x2ced] .leaf))
    0x2cf3 [0x2cf2] (.node (.node (.node .leaf 0x2d00 [0x10a0] .leaf) 0x2d01 [0x10a1] .leaf) 0x2d02 [0x10a2]
    (.node (.node .leaf 0x2d03 [0x10a3] .leaf) 0x2d04 [0x10a4] .leaf))))) 0x2d05 [0x10a5] (.node (.node (.node
    (.node (.node (.node .leaf 0x2d06 [0x10a6] .leaf) 0x2d07 [0x10a7] .leaf) 0x2d08 [0x10a8] (.node (.node
    .leaf 0x2d09 [0x10a9] .leaf) 0x2d0a [0x10aa] .leaf)) 0x2d0b [0x10ab] (.node (.node (.node .leaf 0x2d0c
    [0x10ac] .leaf) 0x2d0d [0x10ad] .leaf) 0x2d0e [0x10ae] (.node (.node .leaf 0x2d0f [0x10af] .leaf) 0x2d10
    [0x10b0] .leaf))) 0x2d11 [0x10b1] (.node (.node (.node (.node .leaf 0x2d12 [0x10b2] .leaf) 0x2d13 [0x10b3]
    .leaf) 0x2d14 [0x10b4] (.node (.node .leaf 0x2d15 [0x10b5] .leaf) 0x2d16 [0x10b6] .leaf)) 0x2d17 [0x10b7]
    (.node (.node (.node .leaf 0x2d18 [0x10b8] .leaf) 0x2d19 [0x10b9] .leaf) 0x2d1a [0x10ba] (.node (.node
    .leaf 0x2d1b [0x10bb] .leaf) 0x2d1c [0x10bc] .leaf)))) 0x2d1d [0x10bd] (.node (.node (.node (.node (.node
    .leaf 0x2d1e [0x10be] .leaf) 0x2d1f [0x10bf] .leaf) 0x2d20 [0x10c0] (.node (.node .leaf 0x2d21 [0x10c1]
    .leaf) 0x2d22 [0x10c2] .leaf)) 0x2d23 [0x10c3] (.node (.node (.node .leaf 0x2d24 [0x10c4] .leaf) 0x2d25
    [0x10c5] .leaf) 0x2d27 [0x10c7] (.node (.node .leaf 0x2d2d [0x10cd] .leaf) 0xa641 [0xa640] .leaf))) 0xa643
    [0xa642] (.node (.node (.node (.node .leaf 0xa645 [0xa644] .leaf) 0xa647 [0xa646] .leaf) 0xa649 [0xa648]
    (.node (.node .leaf 0xa64b [0xa64a] .leaf) 0xa64d [0xa64c] .leaf)) 0xa64f [0xa64e] (.node (.node (.node
    .leaf 0xa651 [0xa650] .leaf) 0xa653 [0xa652] .leaf) 0xa655 [0xa654] (.node (.node .leaf 0xa657 [0xa656]
    .leaf) 0xa659 [0xa658] .leaf)))))) 0xa65b [0xa65a] (.node (.node (.node (.node (.node (.node (.node .leaf
    0xa65d [0xa65c] .leaf) 0xa65f [0xa65e] .leaf) 0xa661 [0xa660] (.node (.node .leaf 0xa663 [0xa662] .leaf)
    0xa665 [0xa664] .leaf)) 0xa667 [0xa666] (.node (.node (.node .leaf 0xa669 [0xa668] .leaf) 0xa66b [0xa66a]
    .leaf) 0xa66d [0xa66c] (.node (.node .leaf 0xa681 [0xa680] .leaf) 0xa683 [0xa682] .leaf))) 0xa685 [0xa684]
    (.node (.node (.node (.node .leaf 0xa687 [0xa686] .leaf) 0xa689 [0xa688] .leaf) 0xa68b [0xa68a] (.node
    (.node .leaf 0xa68d [0xa68c] .leaf) 0xa68f [0xa68e] .leaf)) 0xa691 [0xa690] (.node (.node (.node .leaf
    0xa693 [0xa692] .leaf) 0xa695 [0xa694] .leaf) 0xa697 [0xa696] (.node (.node .leaf 0xa699 [0xa698] .leaf)
    0xa69b [0xa69a] .leaf)))) 0xa723 [0xa722] (.node (.node (.node (.node (.node .leaf 0xa725 [0xa724] .leaf)
    0xa727 [0xa726] .leaf) 0xa729 [0xa728] (.node (.node .leaf 0xa72b [0xa72a] .leaf) 0xa72d [0xa72c] .leaf))
    0xa72f [0xa72e] (.node (.node (.node .leaf 0xa733 [0xa732] .leaf) 0xa735 [0xa734] .leaf) 0xa737 [0xa736]
    (.node (.node .leaf 0xa739 [0xa738] .leaf) 0xa73b [0xa73a] .leaf))) 0xa73d [0xa73c] (.node (.node (.node
    (.node .leaf 0xa73f [0xa73e] .leaf) 0xa741 [0xa740] .leaf) 0xa743 [0xa742] (.node (.node .leaf 0xa745
    [0xa744] .leaf) 0xa747 [0xa746] .leaf)) 0xa749 [0xa748] (.node (.node (.node .leaf 0xa74b [0xa74a] .leaf)
    0xa74d [0xa74c] .leaf) 0xa74f [0xa74e] (.node (.node .leaf 0xa751 [0xa750] .leaf) 0xa753 [0xa752]
    .leaf))))) 0xa755 [0xa754] (.node (.node (.node (.node (.node (.node .leaf 0xa757 [0xa756] .leaf) 0xa759
    [0xa758] .leaf) 0xa75b [0xa75a] (.node (.node .leaf 0xa75d [0xa75c] .leaf) 0xa75f [0xa75e] .leaf)) 0xa761
    [0xa760] (.node (.node (.node .leaf 0xa763 [0xa762] .leaf) 0xa765 [0xa764] .leaf) 0xa767 [0xa766] (.node
    (.node .leaf 0xa769 [0xa768] .leaf) 0xa76b [0xa76a] .leaf))) 0xa76d [0xa76c] (.node (.node (.node (.node
    .leaf 0xa76f [0xa76e] .leaf) 0xa77a [0xa779] .leaf) 0xa77c [0xa77b] (.node (.node .leaf 0xa77f [0xa77e]
    .leaf) 0xa781 [0xa780] .leaf)) 0xa783 [0xa782] (.node (.node (.node .leaf 0xa785 [0xa784] .leaf) 0xa787
    [0xa786] .leaf) 0xa78c [0xa78b] (.node (.node .leaf 0xa791 [0xa790] .leaf) 0xa793 [0xa792] .leaf))))
    0xa794 [0xa7c4] (.node (.node (.node (.node (.node .leaf 0xa797 [0xa796] .leaf) 0xa799 [0xa798] .leaf)
    0xa79b [0xa79a] (.node (.node .leaf 0xa79d [0xa79c] .leaf) 0xa79f [0xa79e] .leaf)) 0xa7a1 [0xa7a0] (.node
    (.node (.node .leaf 0xa7a3 [0xa7a2] .leaf) 0xa7a5 [0xa7a4] .leaf) 0xa7a7 [0xa7a6] (.node (.node .leaf
    0xa7a9 [0xa7a8] .leaf) 0xa7b5 [0xa7b4] .leaf))) 0xa7b7 [0xa7b6] (.node (.node (.node (.node .leaf 0xa7b9
    [0xa7b8] .leaf) 0xa7bb [0xa7ba] .leaf) 0xa7bd [0xa7bc] (.node (.node .leaf 0xa7bf [0xa7be] .leaf) 0xa7c1
    [0xa7c0] .leaf)) 0xa7c3 [0xa7c2] (.node (.node (.node .leaf 0xa7c8 [0xa7c7] .leaf) 0xa7ca [0xa7c9] .leaf)
    0xa7d1 [0xa7d0] (.node .leaf 0xa7d7 [0xa7d6] .leaf)))))))) 0xa7d9 [0xa7d8] (.node (.node (.node (.node
    (.node (.node (.node (.node (.node .leaf 0xa7f6 [0xa7f5] .leaf) 0xab53 [0xa7b3] .leaf) 0xab70 [0x13a0]
    (.node (.node .leaf 0xab71 [0x13a1] .leaf) 0xab72 [0x13a2] .leaf)) 0xab73 [0x13a3] (.node (.node (.node
    .leaf 0xab74 [0x13a4] .leaf) 0xab75 [0x13a5] .leaf) 0xab76 [0x13a6] (.node (.node .leaf 0xab77 [0x13a7]
    .leaf) 0xab78 [0x13a8] .leaf))) 0xab79 [0x13a9] (.node (.node (.node (.node .leaf 0xab7a [0x13aa] .leaf)
    0xab7b [0x13ab] .leaf) 0xab7c [0x13ac] (.node (.node .leaf 0xab7d [0x13ad] .leaf) 0xab7e [0x13ae] .leaf))
    0xab7f [0x13af] (.node (.node (.node .leaf 0xab80 [0x13b0] .leaf) 0xab81 [0x13b1] .leaf) 0xab82 [0x13b2]
    (.node (.node .leaf 0xab83 [0x13b3] .leaf) 0xab84 [0x13b4] .leaf)))) 0xab85 [0x13b5] (.node (.node (.node
    (.node (.node .leaf 0xab86 [0x13b6] .leaf) 0xab87 [0x13b7] .leaf) 0xab88 [0x13b8] (.node (.node .leaf
    0xab89 [0x13b9] .leaf) 0xab8a [0x13ba] .leaf)) 0xab8b [0x13bb] (.node (.node (.node .leaf 0xab8c [0x13bc]
    .leaf) 0xab8d [0x13bd] .leaf) 0xab8e [0x13be] (.node (.node .leaf 0xab8f [0x13bf] .leaf) 0xab90 [0x13c0]
    .leaf))) 0xab91 [0x13c1] (.node (.node (.node (.node .leaf 0xab92 [0x13c2] .leaf) 0xab93 [0x13c3] .leaf)
    0xab94 [0x13c4] (.node (.node .leaf 0xab95 [0x13c5] .leaf) 0xab96 [0x13c6] .leaf)) 0xab97 [0x13c7] (.node
    (.node (.node .leaf 0xab98 [0x13c8] .leaf) 0xab99 [0x13c9] .leaf) 0xab9a [0x13ca] (.node (.node .leaf
    0xab9b [0x13cb] .leaf) 0xab9c [0x13cc] .leaf))))) 0xab9d [0x13cd] (.node (.node (.node (.node (.node
    (.node .leaf 0xab9e [0x13ce] .leaf) 0xab9f [0x13cf] .leaf) 0xaba0 [0x13d0] (.node (.node .leaf 0xaba1
    [0x13d1] .leaf) 0xaba2 [0x13d2] .leaf)) 0xaba3 [0x13d3] (.node (.node (.node .leaf 0xaba4 [0x13d4] .leaf)
    0xaba5 [0x13d5] .leaf) 0xaba6 [0x13d6] (.node (.node .leaf 0xaba7 [0x13d7] .leaf) 0xaba8 [0x13d8] .leaf)))
    0xaba9 [0x13d9] (.node (.node (.node (.node .leaf 0xabaa [0x13da] .leaf) 0xabab [0x13db] .leaf) 0xabac
    [0x13dc] (.node (.node .leaf 0xabad [0x13dd] .leaf) 0xabae [0x13de] .leaf)) 0xabaf [0x13df] (.node (.node
    (.node .leaf 0xabb0 [0x13e0] .leaf) 0xabb1 [0x13e1] .leaf) 0xabb2 [0x13e2] (.node (.node .leaf 0xabb3
    [0x13e3] .leaf) 0xabb4 [0x13e4] .leaf)))) 0xabb5 [0x13e5] (.node (.node (.node (.node (.node .leaf 0xabb6
    [0x13e6] .leaf) 0xabb7 [0x13e7] .leaf) 0xabb8 [0x13e8] (.node (.node .leaf 0xabb9 [0x13e9] .leaf) 0xabba
    [0x13ea] .leaf)) 0xabbb [0x13eb] (.node (.node (.node .leaf 0xabbc [0x13ec] .leaf) 0xabbd [0x13ed] .leaf)
    0xabbe [0x13ee] (.node (.node .leaf 0xabbf [0x13ef] .leaf) 0xfb00 [0x46, 0x46] .leaf))) 0xfb01 [0x46,
    0x49] (.node (.node (.node (.node .leaf 0xfb02 [0x46, 0x4c] .leaf) 0xfb03 [0x46, 0x46, 0x49] .leaf) 0xfb04
    [0x46, 0x46, 0x4c] (.node (.node .leaf 0xfb05 [0x53, 0x54] .leaf) 0xfb06 [0x53, 0x54] .leaf)) 0xfb13
    [0x544, 0x546] (.node (.node (.node .leaf 0xfb14 [0x544, 0x535] .leaf) 0xfb15 [0x544, 0x53b] .leaf) 0xfb16
    [0x54e, 0x546] (.node (.node .leaf 0xfb17 [0x544, 0x53d] .leaf) 0xff41 [0xff21] .leaf)))))) 0xff42
    [0xff22] (.node (.node (.node (.node (.node (.node (.node .leaf 0xff43 [0xff23] .leaf) 0xff44 [0xff24]
    .leaf) 0xff45 [0xff25] (.node (.node .leaf 0xff46 [0xff26] .leaf) 0xff47 [0xff27] .leaf)) 0xff48 [0xff28]
    (.node (.node (.node .leaf 0xff49 [0xff29] .leaf) 0xff4a [0xff2a] .leaf) 0xff4b [0xff2b] (.node (.node
    .leaf 0xff4c [0xff2c] .leaf) 0xff4d [0xff2d] .leaf))) 0xff4e [0xff2e] (.node (.node (.node (.node .leaf
    0xff4f [0xff2f] .leaf) 0xff50 [0xff30] .leaf) 0xff51 [0xff31] (.node (.node .leaf 0xff52 [0xff32] .leaf)
    0xff53 [0xff33] .leaf)) 0xff54 [0xff34] (.node (.node (.node .leaf 0xff55 [0xff35] .leaf) 0xff56 [0xff36]
    .leaf) 0xff57 [0xff37] (.node (.node .leaf 0xff58 [0xff38] .leaf) 0xff59 [0xff39] .leaf)))) 0xff5a
    [0xff3a] (.node (.node (.node (.node (.node .leaf 0x10428 [0x10400] .leaf) 0x10429 [0x10401] .leaf)
    0x1042a [0x10402] (.node (.node .leaf 0x1042b [0x10403] .leaf) 0x1042c [0x10404] .leaf)) 0x1042d [0x10405]
    (.node (.node (.node .leaf 0x1042e [0x10406] .leaf) 0x1042f [0x10407] .leaf) 0x10430 [0x10408] (.node
    (.node .leaf 0x10431 [0x10409] .leaf) 0x10432 [0x1040a] .leaf))) 0x10433 [0x1040b] (.node (.node (.node
    (.node .leaf 0x10434 [0x1040c] .leaf) 0x10435 [0x1040d] .leaf) 0x10436 [0x1040e] (.node (.node .leaf
    0x10437 [0x1040f] .leaf) 0x10438 [0x10410] .leaf)) 0x10439 [0x10411] (.node (.node (.node .leaf 0x1043a
    [0x10412] .leaf) 0x1043b [0x10413] .leaf) 0x1043c [0x10414] (.node (.node .leaf 0x1043d [0x10415] .leaf)
    0x1043e [0x10416] .leaf))))) 0x1043f [0x10417] (.node (.node (.node (.node (.node (.node .leaf 0x10440
    [0x10418] .leaf) 0x10441 [0x10419] .leaf) 0x10442 [0x1041a] (.node (.node .leaf 0x10443 [0x1041b] .leaf)
    0x10444 [0x1041c] .leaf)) 0x10445 [0x1041d] (.node (.node (.node .leaf 0x10446 [0x1041e] .leaf) 0x10447
    [0x1041f] .leaf) 0x10448 [0x10420] (.node (.node .leaf 0x10449 [0x10421] .leaf) 0x1044a [0x10422] .leaf)))
    0x1044b [0x10423] (.node (.node (.node (.node .leaf 0x1044c [0x10424] .leaf) 0x1044d [0x10425] .leaf)
    0x1044e [0x10426] (.node (.node .leaf 0x1044f [0x10427] .leaf) 0x104d8 [0x104b0] .leaf)) 0x104d9 [0x104b1]
    (.node (.node (.node .leaf 0x104da [0x104b2] .leaf) 0x104db [0x104b3] .leaf) 0x104dc [0x104b4] (.node
    (.node .leaf 0x104dd [0x104b5] .leaf) 0x104de [0x104b6] .leaf)))) 0x104df [0x104b7] (.node (.node (.node
    (.node (.node .leaf 0x104e0 [0x104b8] .leaf) 0x104e1 [0x104b9] .leaf) 0x104e2 [0x104ba] (.node (.node
    .leaf 0x104e3 [0x104bb] .leaf) 0x104e4 [0x104bc] .leaf)) 0x104e5 [0x104bd] (.node (.node (.node .leaf
    0x104e6 [0x104be] .leaf) 0x104e7 [0x104bf] .leaf) 0x104e8 [0x104c0] (.node (.node .leaf 0x104e9 [0x104c1]
    .leaf) 0x104ea [0x104c2] .leaf))) 0x104eb [0x104c3] (.node (.node (.node (.node .leaf 0x104ec [0x104c4]
    .leaf) 0x104ed [0x104c5] .leaf) 0x104ee [0x104c6] (.node (.node .leaf 0x104ef [0x104c7] .leaf) 0x104f0
    [0x104c8] .leaf)) 0x104f1 [0x104c9] (.node (.node (.node .leaf 0x104f2 [0x104ca] .leaf) 0x104f3 [0x104cb]
    .leaf) 0x104f4 [0x104cc] (.node .leaf 0x104f5 [0x104cd] .leaf))))))) 0x104f6 [0x104ce] (.node (.node
    (.node (.node (.node (.node (.node (.node .leaf 0x104f7 [0x104cf] .leaf) 0x104f8 [0x104d0] .leaf) 0x104f9
    [0x104d1] (.node (.node .leaf 0x104fa [0x104d2] .leaf) 0x104fb [0x104d3] .leaf)) 0x10597 [0x10570] (.node
    (.node (.node .leaf 0x10598 [0x10571] .leaf) 0x10599 [0x10572] .leaf) 0x1059a [0x10573] (.node (.node
    .leaf 0x1059b [0x10574] .leaf) 0x1059c [0x10575] .leaf))) 0x1059d [0x10576] (.node (.node (.node (.node
    .leaf 0x1059e [0x10577] .leaf) 0x1059f [0x10578] .leaf) 0x105a0 [0x10579] (.node (.node .leaf 0x105a1
    [0x1057a] .leaf) 0x105a3 [0x1057c] .leaf)) 0x105a4 [0x1057d] (.node (.node (.node .leaf 0x105a5 [0x1057e]
    .leaf) 0x105a6 [0x1057f] .leaf) 0x105a7 [0x10580] (.node (.node .leaf 0x105a8 [0x10581] .leaf) 0x105a9
    [0x10582] .leaf)))) 0x105aa [0x10583] (.node (.node (.node (.node (.node .leaf 0x105ab [0x10584] .leaf)
    0x105ac [0x10585] .leaf) 0x105ad [0x10586] (.node (.node .leaf 0x105ae [0x10587] .leaf) 0x105af [0x10588]
    .leaf)) 0x105b0 [0x10589] (.node (.node (.node .leaf 0x105b1 [0x1058a] .leaf) 0x105b3 [0x1058c] .leaf)
    0x105b4 [0x1058d] (.node (.node .leaf 0x105b5 [0x1058e] .leaf) 0x105b6 [0x1058f] .leaf))) 0x105b7
    [0x10590] (.node (.node (.node (.node .leaf 0x105b8 [0x10591] .leaf) 0x105b9 [0x10592] .leaf) 0x105bb
    [0x10594] (.node (.node .leaf 0x105bc [0x10595] .leaf) 0x10cc0 [0x10c80] .leaf)) 0x10cc1 [0x10c81] (.node
    (.node (.node .leaf 0x10cc2 [0x10c82] .leaf) 0x10cc3 [0x10c83] .leaf) 0x10cc4 [0x10c84] (.node (.node
    .leaf 0x10cc5 [0x10c85] .leaf) 0x10cc6 [0x10c86] .leaf))))) 0x10cc7 [0x10c87] (.node (.node (.node (.node
    (.node (.node .leaf 0x10cc8 [0x10c88] .leaf) 0x10cc9 [0x10c89] .leaf) 0x10cca [0x10c8a] (.node (.node
    .leaf 0x10ccb [0x10c8b] .leaf) 0x10ccc [0x10c8c] .leaf)) 0x10ccd [0x10c8d] (.node (.node (.node .leaf
    0x10cce [0x10c8e] .leaf) 0x10ccf [0x10c8f] .leaf) 0x10cd0 [0x10c90] (.node (.node .leaf 0x10cd1 [0x10c91]
    .leaf) 0x10cd2 [0x10c92] .leaf))) 0x10cd3 [0x10c93] (.node (.node (.node (.node .leaf 0x10cd4 [0x10c94]
    .leaf) 0x10cd5 [0x10c95] .leaf) 0x10cd6 [0x10c96] (.node (.node .leaf 0x10cd7 [0x10c97] .leaf) 0x10cd8
    [0x10c98] .leaf)) 0x10cd9 [0x10c99] (.node (.node (.node .leaf 0x10cda [0x10c9a] .leaf) 0x10cdb [0x10c9b]
    .leaf) 0x10cdc [0x10c9c] (.node (.node .leaf 0x10cdd [0x10c9d] .leaf) 0x10cde [0x10c9e] .leaf)))) 0x10cdf
    [0x10c9f] (.node (.node (.node (.node (.node .leaf 0x10ce0 [0x10ca0] .leaf) 0x10ce1 [0x10ca1] .leaf)
    0x10ce2 [0x10ca2] (.node (.node .leaf 0x10ce3 [0x10ca3] .leaf) 0x10ce4 [0x10ca4] .leaf)) 0x10ce5 [0x10ca5]
    (.node (.node (.node .leaf 0x10ce6 [0x10ca6] .leaf) 0x10ce7 [0x10ca7] .leaf) 0x10ce8 [0x10ca8] (.node
    (.node .leaf 0x10ce9 [0x10ca9] .leaf) 0x10cea [0x10caa] .leaf))) 0x10ceb [0x10cab] (.node (.node (.node
    (.node .leaf 0x10cec [0x10cac] .leaf) 0x10ced [0x10cad] .leaf) 0x10cee [0x10cae] (.node (.node .leaf
    0x10cef [0x10caf] .leaf) 0x10cf0 [0x10cb0] .leaf)) 0x10cf1 [0x10cb1] (.node (.node (.node .leaf 0x10cf2
    [0x10cb2] .leaf) 0x118c0 [0x118a0] .leaf) 0x118c1 [0x118a1] (.node .leaf 0x118c2 [0x118a2] .leaf))))))
    0x118c3 [0x118a3] (.node (.node (.node (.node (.node (.node (.node .leaf 0x118c4 [0x118a4] .leaf) 0x118c5
    [0x118a5] .leaf) 0x118c6 [0x118a6] (.node (.node .leaf 0x118c7 [0x118a7] .leaf) 0x118c8 [0x118a8] .leaf))
    0x118c9 [0x118a9] (.node (.node (.node .leaf 0x118ca [0x118aa] .leaf) 0x118cb [0x118ab] .leaf) 0x118cc
    [0x118ac] (.node (.node .leaf 0x118cd [0x118ad] .leaf) 0x118ce [0x118ae] .leaf))) 0x118cf [0x118af] (.node
    (.node (.node (.node .leaf 0x118d0 [0x118b0] .leaf) 0x118d1 [0x118b1] .leaf) 0x118d2 [0x118b2] (.node
    (.node .leaf 0x118d3 [0x118b3] .leaf) 0x118d4 [0x118b4] .leaf)) 0x118d5 [0x118b5] (.node (.node (.node
    .leaf 0x118d6 [0x118b6] .leaf) 0x118d7 [0x118b7] .leaf) 0x118d8 [0x118b8] (.node (.node .leaf 0x118d9
    [0x118b9] .leaf) 0x118da [0x118ba] .leaf)))) 0x118db [0x118bb] (.node (.node (.node (.node (.node .leaf
    0x118dc [0x118bc] .leaf) 0x118dd [0x118bd] .leaf) 0x118de [0x118be] (.node (.node .leaf 0x118df [0x118bf]
    .leaf) 0x16e60 [0x16e40] .leaf)) 0x16e61 [0x16e41] (.node (.node (.node .leaf 0x16e62 [0x16e42] .leaf)
    0x16e63 [0x16e43] .leaf) 0x16e64 [0x16e44] (.node (.node .leaf 0x16e65 [0x16e45] .leaf) 0x16e66 [0x16e46]
    .leaf))) 0x16e67 [0x16e47] (.node (.node (.node (.node .leaf 0x16e68 [0x16e48] .leaf) 0x16e69 [0x16e49]
    .leaf) 0x16e6a [0x16e4a] (.node (.node .leaf 0x16e6b [0x16e4b] .leaf) 0x16e6c [0x16e4c] .leaf)) 0x16e6d
    [0x16e4d] (.node (.node (.node .leaf 0x16e6e [0x16e4e] .leaf) 0x16e6f [0x16e4f] .leaf) 0x16e70 [0x16e50]
    (.node (.node .leaf 0x16e71 [0x16e51] .leaf) 0x16e72 [0x16e52] .leaf))))) 0x16e73 [0x16e53] (.node (.node
    (.node (.node (.node (.node .leaf 0x16e74 [0x16e54] .leaf) 0x16e75 [0x16e55] .leaf) 0x16e76 [0x16e56]
    (.node (.node .leaf 0x16e77 [0x16e57] .leaf) 0x16e78 [0x16e58] .leaf)) 0x16e79 [0x16e59] (.node (.node
    (.node .leaf 0x16e7a [0x16e5a] .leaf) 0x16e7b [0x16e5b] .leaf) 0x16e7c [0x16e5c] (.node (.node .leaf
    0x16e7d [0x16e5d] .leaf) 0x16e7e [0x16e5e] .leaf))) 0x16e7f [0x16e5f] (.node (.node (.node (.node .leaf
    0x1e922 [0x1e900] .leaf) 0x1e923 [0x1e901] .leaf) 0x1e924 [0x1e902] (.node (.node .leaf 0x1e925 [0x1e903]
    .leaf) 0x1e926 [0x1e904] .leaf)) 0x1e927 [0x1e905] (.node (.node (.node .leaf 0x1e928 [0x1e906] .leaf)
    0x1e929 [0x1e907] .leaf) 0x1e92a [0x1e908] (.node (.node .leaf 0x1e92b [0x1e909] .leaf) 0x1e92c [0x1e90a]
    .leaf)))) 0x1e92d [0x1e90b] (.node (.node (.node (.node (.node .leaf 0x1e92e [0x1e90c] .leaf) 0x1e92f
    [0x1e90d] .leaf) 0x1e930 [0x1e90e] (.node (.node .leaf 0x1e931 [0x1e90f] .leaf) 0x1e932 [0x1e910] .leaf))
    0x1e933 [0x1e911] (.node (.node (.node .leaf 0x1e934 [0x1e912] .leaf) 0x1e935 [0x1e913] .leaf) 0x1e936
    [0x1e914] (.node (.node .leaf 0x1e937 [0x1e915] .leaf) 0x1e938 [0x1e916] .leaf))) 0x1e939 [0x1e917] (.node
    (.node (.node (.node .leaf 0x1e93a [0x1e918] .leaf) 0x1e93b [0x1e919] .leaf) 0x1e93c [0x1e91a] (.node
    (.node .leaf 0x1e93d [0x1e91b] .leaf) 0x1e93e [0x1e91c] .leaf)) 0x1e93f [0x1e91d] (.node (.node (.node
    .leaf 0x1e940 [0x1e91e] .leaf) 0x1e941 [0x1e91f] .leaf) 0x1e942 [0x1e920] (.node .leaf 0x1e943 [0x1e921]
    .leaf))))))))))

set_option maxHeartbeats 4000000 in
set_option maxRecDepth 40000 in
/-- The search tree holds exactly the entries of `upperTable`, in order. -/
theorem upperTree_flatten : flattenUTree upperTree = upperTable := by rfl

/-- Presence of an entry somewhere in a tree. -/
def UMem (n : Nat) (v : List Nat) : UTree → Prop
  | .leaf => False
  | .node l k w r => (n = k ∧ v = w) ∨ UMem n v l ∨ UMem n v r

/-- Uppercase mapping of one character, as Python `str.upper` applies it
per codepoint (characters outside the table map to themselves). -/
def pyUpperChar (c : Char) : List Char :=
  match ufind c.toNat upperTree with
  | some l => l.map Char.ofNat
  | none => [c]

/-- Embedded Python `str.upper`. -/
def pyUpper (s : List Char) : List Char := s.flatMap pyUpperChar

/-- Embedded Python `str.strip()` (no argument): drop leading and trailing
whitespace. -/
def pyStrip (s : List Char) : List Char :=
  ((s.dropWhile pyIsSpace).reverse.dropWhile pyIsSpace).reverse

/-- Embedded Python `str.split()` (no argument): the maximal runs of
non-whitespace characters, in order; runs of whitespace act as separators and
no empty strings are produced.  A whitespace character is skipped; a
non-whitespace character starts a new word exactly when it is the last
character or the next character is whitespace, and otherwise extends the word
started by the next character. -/
def pySplit : List Char → List (List Char)
  | [] => []
  | [c] => if pyIsSpace c then [] else [[c]]
  | c :: d :: cs =>
    if pyIsSpace c then pySplit (d :: cs)
    else
      match pySplit (d :: cs) with
      | [] => [[c]]
      | w :: rest => if pyIsSpace d then [c] :: w :: rest else (c :: w) :: rest

/-- Embedded Python `' '.join`. -/
def joinSpace : List (List Char) → List Char
  | [] => []
  | [w] => w
  | w :: rest => w ++ ' ' :: joinSpace rest

/-- `MongoStorage.normalize_text` from `bot.py`:
`' '.join(text.strip().upper().split())`. -/
def normalize_text (text : List Char) : List Char :=
  joinSpace (pySplit (pyUpper (pyStrip text)))

/-- One item of a validation pattern: `\d`, `[A-Z]`, or a literal space. -/
inductive PatItem where
  | D
  | L
  | SP
deriving DecidableEq

/-- Matching of one pattern item against one character. -/
def matchItem : PatItem → Char → Bool
  | .D, c => isReDigit c
  | .L, c => decide (0x41 ≤ c.toNat) && decide (c.toNat ≤ 0x5A)
  | .SP, c => c == ' '

/-- Matching of a fixed item sequence against a string, with the semantics of
Python `re.match` on a pattern of the form `^items$`: anchored at the start,
and `$` accepts either the end of the string or a position just before a
single final newline. -/
def matchSeq : List PatItem → List Char → Bool
  | [], rest => rest == [] || rest == ['\n']
  | _ :: _, [] => false
  | i :: il, c :: cs => matchItem i c && matchSeq il cs

/-- Full-string anchored matching: the whole string, and nothing but the
string, is consumed by the items.  This is the reading "full-string match
anchored at both start and end" used by the specification. -/
def fullMatch : List PatItem → List Char → Bool
  | [], [] => true
  | [], _ :: _ => false
  | _ :: _, [] => false
  | i :: il, c :: cs => matchItem i c && fullMatch il cs

/-- The eight accepted shapes of `TelegramBot.validate_format`, in source
order (the two spaceless all-digit shapes are both kept, as in the source). -/
def patterns : List (List PatItem) :=
  [ [.D, .D, .SP, .D, .D, .SP, .D, .D, .D],
    [.D, .D, .D, .SP, .L, .L, .SP, .D, .D],
    [.D, .D, .D, .SP, .D, .D, .SP, .D, .D],
    [.D, .D, .SP, .L, .L, .SP, .D, .D, .D],
    [.D, .D, .D, .D, .D, .D, .D],
    [.D, .D, .D, .L, .L, .D, .D],
    [.D, .D, .D, .D, .D, .D, .D],
    [.D, .D, .L, .L, .D, .D, .D] ]

/-- `TelegramBot.validate_format` from `bot.py`: the argument is normalized by
the inlined expression `' '.join(text.strip().upper().split())` (textually the
same computation as `normalize_text`), then tested against the eight anchored
patterns with `re.match`, accepting iff any matches. -/
def validate_format (text : List Char) : Bool :=
  let t := joinSpace (pySplit (pyUpper (pyStrip text)))
  patterns.any (fun p => matchSeq p t)


/-- One stored association, as inserted by `MongoStorage.save_record`:
document with fields `license_plate`, `photo_data` (opaque blob of type `α`)
and `created_at` (timestamp, modelled as `Nat`). -/
structure PlateRecord (α : Type) where
  license_plate : List Char
  photo_data : α
  created_at : Nat
deriving DecidableEq

/-- `MongoStorage.save_record`: normalize the raw text and insert one new
document (MongoDB `insert_one` appends to the collection); `now` is the value
of `datetime.datetime.now()` at the call. -/
def save_record {α : Type} (db : List (PlateRecord α)) (text_data : List Char)
    (file_data : α) (now : Nat) : List (PlateRecord α) :=
  db ++ [{ license_plate := normalize_text text_data, photo_data := file_data,
           created_at := now }]

/-- `MongoStorage.search_record`: normalize the query, find every document
whose `license_plate` equals it (exact equality, collection order), and return
their photo blobs. -/
def search_record {α : Type} (db : List (PlateRecord α)) (search_text : List Char) :
    List α :=
  (db.filter fun r => r.license_plate == normalize_text search_text).map
    fun r => r.photo_data

/-- `MongoStorage.get_all_plates`: the distinct `license_plate` values. -/
def get_all_plates {α : Type} [DecidableEq α] (db : List (PlateRecord α)) :
    List (List Char) :=
  (db.map fun r => r.license_plate).dedup

/-- `MongoStorage.get_stats`: total record count and distinct-plate count. -/
def get_stats {α : Type} [DecidableEq α] (db : List (PlateRecord α)) : Nat × Nat :=
  (db.length, (get_all_plates db).length)

/-- Outbound effect of one text-message handling step. -/
inductive BotReply (α : Type) where
  | formatError
  | saved (n : Nat)
  | storeError
  | noResults
  | photos (l : List α)
deriving DecidableEq

/-- Result of one `handle_text_auto` step: the conversation's photo buffer
(`context.user_data['photo_data']`, `[]` when absent or cleared), the store
contents, and the reply sent. -/
structure StepResult (α : Type) where
  buffer : List α
  db : List (PlateRecord α)
  reply : BotReply α
deriving DecidableEq

/-- The save loop of `handle_text_auto` (`for photo_data in photo_data_list:
self.storage.save_record(text_data, photo_data)`), with the effects made
explicit: `fails i = true` means the i-th `insert_one` raises (StoreError), at
which point the loop aborts; `times i` is the timestamp the i-th insert
records.  Returns the resulting store and whether every save succeeded. -/
def runSaves {α : Type} (fails : Nat → Bool) (times : Nat → Nat)
    (text_data : List Char) : Nat → List α → List (PlateRecord α) →
    List (PlateRecord α) × Bool
  | _, [], db => (db, true)
  | i, p :: ps, db =>
    if fails i then (db, false)
    else runSaves fails times text_data (i + 1) ps (save_record db text_data p (times i))

/-- `TelegramBot.perform_search`: reject queries failing `validate_format`,
otherwise look the text up and reply with the photos, or with a no-results
notice when the result list is empty. -/
def perform_search {α : Type} (db : List (PlateRecord α)) (search_text : List Char) :
    BotReply α :=
  if !validate_format search_text then .formatError
  else
    let results := search_record db search_text
    if results.isEmpty then .noResults else .photos results

/-- `TelegramBot.handle_text_auto`: strip the message text; if photos are
buffered, validate the text as a plate (on failure reply with a format error
and change nothing), then save every buffered photo in order (on a failed
save keep the buffer and already-written records and reply with a store
error; on full success clear the buffer via `context.user_data.clear()` and
reply with the count); with no buffered photos, treat the text as a search
query. -/
def handle_text_auto {α : Type} (fails : Nat → Bool) (times : Nat → Nat)
    (buffer : List α) (db : List (PlateRecord α)) (text : List Char) :
    StepResult α :=
  let text_data := pyStrip text
  if !buffer.isEmpty then
    if !validate_format text_data then
      { buffer := buffer, db := db, reply := .formatError }
    else
      let r := runSaves fails times text_data 0 buffer db
      if r.2 then { buffer := [], db := r.1, reply := .saved buffer.length }
      else { buffer := buffer, db := r.1, reply := .storeError }
  else
    { buffer := buffer, db := db, reply := perform_search db text_data }

/-- The records the save loop writes for a photo list, starting at save
index `i`: one record per photo, all keyed by the same normalized text. -/
def recordsFrom {α : Type} (key : List Char) (times : Nat → Nat) :
    Nat → List α → List (PlateRecord α)
  | _, [] => []
  | i, p :: ps =>
    { license_plate := key, photo_data := p, created_at := times i } ::
      recordsFrom key times (i + 1) ps

/-- Specification-side normalization, following the words of the spec: trim
leading and trailing whitespace, upper-case all letters, and collapse every
internal run of whitespace to exactly one space character.  `collapseWs`
emits one space per maximal whitespace run (at the run's last character). -/
def collapseWs : List Char → List Char
  | [] => []
  | [c] => if pyIsSpace c then [' '] else [c]
  | c :: d :: cs =>
    if pyIsSpace c then
      if pyIsSpace d then collapseWs (d :: cs) else ' ' :: collapseWs (d :: cs)
    else c :: collapseWs (d :: cs)

/-- Specification-side normalization: trim, then upper-case, then collapse
internal whitespace runs. -/
def normalize_spec (s : List Char) : List Char :=
  collapseWs (pyUpper (pyStrip s))

/-- Valid (non-surrogate) Unicode scalar value, as a Boolean. -/
def isValidCode (n : Nat) : Bool :=
  decide (n < 0xd800) || (decide (0xdfff < n) && decide (n < 0x110000))

/-- Well-formedness of the stored mapping, checked by evaluation against a
fixed root tree: keys and output codepoints are valid non-whitespace scalar
values, outputs are nonempty, and no output codepoint is itself a key of the
root tree (Python `str.upper` is idempotent per codepoint). -/
def utreeOkAux (root : UTree) : UTree → Bool
  | .leaf => true
  | .node l k v r =>
    isValidCode k && !pyWhitespaceCodes.contains k && !v.isEmpty &&
      (v.all fun o => isValidCode o && !pyWhitespaceCodes.contains o &&
        (ufind o root).isNone) &&
      utreeOkAux root l && utreeOkAux root r

set_option maxHeartbeats 4000000 in
set_option maxRecDepth 40000 in
theorem upperTreeOk_true : utreeOkAux upperTree upperTree = true := by rfl

theorem ufind_mem : ∀ (t : UTree) (n : Nat) (v : List Nat),
    ufind n t = some v → UMem n v t := by
  intro t
  induction t with
  | leaf => intro n v h; cases h
  | node l k w r ihl ihr =>
    intro n v h
    rw [ufind] at h
    by_cases h1 : n < k
    · rw [if_pos h1] at h
      exact Or.inr (Or.inl (ihl n v h))
    · rw [if_neg h1] at h
      by_cases h2 : n = k
      · rw [if_pos h2] at h
        injection h with h3
        exact Or.inl ⟨h2, h3.symm⟩
      · rw [if_neg h2] at h
        exact Or.inr (Or.inr (ihr n v h))

theorem utreeOkAux_entry (root : UTree) : ∀ (t : UTree),
    utreeOkAux root t = true → ∀ (n : Nat) (v : List Nat), UMem n v t →
      isValidCode n = true ∧ pyWhitespaceCodes.contains n = false ∧ v ≠ [] ∧
        ∀ o ∈ v, isValidCode o = true ∧ pyWhitespaceCodes.contains o = false ∧
          ufind o root = none := by
  intro t
  induction t with
  | leaf => intro _ n v h; cases h
  | node l k w r ihl ihr =>
    intro hok n v hm
    simp only [utreeOkAux, Bool.and_eq_true, List.all_eq_true,
      Option.isNone_iff_eq_none, Bool.not_eq_true'] at hok
    obtain ⟨⟨⟨⟨⟨hval, hws⟩, hne⟩, hall⟩, hl⟩, hr⟩ := hok
    rcases hm with ⟨rfl, rfl⟩ | hm | hm
    · refine ⟨hval, hws, ?_, ?_⟩
      · intro hv
        rw [hv] at hne
        simp at hne
      · intro o ho
        obtain ⟨⟨ho1, ho2⟩, ho3⟩ := hall o ho
        exact ⟨ho1, ho2, ho3⟩
    · exact ihl hl n v hm
    · exact ihr hr n v hm

theorem upperTree_entry {n : Nat} {v : List Nat} (hm : UMem n v upperTree) :
    isValidCode n = true ∧ pyWhitespaceCodes.contains n = false ∧ v ≠ [] ∧
      ∀ o ∈ v, isValidCode o = true ∧ pyWhitespaceCodes.contains o = false ∧
        ufind o upperTree = none :=
  utreeOkAux_entry upperTree upperTree upperTreeOk_true n v hm

theorem toNat_ofNat_of_valid {n : Nat} (h : isValidCode n = true) :
    (Char.ofNat n).toNat = n := by
  have hv : n.isValidChar := by
    simp only [isValidCode, Bool.or_eq_true, Bool.and_eq_true, decide_eq_true_eq] at h
    exact h
  simp [Char.ofNat, hv, Char.toNat, Char.ofNatAux]
  rfl

theorem pyUpperChar_of_none {c : Char} (h : ufind c.toNat upperTree = none) :
    pyUpperChar c = [c] := by
  rw [pyUpperChar, h]

theorem pyUpperChar_ws {d : Char} (h : pyIsSpace d = true) : pyUpperChar d = [d] := by
  rw [pyUpperChar]
  cases hlk : ufind d.toNat upperTree with
  | none => rfl
  | some l =>
    have hmem := ufind_mem _ _ _ hlk
    have hnw := (upperTree_entry hmem).2.1
    rw [pyIsSpace] at h
    rw [h] at hnw
    cases hnw

theorem mem_pyUpperChar_fix {d c : Char} (hc : c ∈ pyUpperChar d) :
    pyUpperChar c = [c] := by
  rw [pyUpperChar] at hc
  cases hlk : ufind d.toNat upperTree with
  | none =>
    rw [hlk] at hc
    simp only [List.mem_singleton] at hc
    subst hc
    exact pyUpperChar_of_none hlk
  | some l =>
    rw [hlk] at hc
    obtain ⟨o, ho, rfl⟩ := List.mem_map.mp hc
    have hmem := ufind_mem _ _ _ hlk
    obtain ⟨hval, hws, hnone⟩ := (upperTree_entry hmem).2.2.2 o ho
    apply pyUpperChar_of_none
    rw [toNat_ofNat_of_valid hval]
    exact hnone

theorem mem_pyUpperChar_not_ws {d c : Char} (hd : pyIsSpace d = false)
    (hc : c ∈ pyUpperChar d) : pyIsSpace c = false := by
  rw [pyUpperChar] at hc
  cases hlk : ufind d.toNat upperTree with
  | none =>
    rw [hlk] at hc
    simp only [List.mem_singleton] at hc
    subst hc
    exact hd
  | some l =>
    rw [hlk] at hc
    obtain ⟨o, ho, rfl⟩ := List.mem_map.mp hc
    have hmem := ufind_mem _ _ _ hlk
    obtain ⟨hval, hws, _⟩ := (upperTree_entry hmem).2.2.2 o ho
    rw [pyIsSpace, toNat_ofNat_of_valid hval]
    exact hws

theorem pyUpperChar_ne_nil (d : Char) : pyUpperChar d ≠ [] := by
  rw [pyUpperChar]
  cases hlk : ufind d.toNat upperTree with
  | none => simp
  | some l =>
    have hmem := ufind_mem _ _ _ hlk
    have hne := (upperTree_entry hmem).2.2.1
    simp [hne]

theorem mem_pyUpper {c : Char} {s : List Char} :
    c ∈ pyUpper s ↔ ∃ d ∈ s, c ∈ pyUpperChar d := by
  rw [pyUpper]
  exact List.mem_flatMap

theorem pyUpper_fix_of_all {s : List Char} (h : ∀ c ∈ s, pyUpperChar c = [c]) :
    pyUpper s = s := by
  induction s with
  | nil => rfl
  | cons c cs ih =>
    rw [pyUpper, List.flatMap_cons, h c (List.mem_cons_self _ _)]
    rw [pyUpper] at ih
    rw [ih fun x hx => h x (List.mem_cons_of_mem _ hx)]
    rfl


theorem pyStrip_eq_rdrop (s : List Char) :
    pyStrip s = (s.dropWhile pyIsSpace).rdropWhile pyIsSpace := rfl

theorem pyUpper_idem (s : List Char) : pyUpper (pyUpper s) = pyUpper s := by
  apply pyUpper_fix_of_all
  intro c hc
  obtain ⟨d, _, hcd⟩ := mem_pyUpper.mp hc
  exact mem_pyUpperChar_fix hcd

theorem dropWhile_head_false {α : Type} (p : α → Bool) :
    ∀ {l : List α} {c : α} {cs : List α}, l.dropWhile p = c :: cs → p c = false := by
  intro l
  induction l with
  | nil => intro c cs h; cases h
  | cons a l ih =>
    intro c cs h
    rw [List.dropWhile_cons] at h
    by_cases ha : p a
    · rw [if_pos ha] at h
      exact ih h
    · rw [if_neg ha] at h
      cases h
      exact Bool.eq_false_iff.mpr ha

theorem pyStrip_head {s : List Char} {c : Char} {cs : List Char}
    (h : pyStrip s = c :: cs) : pyIsSpace c = false := by
  have hpre : (s.dropWhile pyIsSpace).rdropWhile pyIsSpace <+: s.dropWhile pyIsSpace :=
    List.rdropWhile_prefix _ _
  rw [← pyStrip_eq_rdrop, h] at hpre
  obtain ⟨t, ht⟩ := hpre
  exact dropWhile_head_false pyIsSpace ((List.cons_append c cs t) ▸ ht).symm

theorem pyStrip_getLast {s : List Char} {c : Char}
    (h : (pyStrip s).getLast? = some c) : pyIsSpace c = false := by
  rw [pyStrip, List.getLast?_reverse] at h
  cases hd : (s.dropWhile pyIsSpace).reverse.dropWhile pyIsSpace with
  | nil => rw [hd] at h; cases h
  | cons d ds =>
    rw [hd] at h
    simp only [List.head?_cons, Option.some_inj] at h
    subst h
    exact dropWhile_head_false pyIsSpace hd

theorem pyStrip_eq_self {s : List Char}
    (hh : ∀ c cs, s = c :: cs → pyIsSpace c = false)
    (hl : ∀ c, s.getLast? = some c → pyIsSpace c = false) : pyStrip s = s := by
  have h1 : s.dropWhile pyIsSpace = s := by
    cases s with
    | nil => rfl
    | cons c cs =>
      rw [List.dropWhile_cons, if_neg]
      rw [hh c cs rfl]
      simp
  rw [pyStrip_eq_rdrop, h1, List.rdropWhile]
  have h2 : s.reverse.dropWhile pyIsSpace = s.reverse := by
    cases hr : s.reverse with
    | nil => rfl
    | cons d ds =>
      have hgl : s.getLast? = some d := by
        rw [← List.head?_reverse, hr, List.head?_cons]
      have hd : pyIsSpace d = false := hl d hgl
      simp [List.dropWhile_cons, hd]
  rw [h2, List.reverse_reverse]

theorem pyStrip_idem (s : List Char) : pyStrip (pyStrip s) = pyStrip s :=
  pyStrip_eq_self (fun _ _ h => pyStrip_head h) (fun _ h => pyStrip_getLast h)

theorem pySplit_cons_ws {c : Char} (h : pyIsSpace c = true) (cs : List Char) :
    pySplit (c :: cs) = pySplit cs := by
  cases cs with
  | nil => simp [pySplit, h]
  | cons d ds => simp [pySplit, h]

theorem pySplit_singleton {c : Char} (h : pyIsSpace c = false) :
    pySplit [c] = [[c]] := by
  simp [pySplit, h]

theorem pySplit_ne_nil {c : Char} (h : pyIsSpace c = false) (cs : List Char) :
    pySplit (c :: cs) ≠ [] := by
  cases cs with
  | nil => simp [pySplit, h]
  | cons d ds =>
    cases hsp : pySplit (d :: ds) with
    | nil => simp [pySplit, h, hsp]
    | cons w rest =>
      cases hd : pyIsSpace d with
      | true => simp [pySplit, h, hsp, hd]
      | false => simp [pySplit, h, hsp, hd]

theorem pySplit_cons_nonws_ws {c d : Char} (hc : pyIsSpace c = false)
    (hd : pyIsSpace d = true) (cs : List Char) :
    pySplit (c :: d :: cs) = [c] :: pySplit (d :: cs) := by
  cases hsp : pySplit (d :: cs) with
  | nil => simp [pySplit, hc, hd, hsp]
  | cons w rest => simp [pySplit, hc, hd, hsp]

theorem pySplit_cons_nonws_nonws {c d : Char} {cs : List Char} {w : List Char}
    {rest : List (List Char)} (hc : pyIsSpace c = false) (hd : pyIsSpace d = false)
    (hsp : pySplit (d :: cs) = w :: rest) :
    pySplit (c :: d :: cs) = (c :: w) :: rest := by
  simp [pySplit, hc, hd, hsp]

theorem pySplit_head_exists {d : Char} (hd : pyIsSpace d = false) (ds : List Char) :
    ∃ w rest, pySplit (d :: ds) = w :: rest := by
  cases hq : pySplit (d :: ds) with
  | nil => exact absurd hq (pySplit_ne_nil hd ds)
  | cons w rest => exact ⟨w, rest, rfl⟩

theorem pySplit_words : ∀ (t : List Char), ∀ w ∈ pySplit t,
    w ≠ [] ∧ ∀ c ∈ w, pyIsSpace c = false := by
  intro t
  induction t with
  | nil => simp [pySplit]
  | cons a cs ih =>
    intro w hw
    cases ha : pyIsSpace a with
    | true =>
      rw [pySplit_cons_ws ha] at hw
      exact ih w hw
    | false =>
      cases cs with
      | nil =>
        rw [pySplit_singleton ha] at hw
        simp only [List.mem_singleton] at hw
        subst hw
        refine ⟨by simp, ?_⟩
        intro c hc
        simp only [List.mem_singleton] at hc
        subst hc
        exact ha
      | cons d ds =>
        cases hd : pyIsSpace d with
        | true =>
          rw [pySplit_cons_nonws_ws ha hd] at hw
          rcases List.mem_cons.mp hw with rfl | hw'
          · refine ⟨by simp, ?_⟩
            intro c hc
            simp only [List.mem_singleton] at hc
            subst hc
            exact ha
          · exact ih w hw'
        | false =>
          obtain ⟨w₀, rest, hsp⟩ := pySplit_head_exists hd ds
          rw [pySplit_cons_nonws_nonws ha hd hsp] at hw
          rcases List.mem_cons.mp hw with rfl | hw'
          · have h₀ := ih w₀ (by rw [hsp]; simp)
            refine ⟨by simp, ?_⟩
            intro c hc
            rcases List.mem_cons.mp hc with rfl | hc'
            · exact ha
            · exact h₀.2 c hc'
          · exact ih w (by rw [hsp]; simp [hw'])

theorem pySplit_subset : ∀ (t : List Char), ∀ w ∈ pySplit t, ∀ c ∈ w, c ∈ t := by
  intro t
  induction t with
  | nil => simp [pySplit]
  | cons a cs ih =>
    intro w hw c hc
    cases ha : pyIsSpace a with
    | true =>
      rw [pySplit_cons_ws ha] at hw
      exact List.mem_cons_of_mem _ (ih w hw c hc)
    | false =>
      cases cs with
      | nil =>
        rw [pySplit_singleton ha] at hw
        simp only [List.mem_singleton] at hw
        subst hw
        simpa using hc
      | cons d ds =>
        cases hd : pyIsSpace d with
        | true =>
          rw [pySplit_cons_nonws_ws ha hd] at hw
          rcases List.mem_cons.mp hw with rfl | hw'
          · simp only [List.mem_singleton] at hc
            subst hc
            simp
          · exact List.mem_cons_of_mem _ (ih w hw' c hc)
        | false =>
          obtain ⟨w₀, rest, hsp⟩ := pySplit_head_exists hd ds
          rw [pySplit_cons_nonws_nonws ha hd hsp] at hw
          rcases List.mem_cons.mp hw with rfl | hw'
          · rcases List.mem_cons.mp hc with rfl | hc'
            · simp
            · exact List.mem_cons_of_mem _ (ih w₀ (by rw [hsp]; simp) c hc')
          · exact List.mem_cons_of_mem _ (ih w (by rw [hsp]; simp [hw']) c hc)

theorem joinSpace_ne_nil {w : List Char} (hw : w ≠ []) (L : List (List Char)) :
    joinSpace (w :: L) ≠ [] := by
  cases L with
  | nil => simpa [joinSpace] using hw
  | cons x L' => simp [joinSpace]

theorem mem_joinSpace : ∀ {L : List (List Char)} {c : Char}, c ∈ joinSpace L →
    (∃ w ∈ L, c ∈ w) ∨ c = ' ' := by
  intro L
  induction L with
  | nil => simp [joinSpace]
  | cons w L ih =>
    intro c hc
    cases L with
    | nil =>
      left
      exact ⟨w, by simp, by simpa [joinSpace] using hc⟩
    | cons x L' =>
      simp only [joinSpace] at hc
      rcases List.mem_append.mp hc with h | h
      · left; exact ⟨w, by simp, h⟩
      · rcases List.mem_cons.mp h with h1 | h2
        · right; exact h1
        · rcases ih h2 with ⟨u, hu, hcu⟩ | h3
          · left; exact ⟨u, List.mem_cons_of_mem _ hu, hcu⟩
          · right; exact h3

theorem joinSpace_head? {w : List Char} (hw : w ≠ []) (L : List (List Char)) :
    (joinSpace (w :: L)).head? = w.head? := by
  cases L with
  | nil => rfl
  | cons x L' =>
    simp only [joinSpace]
    exact List.head?_append_of_ne_nil _ hw

theorem joinSpace_getLast_not_ws : ∀ {L : List (List Char)},
    (∀ u ∈ L, u ≠ [] ∧ ∀ c ∈ u, pyIsSpace c = false) →
    ∀ {c : Char}, (joinSpace L).getLast? = some c → pyIsSpace c = false := by
  intro L
  induction L with
  | nil => intro _ c h; cases h
  | cons w L ih =>
    intro hok c hc
    cases L with
    | nil =>
      have hw := hok w (by simp)
      simp only [joinSpace] at hc
      obtain ⟨hne, rfl⟩ := List.mem_getLast?_eq_getLast hc
      exact hw.2 _ (List.getLast_mem _)
    | cons x L' =>
      simp only [joinSpace] at hc
      rw [List.getLast?_append_of_ne_nil _ (by simp)] at hc
      have hx := hok x (by simp)
      have hjne : joinSpace (x :: L') ≠ [] := joinSpace_ne_nil hx.1 L'
      rw [← List.singleton_append, List.getLast?_append_of_ne_nil _ hjne] at hc
      exact ih (fun u hu => hok u (List.mem_cons_of_mem _ hu)) hc

theorem pySplit_word {w : List Char} (hw : w ≠ [])
    (hok : ∀ c ∈ w, pyIsSpace c = false) : pySplit w = [w] := by
  induction w with
  | nil => cases hw rfl
  | cons c w' ih =>
    have hc : pyIsSpace c = false := hok c (by simp)
    cases w' with
    | nil => exact pySplit_singleton hc
    | cons d w'' =>
      have hd : pyIsSpace d = false := hok d (by simp)
      exact pySplit_cons_nonws_nonws hc hd
        (ih (by simp) fun x hx => hok x (List.mem_cons_of_mem _ hx))

theorem pySplit_word_append {d : Char} (hd : pyIsSpace d = true) (r : List Char) :
    ∀ {w : List Char}, w ≠ [] → (∀ c ∈ w, pyIsSpace c = false) →
    pySplit (w ++ d :: r) = w :: pySplit (d :: r) := by
  intro w
  induction w with
  | nil => intro hw _; cases hw rfl
  | cons c w' ih =>
    intro _ hok
    have hc : pyIsSpace c = false := hok c (by simp)
    cases w' with
    | nil => simpa using pySplit_cons_nonws_ws hc hd r
    | cons e w'' =>
      have he : pyIsSpace e = false := hok e (by simp)
      have hrec := ih (by simp) fun x hx => hok x (List.mem_cons_of_mem _ hx)
      rw [List.cons_append]
      exact pySplit_cons_nonws_nonws hc he hrec

theorem pySplit_joinSpace : ∀ {L : List (List Char)},
    (∀ u ∈ L, u ≠ [] ∧ ∀ c ∈ u, pyIsSpace c = false) →
    pySplit (joinSpace L) = L := by
  intro L
  induction L with
  | nil => intro _; rfl
  | cons w L ih =>
    intro hok
    have hw := hok w (by simp)
    cases L with
    | nil => simpa [joinSpace] using pySplit_word hw.1 hw.2
    | cons x L' =>
      have hrest : ∀ u ∈ x :: L', u ≠ [] ∧ ∀ c ∈ u, pyIsSpace c = false :=
        fun u hu => hok u (List.mem_cons_of_mem _ hu)
      simp only [joinSpace]
      rw [pySplit_word_append (by decide) _ hw.1 hw.2,
        pySplit_cons_ws (by decide), ih hrest]

theorem pyStrip_normalize (s : List Char) :
    pyStrip (normalize_text s) = normalize_text s := by
  apply pyStrip_eq_self
  · intro c cs h
    rw [normalize_text] at h
    cases hsp : pySplit (pyUpper (pyStrip s)) with
    | nil => rw [hsp] at h; cases h
    | cons w L =>
      rw [hsp] at h
      have hw := pySplit_words _ w (by rw [hsp]; simp)
      have hh : (joinSpace (w :: L)).head? = w.head? := joinSpace_head? hw.1 L
      rw [h, List.head?_cons] at hh
      have : c ∈ w := by
        cases w with
        | nil => cases hw.1 rfl
        | cons c₀ w' =>
          simp only [List.head?_cons, Option.some_inj] at hh
          rw [← hh]
          simp
      exact hw.2 c this
  · intro c h
    rw [normalize_text] at h
    exact joinSpace_getLast_not_ws (pySplit_words _) h

theorem mem_normalize_fix {s : List Char} {c : Char} (hc : c ∈ normalize_text s) :
    pyUpperChar c = [c] := by
  rw [normalize_text] at hc
  rcases mem_joinSpace hc with ⟨w, hw, hcw⟩ | rfl
  · have hsub := pySplit_subset _ w hw c hcw
    obtain ⟨d, _, hcd⟩ := mem_pyUpper.mp hsub
    exact mem_pyUpperChar_fix hcd
  · exact pyUpperChar_ws (by decide)

theorem pyUpper_normalize (s : List Char) :
    pyUpper (normalize_text s) = normalize_text s :=
  pyUpper_fix_of_all fun _ hc => mem_normalize_fix hc

theorem pySplit_normalize (s : List Char) :
    pySplit (normalize_text s) = pySplit (pyUpper (pyStrip s)) := by
  conv_lhs => rw [normalize_text]
  exact pySplit_joinSpace (pySplit_words _)

theorem normalize_idem (s : List Char) :
    normalize_text (normalize_text s) = normalize_text s := by
  conv_lhs => rw [normalize_text]
  rw [pyStrip_normalize s, pyUpper_normalize s, pySplit_normalize s, ← normalize_text]

theorem newline_not_mem_normalize (s : List Char) : '\n' ∉ normalize_text s := by
  intro h
  rw [normalize_text] at h
  rcases mem_joinSpace h with ⟨w, hw, hcw⟩ | hsp
  · exact absurd ((pySplit_words _ w hw).2 _ hcw) (by decide)
  · exact absurd hsp (by decide)

theorem matchSeq_eq_fullMatch : ∀ (p : List PatItem) (t : List Char), '\n' ∉ t →
    matchSeq p t = fullMatch p t := by
  intro p
  induction p with
  | nil =>
    intro t h
    cases t with
    | nil => rfl
    | cons c cs =>
      have h2 : (c :: cs == ['\n']) = false := by
        rw [beq_eq_false_iff_ne]
        intro he
        apply h
        rw [he]
        simp
      simp [matchSeq, fullMatch, h2]
  | cons i il ih =>
    intro t h
    cases t with
    | nil => rfl
    | cons c cs =>
      simp only [matchSeq, fullMatch]
      rw [ih cs fun hm => h (List.mem_cons_of_mem _ hm)]

theorem fullMatch_classes : ∀ (p : List PatItem) (t : List Char),
    fullMatch p t = true → ∀ c ∈ t, ∃ i ∈ p, matchItem i c = true := by
  intro p
  induction p with
  | nil =>
    intro t h c hc
    cases t with
    | nil => cases hc
    | cons a as => exact absurd h (by simp [fullMatch])
  | cons i il ih =>
    intro t h c hc
    cases t with
    | nil => cases hc
    | cons a as =>
      simp only [fullMatch, Bool.and_eq_true] at h
      rcases List.mem_cons.mp hc with rfl | hc'
      · exact ⟨i, by simp, h.1⟩
      · obtain ⟨j, hj, hjc⟩ := ih as h.2 c hc'
        exact ⟨j, List.mem_cons_of_mem _ hj, hjc⟩

theorem validate_eq (s : List Char) :
    validate_format s = patterns.any fun p => matchSeq p (normalize_text s) := rfl

theorem validate_iff_fullMatch (s : List Char) :
    validate_format s = true ↔
      ∃ p ∈ patterns, fullMatch p (normalize_text s) = true := by
  rw [validate_eq, List.any_eq_true]
  constructor
  · rintro ⟨p, hp, hm⟩
    refine ⟨p, hp, ?_⟩
    rw [← matchSeq_eq_fullMatch p _ (newline_not_mem_normalize s)]
    exact hm
  · rintro ⟨p, hp, hm⟩
    refine ⟨p, hp, ?_⟩
    rw [matchSeq_eq_fullMatch p _ (newline_not_mem_normalize s)]
    exact hm

theorem matchItem_classes {i : PatItem} {c : Char} (h : matchItem i c = true) :
    isReDigit c = true ∨ (0x41 ≤ c.toNat ∧ c.toNat ≤ 0x5a) ∨ c = ' ' := by
  cases i with
  | D => exact Or.inl h
  | L =>
    simp only [matchItem, Bool.and_eq_true, decide_eq_true_eq] at h
    exact Or.inr (Or.inl h)
  | SP =>
    simp only [matchItem, beq_iff_eq] at h
    exact Or.inr (Or.inr h)

theorem validate_classes {s : List Char} (h : validate_format s = true) :
    ∀ c ∈ normalize_text s,
      isReDigit c = true ∨ (0x41 ≤ c.toNat ∧ c.toNat ≤ 0x5a) ∨ c = ' ' := by
  obtain ⟨p, _, hm⟩ := (validate_iff_fullMatch s).mp h
  intro c hc
  obtain ⟨i, _, hi⟩ := fullMatch_classes p _ hm c hc
  exact matchItem_classes hi

theorem normalize_pyStrip (s : List Char) :
    normalize_text (pyStrip s) = normalize_text s := by
  rw [normalize_text, pyStrip_idem, ← normalize_text]

theorem validate_pyStrip (s : List Char) :
    validate_format (pyStrip s) = validate_format s := by
  rw [validate_eq, validate_eq, normalize_pyStrip]

theorem joinSpace_cons_head (c : Char) (w : List Char) (L : List (List Char)) :
    joinSpace ((c :: w) :: L) = c :: joinSpace (w :: L) := by
  cases L with
  | nil => rfl
  | cons x L' => simp [joinSpace]

theorem pySplit_ne_nil_of_mem : ∀ {t : List Char} {c : Char}, c ∈ t →
    pyIsSpace c = false → pySplit t ≠ [] := by
  intro t
  induction t with
  | nil => intro c hc; cases hc
  | cons a t' ih =>
    intro c hc hws
    rcases List.mem_cons.mp hc with rfl | hc'
    · exact pySplit_ne_nil hws t'
    · cases ha : pyIsSpace a with
      | true =>
        rw [pySplit_cons_ws ha]
        exact ih hc' hws
      | false => exact pySplit_ne_nil ha t'

theorem pyUpper_ne_nil {v : List Char} (hv : v ≠ []) : pyUpper v ≠ [] := by
  cases v with
  | nil => cases hv rfl
  | cons c cs =>
    rw [pyUpper, List.flatMap_cons]
    intro h
    rcases List.append_eq_nil.mp h with ⟨h1, _⟩
    exact pyUpperChar_ne_nil c h1

theorem pyUpper_head_not_ws {v : List Char}
    (hh : ∀ c cs, v = c :: cs → pyIsSpace c = false) :
    ∀ e es, pyUpper v = e :: es → pyIsSpace e = false := by
  intro e es h
  cases v with
  | nil => simp [pyUpper] at h
  | cons c cs =>
    have hc := hh c cs rfl
    rw [pyUpper, List.flatMap_cons] at h
    have he : e ∈ pyUpperChar c := by
      cases hu : pyUpperChar c with
      | nil => exact absurd hu (pyUpperChar_ne_nil c)
      | cons u us =>
        rw [hu, List.cons_append] at h
        injection h with h1 _
        rw [← h1]
        simp
    exact mem_pyUpperChar_not_ws hc he

theorem pyUpper_getLast_not_ws : ∀ {v : List Char},
    (∀ e, v.getLast? = some e → pyIsSpace e = false) →
    ∀ e, (pyUpper v).getLast? = some e → pyIsSpace e = false := by
  intro v
  induction v with
  | nil => intro _ e h; simp [pyUpper] at h
  | cons c cs ih =>
    intro hok e h
    cases cs with
    | nil =>
      rw [pyUpper, List.flatMap_cons] at h
      simp only [List.flatMap_nil, List.append_nil] at h
      obtain ⟨hne, rfl⟩ := List.mem_getLast?_eq_getLast h
      have hc : pyIsSpace c = false := hok c (by simp)
      exact mem_pyUpperChar_not_ws hc (List.getLast_mem _)
    | cons d ds =>
      rw [pyUpper, List.flatMap_cons] at h
      have hne : (d :: ds).flatMap pyUpperChar ≠ [] := pyUpper_ne_nil (by simp)
      rw [List.getLast?_append_of_ne_nil _ hne] at h
      refine ih ?_ e h
      intro e' he'
      apply hok
      rw [List.getLast?_cons_cons]
      exact he'

theorem collapseWs_cases : ∀ (t : List Char),
    (∀ e, t.getLast? = some e → pyIsSpace e = false) →
    (∀ c, t.head? = some c → pyIsSpace c = false →
      collapseWs t = joinSpace (pySplit t)) ∧
    (∀ c, t.head? = some c → pyIsSpace c = true →
      collapseWs t = ' ' :: joinSpace (pySplit t)) := by
  intro t
  induction t with
  | nil =>
    intro _
    constructor <;> (intro c hc; cases hc)
  | cons a t' ih =>
    intro htr
    have htr' : ∀ e, t'.getLast? = some e → pyIsSpace e = false := by
      intro e he
      apply htr
      cases t' with
      | nil => cases he
      | cons b bs =>
        rw [List.getLast?_cons_cons]
        exact he
    have iht := ih htr'
    constructor
    · intro c hc hws'
      have hws : pyIsSpace a = false := by
        injection hc with h1
        rwa [← h1] at hws'
      cases t' with
      | nil =>
        rw [pySplit_singleton hws]
        simp [collapseWs, hws, joinSpace]
      | cons d ds =>
        have h1 : collapseWs (a :: d :: ds) = a :: collapseWs (d :: ds) := by
          simp [collapseWs, hws]
        cases hd : pyIsSpace d with
        | false =>
          obtain ⟨w, rest, hsp⟩ := pySplit_head_exists hd ds
          rw [h1, iht.1 d rfl hd, pySplit_cons_nonws_nonws hws hd hsp,
            joinSpace_cons_head, ← hsp]
        | true =>
          rw [h1, iht.2 d rfl hd, pySplit_cons_nonws_ws hws hd]
          have hne : pySplit (d :: ds) ≠ [] := by
            have hge := List.getLast?_eq_getLast_of_ne_nil
              (l := d :: ds) (by simp)
            have hwse := htr' _ hge
            exact pySplit_ne_nil_of_mem (List.getLast_mem _) hwse
          obtain ⟨m, M, hM⟩ : ∃ m M, pySplit (d :: ds) = m :: M := by
            cases hq : pySplit (d :: ds) with
            | nil => exact absurd hq hne
            | cons m M => exact ⟨m, M, rfl⟩
          rw [hM]
          simp [joinSpace]
    · intro c hc hws'
      have hws : pyIsSpace a = true := by
        injection hc with h1
        rwa [← h1] at hws'
      cases t' with
      | nil =>
        have := htr a (by simp)
        rw [hws] at this
        cases this
      | cons d ds =>
        cases hd : pyIsSpace d with
        | true =>
          have h1 : collapseWs (a :: d :: ds) = collapseWs (d :: ds) := by
            simp [collapseWs, hws, hd]
          rw [h1, iht.2 d rfl hd, pySplit_cons_ws hws]
        | false =>
          have h1 : collapseWs (a :: d :: ds) = ' ' :: collapseWs (d :: ds) := by
            simp [collapseWs, hws, hd]
          rw [h1, iht.1 d rfl hd, pySplit_cons_ws hws]

theorem normalize_eq_collapse (s : List Char) :
    normalize_text s = normalize_spec s := by
  rw [normalize_text, normalize_spec]
  have htr : ∀ e, (pyUpper (pyStrip s)).getLast? = some e → pyIsSpace e = false :=
    pyUpper_getLast_not_ws fun e he => pyStrip_getLast he
  cases hcase : pyUpper (pyStrip s) with
  | nil => rfl
  | cons c cs =>
    have hws : pyIsSpace c = false :=
      pyUpper_head_not_ws (fun _ _ h => pyStrip_head h) c cs hcase
    rw [hcase] at htr
    exact ((collapseWs_cases (c :: cs) htr).1 c rfl hws).symm

theorem isEmpty_false_of_ne {α : Type} {l : List α} (h : l ≠ []) :
    l.isEmpty = false := by
  cases l with
  | nil => cases h rfl
  | cons a t => rfl

theorem search_record_snoc {α : Type} (db : List (PlateRecord α))
    (rec : PlateRecord α) (q : List Char) :
    search_record (db ++ [rec]) q = search_record db q ++
      (if rec.license_plate = normalize_text q then [rec.photo_data] else []) := by
  rw [search_record, List.filter_append, List.map_append, search_record]
  congr 1
  by_cases h : rec.license_plate = normalize_text q
  · have hb : (rec.license_plate == normalize_text q) = true := beq_iff_eq.mpr h
    simp [List.filter, hb, h]
  · have hb : (rec.license_plate == normalize_text q) = false :=
      beq_eq_false_iff_ne.mpr h
    simp [List.filter, hb, h]

theorem search_record_nil_of_no_match {α : Type} {db : List (PlateRecord α)}
    {q : List Char} (h : ∀ r ∈ db, r.license_plate ≠ normalize_text q) :
    search_record db q = [] := by
  rw [search_record]
  have hf : db.filter (fun r => r.license_plate == normalize_text q) = [] := by
    rw [List.filter_eq_nil_iff]
    intro r hr
    simp only [beq_iff_eq]
    exact h r hr
  rw [hf]
  rfl

theorem recordsFrom_length {α : Type} (key : List Char) (times : Nat → Nat) :
    ∀ (i : Nat) (ps : List α), (recordsFrom key times i ps).length = ps.length := by
  intro i ps
  induction ps generalizing i with
  | nil => rfl
  | cons p ps ih => simp [recordsFrom, ih]

theorem recordsFrom_keys {α : Type} (key : List Char) (times : Nat → Nat) :
    ∀ (i : Nat) (ps : List α) (r : PlateRecord α), r ∈ recordsFrom key times i ps →
      r.license_plate = key := by
  intro i ps
  induction ps generalizing i with
  | nil => intro r hr; cases hr
  | cons p ps ih =>
    intro r hr
    rcases List.mem_cons.mp hr with rfl | hr'
    · rfl
    · exact ih _ r hr'

theorem recordsFrom_photos {α : Type} (key : List Char) (times : Nat → Nat) :
    ∀ (i : Nat) (ps : List α),
      (recordsFrom key times i ps).map (fun r => r.photo_data) = ps := by
  intro i ps
  induction ps generalizing i with
  | nil => rfl
  | cons p ps ih => simp [recordsFrom, ih]

theorem recordsFrom_map_key {α : Type} (key : List Char) (times : Nat → Nat) :
    ∀ (i : Nat) (ps : List α),
      (recordsFrom key times i ps).map (fun r => r.license_plate) =
        List.replicate ps.length key := by
  intro i ps
  induction ps generalizing i with
  | nil => rfl
  | cons p ps ih => simp [recordsFrom, ih, List.replicate_succ]

theorem runSaves_ok {α : Type} (fails : Nat → Bool) (times : Nat → Nat)
    (text : List Char) (hok : ∀ j, fails j = false) :
    ∀ (photos : List α) (i : Nat) (db : List (PlateRecord α)),
      runSaves fails times text i photos db =
        (db ++ recordsFrom (normalize_text text) times i photos, true) := by
  intro photos
  induction photos with
  | nil => intro i db; simp [runSaves, recordsFrom]
  | cons p ps ih =>
    intro i db
    rw [runSaves, if_neg (by rw [hok i]; simp), ih (i + 1)]
    simp [save_record, recordsFrom]

theorem runSaves_fail {α : Type} (fails : Nat → Bool) (times : Nat → Nat)
    (text : List Char) :
    ∀ (photos : List α) (k i : Nat) (db : List (PlateRecord α)),
      fails (i + k) = true → (∀ j < k, fails (i + j) = false) →
      k < photos.length →
      runSaves fails times text i photos db =
        (db ++ recordsFrom (normalize_text text) times i (photos.take k), false) := by
  intro photos
  induction photos with
  | nil =>
    intro k i db _ _ hk
    simp at hk
  | cons p ps ih =>
    intro k i db hfk hbef hk
    cases k with
    | zero =>
      rw [runSaves, if_pos (by simpa using hfk)]
      simp [recordsFrom]
    | succ k' =>
      have h0 : fails i = false := by simpa using hbef 0 (Nat.succ_pos _)
      rw [runSaves, if_neg (by rw [h0]; simp)]
      have hfk' : fails (i + 1 + k') = true := by
        rw [show i + 1 + k' = i + (k' + 1) by omega]
        exact hfk
      have hbef' : ∀ j < k', fails (i + 1 + j) = false := by
        intro j hj
        rw [show i + 1 + j = i + (j + 1) by omega]
        exact hbef (j + 1) (by omega)
      rw [ih k' (i + 1) _ hfk' hbef' (by simpa using hk)]
      simp [save_record, recordsFrom, List.take_succ_cons]

theorem runSaves_preserves {α : Type} (fails : Nat → Bool) (times : Nat → Nat)
    (text : List Char) :
    ∀ (photos : List α) (i : Nat) (db : List (PlateRecord α)),
      (∀ r ∈ db, normalize_text r.license_plate = r.license_plate) →
      ∀ r ∈ (runSaves fails times text i photos db).1,
        normalize_text r.license_plate = r.license_plate := by
  intro photos
  induction photos with
  | nil =>
    intro i db h r hr
    rw [runSaves] at hr
    exact h r hr
  | cons p ps ih =>
    intro i db h r hr
    rw [runSaves] at hr
    by_cases hf : fails i = true
    · rw [if_pos hf] at hr
      exact h r hr
    · rw [if_neg hf] at hr
      refine ih (i + 1) _ ?_ r hr
      intro r' hr'
      rcases List.mem_append.mp hr' with h1 | h1
      · exact h r' h1
      · simp only [List.mem_singleton] at h1
        subst h1
        exact normalize_idem _

theorem toFinset_replicate_card_le {α : Type} [DecidableEq α] (n : Nat) (k : α) :
    (List.replicate n k).toFinset.card ≤ 1 := by
  have hsub : (List.replicate n k).toFinset ⊆ {k} := by
    intro x hx
    rw [List.mem_toFinset] at hx
    rw [Finset.mem_singleton]
    exact (List.mem_replicate.mp hx).2
  calc (List.replicate n k).toFinset.card ≤ ({k} : Finset α).card :=
        Finset.card_le_card hsub
    _ = 1 := Finset.card_singleton k

theorem handle_db_eq {α : Type} (fails : Nat → Bool) (times : Nat → Nat)
    (buffer : List α) (db : List (PlateRecord α)) (text : List Char) :
    (handle_text_auto fails times buffer db text).db = db ∨
    (handle_text_auto fails times buffer db text).db =
      (runSaves fails times (pyStrip text) 0 buffer db).1 := by
  rw [handle_text_auto]
  by_cases hbe : buffer.isEmpty
  · left
    simp [hbe]
  · by_cases hv : validate_format (pyStrip text)
    · right
      by_cases hr : (runSaves fails times (pyStrip text) 0 buffer db).2
      · simp [hbe, hv, hr]
      · simp [hbe, hv, hr]
    · left
      simp [hbe, hv]

/-- Input of seven ARABIC-INDIC DIGIT characters (U+0660 through U+0666),
each of Unicode category Nd, hence matched by the `\d` class of the
spaceless seven-digit patterns. -/
def arabicDigitsPlate : List Char :=
  [Char.ofNat 0x660, Char.ofNat 0x661, Char.ofNat 0x662, Char.ofNat 0x663,
   Char.ofNat 0x664, Char.ofNat 0x665, Char.ofNat 0x666]

/-- C1: `validate_format` first normalizes its argument (by the inlined
expression equal to `normalize_text`) and accepts iff at least one of the
eight fixed shapes matches the normalized string fully (anchored at both
ends); the spec's four test vectors evaluate as stated. -/
theorem validate_format_matches_eight_shapes :
    (∀ s : List Char, validate_format s = true ↔
      ∃ p ∈ patterns, fullMatch p (normalize_text s) = true) ∧
    patterns.length = 8 ∧
    validate_format "12 34 567".toList = true ∧
    validate_format "1234567".toList = true ∧
    validate_format "AB 1234".toList = false ∧
    validate_format "123ab45".toList = true :=
  ⟨validate_iff_fullMatch, by decide, by decide, by decide, by decide, by decide⟩

set_option maxRecDepth 8192 in
/-- C2, counterexample: the claim "every character of an accepted normalized
string is an ASCII digit, an uppercase ASCII letter, or a space" is false:
a plate of seven ARABIC-INDIC DIGITs is accepted by `validate_format`
(Python's `\d` matches every Unicode Nd digit), yet none of its characters
is an ASCII digit, an ASCII uppercase letter, or a space. -/
theorem validate_accepts_nonascii_digit :
    validate_format arabicDigitsPlate = true ∧
    ¬ (∀ c ∈ normalize_text arabicDigitsPlate,
        (0x30 ≤ c.toNat ∧ c.toNat ≤ 0x39) ∨
        (0x41 ≤ c.toNat ∧ c.toNat ≤ 0x5a) ∨ c = ' ') := by
  constructor
  · decide
  · decide

/-- C2, amended: every character of the normalized form of an accepted
string is a Unicode decimal digit (category Nd, the class Python's `\d`
matches), an uppercase ASCII letter, or a space. -/
theorem validate_char_classes_unicode (s : List Char)
    (h : validate_format s = true) :
    ∀ c ∈ normalize_text s,
      isReDigit c = true ∨ (0x41 ≤ c.toNat ∧ c.toNat ≤ 0x5a) ∨ c = ' ' :=
  validate_classes h

/-- Witness for C2 amended: the accepted input "12 34 567" and its first
normalized character '1'. -/
theorem validate_char_classes_unicode_witness :
    validate_format "12 34 567".toList = true ∧
    (isReDigit '1' = true ∨ (0x41 ≤ '1'.toNat ∧ '1'.toNat ≤ 0x5a) ∨ '1' = ' ') :=
  ⟨by decide,
    validate_char_classes_unicode "12 34 567".toList (by decide) '1' (by decide)⟩

/-- C3: `normalize_text` is total and deterministic (it is a function), and
equals the specification's description: trim leading and trailing
whitespace, upper-case, and collapse every internal whitespace run to one
space (`normalize_spec`). -/
theorem normalize_text_trims_uppercases_collapses :
    ∀ s : List Char, normalize_text s = normalize_spec s :=
  normalize_eq_collapse

/-- C4: `normalize_text` is idempotent. -/
theorem normalize_text_idempotent :
    ∀ x : List Char, normalize_text (normalize_text x) = normalize_text x :=
  normalize_idem

/-- C5: round-trip of save and search.  After saving a photo under a text
whose key is K, a query with the same key returns the previous results plus
that photo (hence contains it exactly once when it was not there before),
and a query with a different key under which nothing was ever saved returns
the empty sequence; matching is exact equality on the stored key. -/
theorem save_search_roundtrip {α : Type} [DecidableEq α]
    (db : List (PlateRecord α)) (t q q' : List Char) (p : α) (now : Nat)
    (h1 : normalize_text q = normalize_text t)
    (h2 : normalize_text q' ≠ normalize_text t)
    (h3 : ∀ r ∈ db, r.license_plate ≠ normalize_text q')
    (hp : p ∉ search_record db q) :
    search_record (save_record db t p now) q = search_record db q ++ [p] ∧
    (search_record (save_record db t p now) q).count p = 1 ∧
    search_record (save_record db t p now) q' = [] := by
  have hrec : save_record db t p now = db ++
      [{ license_plate := normalize_text t, photo_data := p, created_at := now }] := rfl
  have heq : search_record (save_record db t p now) q =
      search_record db q ++ [p] := by
    rw [hrec, search_record_snoc, if_pos h1.symm]
  refine ⟨heq, ?_, ?_⟩
  · rw [heq, List.count_append, List.count_eq_zero.mpr hp]
    simp
  · rw [hrec, search_record_snoc, if_neg fun hc => h2 hc.symm,
      search_record_nil_of_no_match h3]
    simp

/-- Witness for C5 with one photo saved under "12 34 567" and queries that
differ in spacing resp. in key. -/
theorem save_search_roundtrip_witness :
    search_record (save_record ([] : List (PlateRecord Nat))
        "12 34 567".toList 7 0) "12  34   567".toList =
      search_record ([] : List (PlateRecord Nat)) "12  34   567".toList ++ [7] ∧
    (search_record (save_record ([] : List (PlateRecord Nat))
        "12 34 567".toList 7 0) "12  34   567".toList).count 7 = 1 ∧
    search_record (save_record ([] : List (PlateRecord Nat))
        "12 34 567".toList 7 0) "000AB00".toList = [] :=
  save_search_roundtrip [] "12 34 567".toList "12  34   567".toList
    "000AB00".toList 7 0 (by decide) (by decide) (by decide) (by decide)

/-- C6: with `n ≥ 1` buffered photos and a text passing `validate_format`
(and every insert succeeding), exactly `n = buffer.length` new records are
written, all sharing the plate key `normalize_text text`; the buffer is
cleared, the total record count grows by `n`, and the distinct-key count
grows by at most 1. -/
theorem batch_save_success {α : Type} [DecidableEq α]
    (fails : Nat → Bool) (times : Nat → Nat) (buffer : List α)
    (db : List (PlateRecord α)) (text : List Char)
    (hb : buffer ≠ []) (hv : validate_format text = true)
    (hok : ∀ j, fails j = false) :
    (handle_text_auto fails times buffer db text).buffer = [] ∧
    (handle_text_auto fails times buffer db text).reply = .saved buffer.length ∧
    (handle_text_auto fails times buffer db text).db =
      db ++ recordsFrom (normalize_text text) times 0 buffer ∧
    (∀ r ∈ recordsFrom (normalize_text text) times 0 buffer,
      r.license_plate = normalize_text text) ∧
    (recordsFrom (normalize_text text) times 0 buffer).length = buffer.length ∧
    (get_stats ((handle_text_auto fails times buffer db text).db)).1 =
      (get_stats db).1 + buffer.length ∧
    (get_stats ((handle_text_auto fails times buffer db text).db)).2 ≤
      (get_stats db).2 + 1 := by
  have hv' : validate_format (pyStrip text) = true := by
    rw [validate_pyStrip]
    exact hv
  have hrun := runSaves_ok fails times (pyStrip text) hok buffer 0 db
  have hkey := normalize_pyStrip text
  have hhandle : handle_text_auto fails times buffer db text =
      { buffer := [], db := db ++ recordsFrom (normalize_text text) times 0 buffer,
        reply := .saved buffer.length } := by
    rw [hkey] at hrun
    simp [handle_text_auto, isEmpty_false_of_ne hb, hv', hrun]
  have hstat1 : (get_stats ((handle_text_auto fails times buffer db text).db)).1 =
      (get_stats db).1 + buffer.length := by
    rw [hhandle]
    simp [get_stats, recordsFrom_length]
  have hstat2 : (get_stats ((handle_text_auto fails times buffer db text).db)).2 ≤
      (get_stats db).2 + 1 := by
    rw [hhandle]
    show ((db ++ recordsFrom (normalize_text text) times 0 buffer).map
        (fun r => r.license_plate)).dedup.length ≤
      (db.map fun r => r.license_plate).dedup.length + 1
    rw [List.map_append, recordsFrom_map_key]
    rw [← List.card_toFinset, ← List.card_toFinset, List.toFinset_append]
    calc ((db.map fun r => r.license_plate).toFinset ∪
          (List.replicate buffer.length (normalize_text text)).toFinset).card ≤
        (db.map fun r => r.license_plate).toFinset.card +
          (List.replicate buffer.length (normalize_text text)).toFinset.card :=
        Finset.card_union_le _ _
      _ ≤ (db.map fun r => r.license_plate).toFinset.card + 1 :=
        Nat.add_le_add_left (toFinset_replicate_card_le _ _) _
  exact ⟨by rw [hhandle], by rw [hhandle], by rw [hhandle],
    recordsFrom_keys _ _ _ _, recordsFrom_length _ _ _ _, hstat1, hstat2⟩

/-- Witness for C6: three photos, a valid plate, no failing insert. -/
theorem batch_save_success_witness :
    (handle_text_auto (fun _ => false) (fun i => i) [10, 20, 30]
      ([] : List (PlateRecord Nat)) "12 34 567".toList).reply = .saved 3 :=
  (@batch_save_success Nat _ (fun _ => false) (fun i => i) [10, 20, 30] []
    "12 34 567".toList (by decide) (by decide) (fun _ => rfl)).2.1

/-- C7: with buffered photos present and a text failing `validate_format`,
the handler reports a format error and leaves everything unchanged: same
buffer (same order), same store, conversation still awaiting a plate. -/
theorem format_error_keeps_state {α : Type} (fails : Nat → Bool)
    (times : Nat → Nat) (buffer : List α) (db : List (PlateRecord α))
    (text : List Char) (hb : buffer ≠ []) (hv : validate_format text = false) :
    handle_text_auto fails times buffer db text =
      { buffer := buffer, db := db, reply := .formatError } := by
  have hv' : validate_format (pyStrip text) = false := by
    rw [validate_pyStrip]
    exact hv
  simp [handle_text_auto, isEmpty_false_of_ne hb, hv']

/-- Witness for C7: two buffered photos and the invalid plate "AB 1234". -/
theorem format_error_keeps_state_witness :
    handle_text_auto (fun _ => false) (fun i => i) [10, 20]
      ([] : List (PlateRecord Nat)) "AB 1234".toList =
      { buffer := [10, 20], db := [], reply := .formatError } :=
  @format_error_keeps_state Nat (fun _ => false) (fun i => i) [10, 20] []
    "AB 1234".toList (by decide) (by decide)

/-- C8: when the save of the photo at position `k` fails (all earlier saves
succeeding), the buffer is kept intact, the records already written for the
first `k` photos remain in the store (no rollback), and a store error is
reported: the batch is not atomic. -/
theorem partial_save_no_rollback {α : Type} (fails : Nat → Bool)
    (times : Nat → Nat) (buffer : List α) (db : List (PlateRecord α))
    (text : List Char) (k : Nat) (hb : buffer ≠ [])
    (hv : validate_format text = true) (hk : k < buffer.length)
    (hfk : fails k = true) (hbef : ∀ j < k, fails j = false) :
    handle_text_auto fails times buffer db text =
      { buffer := buffer,
        db := db ++ recordsFrom (normalize_text text) times 0 (buffer.take k),
        reply := .storeError } := by
  have hv' : validate_format (pyStrip text) = true := by
    rw [validate_pyStrip]
    exact hv
  have hrun := runSaves_fail fails times (pyStrip text) buffer k 0 db
    (by simpa using hfk) (fun j hj => by simpa using hbef j hj) hk
  have hkey := normalize_pyStrip text
  rw [hkey] at hrun
  simp [handle_text_auto, isEmpty_false_of_ne hb, hv', hrun]

/-- Witness for C8: three photos, the second insert (index 1) fails; the
record for the first photo persists and the buffer is kept. -/
theorem partial_save_no_rollback_witness :
    handle_text_auto (fun i => decide (i = 1)) (fun i => i) [10, 20, 30]
      ([] : List (PlateRecord Nat)) "12 34 567".toList =
      { buffer := [10, 20, 30],
        db := [] ++ recordsFrom (normalize_text "12 34 567".toList)
          (fun i => i) 0 ([10, 20, 30].take 1),
        reply := .storeError } :=
  @partial_save_no_rollback Nat (fun i => decide (i = 1)) (fun i => i)
    [10, 20, 30] [] "12 34 567".toList 1 (by decide) (by decide) (by decide)
    (by decide) (fun j hj => by
      have hj0 : j = 0 := by omega
      subst hj0
      rfl)

/-- C9: search is invariant under normalization of its query, because
`search_record` normalizes its argument (and `normalize_text` is
idempotent): a raw query and its normalized form give identical results. -/
theorem search_invariant_under_normalization {α : Type} :
    ∀ (db : List (PlateRecord α)) (s : List Char),
      search_record db s = search_record db (normalize_text s) := by
  intro db s
  rw [search_record, search_record, normalize_idem]

/-- Every stored record's key is a fixed point of `normalize_text`. -/
def DbNormalized {α : Type} (db : List (PlateRecord α)) : Prop :=
  ∀ r ∈ db, normalize_text r.license_plate = r.license_plate

instance {α : Type} (db : List (PlateRecord α)) : Decidable (DbNormalized db) :=
  inferInstanceAs (Decidable (∀ r ∈ db,
    normalize_text r.license_plate = r.license_plate))

/-- C10: the invariant "every stored `plate_key` is a fixed point of
`normalize_text`" holds for the empty store and is preserved by
`save_record` (which normalizes the raw text before inserting) and by every
`handle_text_auto` step. -/
theorem plate_key_fixed_point_invariant :
    (∀ (α : Type), DbNormalized ([] : List (PlateRecord α))) ∧
    (∀ (α : Type) (db : List (PlateRecord α)) (t : List Char) (p : α) (now : Nat),
      DbNormalized db → DbNormalized (save_record db t p now)) ∧
    (∀ (α : Type) (fails : Nat → Bool) (times : Nat → Nat) (buffer : List α)
      (db : List (PlateRecord α)) (text : List Char),
      DbNormalized db →
        DbNormalized ((handle_text_auto fails times buffer db text).db)) := by
  refine ⟨?_, ?_, ?_⟩
  · intro α r hr
    cases hr
  · intro α db t p now h r hr
    rcases List.mem_append.mp hr with h1 | h1
    · exact h r h1
    · simp only [List.mem_singleton] at h1
      subst h1
      exact normalize_idem _
  · intro α fails times buffer db text h
    rcases handle_db_eq fails times buffer db text with heq | heq
    · rw [heq]
      exact h
    · rw [heq]
      exact runSaves_preserves fails times (pyStrip text) buffer 0 db h
/-- Witness for C10: the preservation clauses applied to a concrete store. -/
theorem plate_key_fixed_point_invariant_witness :
    DbNormalized (save_record ([] : List (PlateRecord Nat)) "ab 12".toList 5 3) :=
  plate_key_fixed_point_invariant.2.1 Nat [] "ab 12".toList 5 3 (by decide)

end Avto
